import Mathlib

/-!
# GoApp authentication core: token issuance, rotation and revocation

A shallow embedding of

* `pkg/jwt/token.go` (`TokenManager`),
* `internal/auth/store/user_device_postgres.go`, `internal/auth/store/postgres.go`
  (the SQL statements, read as operations on tables),
* `internal/auth/service/service.go` (`AuthService`),
* `internal/auth/middleware/auth_interceptor.go` (`UnaryAuthInterceptor`).

Conventions.

* `time.Time` is an integer count of nanoseconds since the Unix epoch and
  `time.Duration` an integer count of nanoseconds.
* Every read of the environment made by the Go code (`time.Now()`,
  `uuid.NewString()`, the outcome of a database round trip) is an explicit
  argument of the embedded function.
* The wire format of a signed token (base64url, JSON), the HMAC primitive and
  SHA-256 belong to external packages; they are the fields of `Libs`, and
  the facts used about them are the hypothesis `Libs.Lawful`.
* The control flow of `github.com/golang-jwt/jwt/v5` that the repository relies
  on (`Parser.ParseWithClaims`, `Validator.Validate`, `NewNumericDate`) is
  written out in namespace `jwtlib`.
-/

namespace GoApp

/-! ## Time

Values of Go's `time.Time` (nanoseconds since the Unix epoch) and of
`time.Duration` (nanoseconds) both have the type `Int`. -/

/-- Go `time.Second`. -/
def Second : Int := 1000000000

/-- Go `time.Minute`. -/
def Minute : Int := 60 * Second

/-- Go `time.Hour`. -/
def Hour : Int := 60 * Minute

/-- Go `time.Time.Truncate(d)` for `d > 0`: round down to a multiple of `d`. -/
def Truncate (t : Int) (d : Int) : Int := t - t % d

/-- Go `t.Before(u)`. -/
def Before (t u : Int) : Bool := decide (t < u)

/-- The zero `time.Time` (January 1, year 1, 00:00:00 UTC) in Unix nanoseconds. -/
def zeroTime : Int := -62135596800 * Second

/-- Go `t.IsZero()`. -/
def IsZero (t : Int) : Bool := decide (t = zeroTime)

/-! ## Errors -/

/-- The sentinel errors of `golang-jwt/jwt/v5` that a parse can report. -/
inductive JwtErr where
  | ErrTokenMalformed
  | ErrTokenUnverifiable
  | ErrTokenSignatureInvalid
  | ErrTokenExpired
  | ErrTokenNotValidYet
  | ErrTokenInvalidClaims
  | ErrInvalidKeyType
  deriving DecidableEq, Repr

/-- Go `error` values that occur in the embedded code.  `ErrInvalidToken` is
the package-level sentinel of `pkg/jwt`; `New msg` is a value made by
`errors.New(msg)`; `Errorf msg e` is `fmt.Errorf(msg + ": %w", e)`; `Jwt ks`
is an error returned by the JWT library, `ks` being the sentinels it wraps;
`Driver msg` is an error returned by `database/sql`. -/
inductive Error where
  | ErrInvalidToken
  | New (msg : String)
  | Errorf (msg : String) (wrapped : Error)
  | Jwt (kinds : List JwtErr)
  | Driver (msg : String)
  deriving DecidableEq, Repr

/-! ## The JWT library (`github.com/golang-jwt/jwt/v5`) -/

namespace jwtlib

/-- The signing methods the library registers. -/
inductive SigningMethod where
  | HS256 | HS384 | HS512
  | RS256 | RS384 | RS512
  | PS256 | PS384 | PS512
  | ES256 | ES384 | ES512
  | EdDSA
  | none
  deriving DecidableEq, Repr

/-- Library `GetSigningMethod(alg)`: the method registered under a header's
`alg` value, `none` when no method has that name. -/
def GetSigningMethod (alg : String) : Option SigningMethod :=
  if alg = "HS256" then some .HS256
  else if alg = "HS384" then some .HS384
  else if alg = "HS512" then some .HS512
  else if alg = "RS256" then some .RS256
  else if alg = "RS384" then some .RS384
  else if alg = "RS512" then some .RS512
  else if alg = "PS256" then some .PS256
  else if alg = "PS384" then some .PS384
  else if alg = "PS512" then some .PS512
  else if alg = "ES256" then some .ES256
  else if alg = "ES384" then some .ES384
  else if alg = "ES512" then some .ES512
  else if alg = "EdDSA" then some .EdDSA
  else if alg = "none" then some .none
  else Option.none

/-- Whether the method is a `*jwt.SigningMethodHMAC` (the type assertion made
by the key function of `ValidateToken`). -/
def SigningMethod.isHMAC : SigningMethod → Bool
  | .HS256 | .HS384 | .HS512 => true
  | _ => false

/-- Library `TimePrecision` (`types.go`: `var TimePrecision = time.Second`; the
repository never assigns it). -/
def TimePrecision : Int := Second

/-- Library `NewNumericDate(t)` (`types.go`): the numeric date it returns holds
`t.Truncate(TimePrecision)`. -/
def NewNumericDate (t : Int) : Int := Truncate t TimePrecision

end jwtlib

/-! ## `pkg/jwt`: claims and the token manager -/

/-- Go `TokenTypeAccess`. -/
def TokenTypeAccess : String := "access"

/-- Go `TokenTypeRefresh`. -/
def TokenTypeRefresh : String := "refresh"

/-- Go `CustomClaims`: the `type` claim and the embedded
`jwt.RegisteredClaims`.  The field `Typ` is Go's `Type`; the three dates are
`*jwt.NumericDate`, `none` when the claim is absent. -/
structure CustomClaims where
  Typ : String
  Issuer : String
  Subject : String
  Audience : List String
  ExpiresAt : Option Int
  NotBefore : Option Int
  IssuedAt : Option Int
  ID : String
  deriving DecidableEq, Repr

/-- Go `TokenManager`. -/
structure TokenManager where
  secretKey : String
  accessTokenDuration : Int
  refreshTokenDuration : Int
  deriving DecidableEq, Repr

/-- Go `NewTokenManager`.  `len(secret)` is the byte length of the string. -/
def NewTokenManager (secret : String) (accessDuration refreshDuration : Int) :
    Except Error TokenManager :=
  if secret.utf8ByteSize < 32 then
    .error (.New "JWT secret key, güvenlik için en az 32 byte olmalıdır")
  else if accessDuration ≤ 0 ∨ refreshDuration ≤ 0 then
    .error (.New "token süreleri pozitif bir değer olmalıdır")
  else
    .ok { secretKey := secret
          accessTokenDuration := accessDuration
          refreshTokenDuration := refreshDuration }

/-! ## External primitives -/

/-- What the library's `Parser.ParseUnverified` and the decoding of the third
segment give for a well-formed token string: the header's `alg` (when it is a
string), the claims, the signing string (the first two segments) and the
signature bytes. -/
structure RawToken where
  alg : Option String
  claims : CustomClaims
  signingString : String
  signature : String
  deriving DecidableEq, Repr

/-- The primitives of external packages, taken as parameters.

* `decode s`: split `s` into three segments and decode them (base64url, JSON);
  `none` when `s` is malformed.
* `verify m signingString signature key`: whether `m.Verify(...)` returns `nil`.
* `sign m key claims`: `jwt.NewWithClaims(m, claims).SignedString(key)`.
* `sha256hex s`: `hex.EncodeToString(sha256.Sum256([]byte(s)))`. -/
structure Libs where
  decode : String → Option RawToken
  verify : jwtlib.SigningMethod → String → String → String → Bool
  sign : jwtlib.SigningMethod → String → CustomClaims → Except Error String
  sha256hex : String → String

namespace jwtlib

/-- Library `Token`. -/
structure Token where
  Raw : String
  Method : SigningMethod
  Alg : String
  Claims : CustomClaims
  Signature : String
  Valid : Bool
  deriving DecidableEq, Repr

/-- Library `Validator.Validate` (`validator.go`) with the default options (no
leeway, `exp` not required, `iat`, `aud`, `iss`, `sub` not checked): `exp`, when
present, must satisfy `now.Before(exp)`, else `ErrTokenExpired`; `nbf`, when
present, must satisfy `!now.Before(nbf)`, else `ErrTokenNotValidYet`.  The
result is the list of sentinels the joined error wraps, empty for `nil`. -/
def Validate (now : Int) (claims : CustomClaims) : List JwtErr :=
  (match claims.ExpiresAt with
    | some exp => if Before now exp then [] else [JwtErr.ErrTokenExpired]
    | Option.none => []) ++
  (match claims.NotBefore with
    | some nbf => if !Before now nbf then [] else [JwtErr.ErrTokenNotValidYet]
    | Option.none => [])

/-- Library `Parser.ParseWithClaims` (`parser.go`) with the default parser:
decode the segments (`ErrTokenMalformed`), look up the signing method of the
header's `alg` and ask the key function for the key (`ErrTokenUnverifiable`),
verify the signature (`ErrTokenSignatureInvalid`), validate the claims
(`ErrTokenInvalidClaims` joined with the validator's errors); only then is
`Valid` set.  An error is given as the list of sentinels it wraps. -/
def ParseWithClaims (L : Libs) (now : Int) (tokenString : String)
    (keyFunc : Token → Except Error String) : Except (List JwtErr) Token :=
  match L.decode tokenString with
  | Option.none => .error [JwtErr.ErrTokenMalformed]
  | some raw =>
    match raw.alg with
    | Option.none => .error [JwtErr.ErrTokenUnverifiable]
    | some alg =>
      match GetSigningMethod alg with
      | Option.none => .error [JwtErr.ErrTokenUnverifiable]
      | some method =>
        let token : Token :=
          { Raw := tokenString, Method := method, Alg := alg, Claims := raw.claims
            Signature := raw.signature, Valid := false }
        match keyFunc token with
        | .error _ => .error [JwtErr.ErrTokenUnverifiable]
        | .ok key =>
          if !L.verify method raw.signingString raw.signature key then
            .error [JwtErr.ErrTokenSignatureInvalid]
          else
            match Validate now raw.claims with
            | [] => .ok { token with Valid := true }
            | e :: es => .error (JwtErr.ErrTokenInvalidClaims :: e :: es)

end jwtlib

/-- Go `ErrInvalidToken`. -/
def ErrInvalidToken : Error := Error.ErrInvalidToken

/-- Go `(*TokenManager).generateToken`: sign the claims with HS256. -/
def generateToken (L : Libs) (tm : TokenManager) (claims : CustomClaims) :
    Except Error String :=
  L.sign jwtlib.SigningMethod.HS256 tm.secretKey claims

/-- The access claims built by `GenerateTokens`. -/
def accessClaims (tm : TokenManager) (now : Int) (jti userID : String) : CustomClaims :=
  { Typ := TokenTypeAccess
    Subject := userID
    ID := jti
    Issuer := "my-auth-service"
    Audience := ["my-app-client"]
    IssuedAt := some (jwtlib.NewNumericDate now)
    ExpiresAt := some (jwtlib.NewNumericDate (now + tm.accessTokenDuration))
    NotBefore := none }

/-- The refresh claims built by `GenerateTokens`. -/
def refreshClaims (tm : TokenManager) (now : Int) (jti userID : String) : CustomClaims :=
  { Typ := TokenTypeRefresh
    Subject := userID
    ID := jti
    Issuer := "my-auth-service"
    Audience := ["my-auth-service"]
    IssuedAt := some (jwtlib.NewNumericDate now)
    ExpiresAt := some (jwtlib.NewNumericDate (now + tm.refreshTokenDuration))
    NotBefore := none }

/-- Go `(*TokenManager).GenerateTokens`.  `now` is the value of `time.Now()`,
`accessID` and `refreshID` the two values of `uuid.NewString()`.  The result is
Go's `(string, string, error)`. -/
def GenerateTokens (L : Libs) (tm : TokenManager) (now : Int) (accessID refreshID : String)
    (userID : String) : String × String × Option Error :=
  match generateToken L tm (accessClaims tm now accessID userID) with
  | .error err => ("", "", some (.Errorf "access token imzalanamadı" err))
  | .ok accessTokenString =>
    match generateToken L tm (refreshClaims tm now refreshID userID) with
    | .error err => ("", "", some (.Errorf "refresh token imzalanamadı" err))
    | .ok refreshTokenString => (accessTokenString, refreshTokenString, none)

/-- The key function that `ValidateToken` passes to the parser: the secret for
an HMAC method, an error for any other method. -/
def keyFunc (tm : TokenManager) (token : jwtlib.Token) : Except Error String :=
  if token.Method.isHMAC then .ok tm.secretKey
  else .error (.New ("beklenmedik imzalama algoritması: " ++ token.Alg))

/-- Go `(*TokenManager).ValidateToken`.  `now` is the clock the library's
validator reads. -/
def ValidateToken (L : Libs) (tm : TokenManager) (now : Int) (tokenString : String) :
    Except Error CustomClaims :=
  match jwtlib.ParseWithClaims L now tokenString (keyFunc tm) with
  | .error err =>
    if JwtErr.ErrTokenExpired ∈ err then .error ErrInvalidToken
    else if JwtErr.ErrTokenSignatureInvalid ∈ err then .error ErrInvalidToken
    else .error ErrInvalidToken
  | .ok token =>
    if token.Valid then .ok token.Claims else .error ErrInvalidToken

/-! ## `pkg/domain` -/

/-- A `uuid.UUID`, held as its canonical string (`id.String()` is the identity). -/
abbrev UUID := String

/-- Go `uuid.Nil`. -/
def uuidNil : UUID := "00000000-0000-0000-0000-000000000000"

/-- Go `domain.User`. -/
structure User where
  ID : UUID
  PhoneNumber : String
  DisplayName : String
  ProfilePictureURL : String
  AboutText : String
  LastSeenAt : Int
  CreatedAt : Int
  UpdatedAt : Int
  deriving DecidableEq, Repr

/-- Go `domain.UserDevice`. -/
structure UserDevice where
  ID : UUID
  UserID : UUID
  RefreshTokenHash : String
  DeviceName : String
  DeviceType : String
  PushNotificationToken : String
  LastLoginAt : Int
  CreatedAt : Int
  RevokedAt : Option Int
  deriving DecidableEq, Repr

/-! ## `internal/auth/store`: the SQL statements as operations on tables

A round trip to the database either executes its statement or fails with a
driver error and changes nothing; which of the two happens is the argument
`fault` (`none`: the statement executes). -/

/-- The two tables the stores read and write. -/
structure DB where
  users : List User
  user_devices : List UserDevice
  deriving DecidableEq, Repr

/-- The unique index on `(user_id, refresh_token_hash)` that the
`ON CONFLICT (user_id, refresh_token_hash)` clause of `UpsertDevice` names. -/
def UniqueUserHash (rows : List UserDevice) : Prop :=
  rows.Pairwise (fun a b => ¬ (a.UserID = b.UserID ∧ a.RefreshTokenHash = b.RefreshTokenHash))

/-- Go `(*UserStore).FindByID`: `SELECT ... FROM users WHERE id = $1`. -/
def FindByID (db : DB) (fault : Option String) (userID : String) : Option User × Option Error :=
  match fault with
  | some msg => (none, some (.Driver msg))
  | none => (db.users.find? (fun u => decide (u.ID = userID)), none)

/-- The first lines of `UpsertDevice`: a nil `ID` becomes `newID` (the value of
`uuid.New()`), a zero `CreatedAt` becomes `now` (the value of `time.Now()`). -/
def fillDefaults (newID : UUID) (now : Int) (dev : UserDevice) : UserDevice :=
  let dev := if dev.ID = uuidNil then { dev with ID := newID } else dev
  if IsZero dev.CreatedAt then { dev with CreatedAt := now } else dev

/-- Go `(*UserDeviceStore).UpsertDevice`: `INSERT ... ON CONFLICT (user_id,
refresh_token_hash) DO UPDATE SET last_login_at = EXCLUDED.last_login_at`.
`newID` is the value of `uuid.New()`, `now` the value of `time.Now()`. -/
def UpsertDevice (db : DB) (fault : Option String) (newID : UUID) (now : Int)
    (dev : UserDevice) : Option Error × DB :=
  let dev := fillDefaults newID now dev
  match fault with
  | some msg => (some (.Driver msg), db)
  | none =>
    if db.user_devices.any
        (fun d => decide (d.UserID = dev.UserID ∧ d.RefreshTokenHash = dev.RefreshTokenHash)) then
      (none, { db with user_devices := db.user_devices.map (fun d =>
          if d.UserID = dev.UserID ∧ d.RefreshTokenHash = dev.RefreshTokenHash then
            { d with LastLoginAt := dev.LastLoginAt }
          else d) })
    else
      (none, { db with user_devices := db.user_devices ++ [{ dev with RevokedAt := none }] })

/-- Go `(*UserDeviceStore).FindActiveByUserAndHash`: `SELECT ... WHERE user_id = $1
AND refresh_token_hash = $2 AND revoked_at IS NULL LIMIT 1`; no row is
`(nil, nil)`. -/
def FindActiveByUserAndHash (db : DB) (fault : Option String) (userID : String)
    (hash : String) : Option UserDevice × Option Error :=
  match fault with
  | some msg => (none, some (.Driver msg))
  | none =>
    (db.user_devices.find? (fun d =>
      decide (d.UserID = userID ∧ d.RefreshTokenHash = hash ∧ d.RevokedAt = none)), none)

/-- Go `(*UserDeviceStore).RevokeByID`: `UPDATE user_devices SET revoked_at = NOW()
WHERE id = $1 AND revoked_at IS NULL`.  `now` is the value of `NOW()`. -/
def RevokeByID (db : DB) (fault : Option String) (now : Int) (id : String) :
    Option Error × DB :=
  match fault with
  | some msg => (some (.Driver msg), db)
  | none =>
    (none, { db with user_devices := db.user_devices.map (fun d =>
      if d.ID = id ∧ d.RevokedAt = none then { d with RevokedAt := some now } else d) })

/-- Go `(*UserDeviceStore).RevokeAllForUser`: `UPDATE user_devices SET revoked_at =
NOW() WHERE user_id = $1 AND revoked_at IS NULL`. -/
def RevokeAllForUser (db : DB) (fault : Option String) (now : Int) (userID : String) :
    Option Error × DB :=
  match fault with
  | some msg => (some (.Driver msg), db)
  | none =>
    (none, { db with user_devices := db.user_devices.map (fun d =>
      if d.UserID = userID ∧ d.RevokedAt = none then { d with RevokedAt := some now } else d) })

/-! ## `internal/auth/service` -/

/-- Go `AuthService`, wired as in the repository: `userRepo` is the `UserStore`
and `deviceRepo`, when it is not `nil`, the `UserDeviceStore` over the same
database.  `hasDeviceRepo` is `s.deviceRepo != nil`. -/
structure AuthService where
  hasDeviceRepo : Bool
  tokenManager : TokenManager
  deriving DecidableEq, Repr

/-- What one call of a service method reads from its environment. -/
structure Env where
  /-- the clock read by the token validator -/
  now : Int
  /-- `time.Now()` in `GenerateTokens` -/
  issueTime : Int
  /-- the two `uuid.NewString()` of `GenerateTokens` -/
  accessID : String
  refreshID : String
  /-- `time.Now()` for `LastLoginAt` -/
  loginTime : Int
  /-- `uuid.New()` in `UpsertDevice` -/
  deviceID : UUID
  /-- `time.Now()` in `UpsertDevice` -/
  createTime : Int
  /-- `NOW()` in the `UPDATE` statements -/
  revokeTime : Int
  /-- the outcome of the round trip of `FindActiveByUserAndHash` -/
  findFault : Option String
  /-- the outcome of the round trip of `FindByID` -/
  userFault : Option String
  /-- the outcome of the round trip of `RevokeByID` or `RevokeAllForUser` -/
  revokeFault : Option String
  /-- the outcome of the round trip of `UpsertDevice` -/
  upsertFault : Option String
  deriving DecidableEq, Repr

/-- Go `hashRefreshToken`. -/
def hashRefreshToken (L : Libs) (token : String) : String := L.sha256hex token

/-- The session record `RefreshToken` builds in its step 6: a new record for the
user and the hash of the new refresh token, with the device metadata of the
current session copied when there is one.  `ID`, `CreatedAt` and `RevokedAt`
are left at their zero values. -/
def rotatedDevice (L : Libs) (user : User) (currentDev : Option UserDevice)
    (newRefreshToken : String) (loginTime : Int) : UserDevice :=
  let newDev : UserDevice :=
    { ID := uuidNil
      UserID := user.ID
      RefreshTokenHash := hashRefreshToken L newRefreshToken
      DeviceName := "unknown"
      DeviceType := "unknown"
      PushNotificationToken := ""
      LastLoginAt := loginTime
      CreatedAt := zeroTime
      RevokedAt := none }
  match currentDev with
  | some cur =>
    { newDev with
      DeviceName := cur.DeviceName
      DeviceType := cur.DeviceType
      PushNotificationToken := cur.PushNotificationToken }
  | none => newDev

/-- Go `(*AuthService).RefreshToken`: the returned `(string, string, error)` and
the database after the call. -/
def RefreshToken (L : Libs) (s : AuthService) (env : Env) (db : DB)
    (refreshTokenString : String) : (String × String × Option Error) × DB :=
  -- 1. Validate the refresh token
  match ValidateToken L s.tokenManager env.now refreshTokenString with
  | .error err => (("", "", some err), db)
  | .ok claims =>
    -- 2. Ensure it is a refresh token
    if claims.Typ ≠ TokenTypeRefresh then
      (("", "", some (.New "provided token is not a refresh token")), db)
    else
      -- 3. Verify the hash exists and is not revoked
      let step3 : Except Error (Option UserDevice) :=
        if s.hasDeviceRepo then
          match FindActiveByUserAndHash db env.findFault claims.Subject
              (hashRefreshToken L refreshTokenString) with
          | (_, some derr) => .error derr
          | (none, none) => .error ErrInvalidToken
          | (some dev, none) => .ok (some dev)
        else .ok none
      match step3 with
      | .error e => (("", "", some e), db)
      | .ok currentDev =>
        -- 4. Check if the user exists
        let userID := claims.Subject
        match FindByID db env.userFault userID with
        | (_, some err) => (("", "", some err), db)
        | (none, none) => (("", "", some (.New "user not found for the given token")), db)
        | (some user, none) =>
          -- 5. Issue new access and refresh tokens
          match GenerateTokens L s.tokenManager env.issueTime env.accessID env.refreshID userID with
          | (_, _, some err) => (("", "", some err), db)
          | (newAccessToken, newRefreshToken, none) =>
            -- 6. Revoke the old session and persist the new one
            if s.hasDeviceRepo then
              let db1 :=
                match currentDev with
                | some cur => (RevokeByID db env.revokeFault env.revokeTime cur.ID).2
                | none => db
              let newDev := rotatedDevice L user currentDev newRefreshToken env.loginTime
              let db2 := (UpsertDevice db1 env.upsertFault env.deviceID env.createTime newDev).2
              ((newAccessToken, newRefreshToken, none), db2)
            else
              ((newAccessToken, newRefreshToken, none), db)

/-- Go `(*AuthService).ValidateAccessToken`. -/
def ValidateAccessToken (L : Libs) (s : AuthService) (now : Int) (accessToken : String) :
    Bool × String :=
  match ValidateToken L s.tokenManager now accessToken with
  | .error _ => (false, "")
  | .ok claims =>
    if claims.Typ ≠ TokenTypeAccess then (false, "")
    else (true, claims.Subject)

/-- Go `(*AuthService).RevokeByRefreshToken`: the returned `error` and the
database after the call. -/
def RevokeByRefreshToken (L : Libs) (s : AuthService) (env : Env) (db : DB)
    (refreshToken : String) : Option Error × DB :=
  if !s.hasDeviceRepo then (some (.New "device repository not configured"), db)
  else
    match ValidateToken L s.tokenManager env.now refreshToken with
    | .error _ => (some ErrInvalidToken, db)
    | .ok claims =>
      if claims.Typ ≠ TokenTypeRefresh then (some ErrInvalidToken, db)
      else
        match FindActiveByUserAndHash db env.findFault claims.Subject
            (hashRefreshToken L refreshToken) with
        | (_, some err) => (some err, db)
        | (none, none) => (some ErrInvalidToken, db)
        | (some dev, none) => RevokeByID db env.revokeFault env.revokeTime dev.ID

/-- Go `(*AuthService).RevokeAllForAccessToken`: the returned `error` and the
database after the call. -/
def RevokeAllForAccessToken (L : Libs) (s : AuthService) (env : Env) (db : DB)
    (accessToken : String) : Option Error × DB :=
  if !s.hasDeviceRepo then (some (.New "device repository not configured"), db)
  else
    match ValidateToken L s.tokenManager env.now accessToken with
    | .error _ => (some ErrInvalidToken, db)
    | .ok claims =>
      if claims.Typ ≠ TokenTypeAccess then (some ErrInvalidToken, db)
      else RevokeAllForUser db env.revokeFault env.revokeTime claims.Subject

/-! ## `internal/auth/middleware` -/

namespace strings

/-- Go `strings.HasPrefix`. -/
def HasPrefix (s p : String) : Bool := p.data.isPrefixOf s.data

/-- Go `strings.ToLower`, on the ASCII letters (the only letters whose lower
case occurs in `"bearer "`). -/
def ToLower (s : String) : String := String.mk (s.data.map Char.toLower)

/-- Go `unicode.IsSpace`. -/
def isSpace (c : Char) : Bool :=
  let n := c.toNat
  (9 ≤ n && n ≤ 13) || n == 32 || n == 0x85 || n == 0xA0 || n == 0x1680 ||
  (0x2000 ≤ n && n ≤ 0x200A) || n == 0x2028 || n == 0x2029 || n == 0x202F ||
  n == 0x205F || n == 0x3000

/-- Go `strings.TrimSpace`. -/
def TrimSpace (s : String) : String :=
  String.mk (((s.data.dropWhile isSpace).reverse.dropWhile isSpace).reverse)

end strings

/-- Go `metadata.MD`: keys (lower case) with their values. -/
abbrev MD := List (String × List String)

/-- Go `metadata.MD.Get`. -/
def MD.Get (md : MD) (k : String) : List String :=
  match md.find? (fun kv => decide (kv.1 = strings.ToLower k)) with
  | some kv => kv.2
  | none => []

/-- The part of a `context.Context` the interceptor reads and writes: the
incoming metadata (`none` when `metadata.FromIncomingContext` reports `false`)
and the value stored under `userIDKey`. -/
structure Context where
  md : Option MD
  userID : Option String
  deriving DecidableEq, Repr

/-- The gRPC status codes used. -/
inductive Code where
  | Unauthenticated
  | Internal
  deriving DecidableEq, Repr

/-- A gRPC status error, `status.Error(code, message)`. -/
structure Status where
  code : Code
  message : String
  deriving DecidableEq, Repr

/-- Go `UserIDFromContext`. -/
def UserIDFromContext (ctx : Context) : String × Bool :=
  match ctx.userID with
  | none => ("", false)
  | some id => (id, true)

/-- Go `UnaryAuthInterceptor(tm)` applied to a call: `ctx` and `fullMethod`
(`info.FullMethod`) describe the call, `handler` is the downstream handler with
the request already supplied, `now` is the clock of the token validation. -/
def UnaryAuthInterceptor {ρ : Type} (L : Libs) (tm : TokenManager) (now : Int)
    (ctx : Context) (fullMethod : String) (handler : Context → Except Status ρ) :
    Except Status ρ :=
  if strings.HasPrefix fullMethod "/auth.AuthService/" then handler ctx
  else
    match ctx.md with
    | none => .error ⟨Code.Unauthenticated, "missing metadata"⟩
    | some md =>
      match MD.Get md "authorization" with
      | [] => .error ⟨Code.Unauthenticated, "missing authorization header"⟩
      | auth :: _ =>
        if !strings.HasPrefix (strings.ToLower auth) "bearer " then
          .error ⟨Code.Unauthenticated, "invalid authorization header"⟩
        else
          let token := strings.TrimSpace (String.mk (auth.data.drop "bearer ".length))
          match ValidateToken L tm now token with
          | .error _ => .error ⟨Code.Unauthenticated, "invalid or expired token"⟩
          | .ok claims =>
            if claims.Typ ≠ TokenTypeAccess then
              .error ⟨Code.Unauthenticated, "token must be an access token"⟩
            else handler { ctx with userID := some claims.Subject }

/-! ## `internal/auth/store/postgres.go`: the user store -/

/-- Modelled from the spec: the unique index on `users.phone_number` (section 3,
"phone number (unique)"; the schema is not among the sources).  Whether an
`INSERT` of a row with this phone number violates it. -/
def phoneTaken (db : DB) (phoneNumber : String) : Bool :=
  db.users.any (fun u => decide (u.PhoneNumber = phoneNumber))

/-- The driver error of an `INSERT` that violates the unique index on the phone number. -/
def duplicatePhone : Error :=
  .Driver "pq: duplicate key value violates unique constraint on users.phone_number"

/-- Go `(*UserStore).FindByPhoneNumber`: `SELECT ... FROM users WHERE phone_number =
$1`; no row is `(nil, nil)`. -/
def FindByPhoneNumber (db : DB) (fault : Option String) (phoneNumber : String) :
    Option User × Option Error :=
  match fault with
  | some msg => (none, some (.Driver msg))
  | none => (db.users.find? (fun u => decide (u.PhoneNumber = phoneNumber)), none)

/-- Go `(*UserStore).CreateUser`: set `ID` (the value `newID` of `uuid.New()`), the
three timestamps (the value `now` of `time.Now()`) and the default display
name, then `INSERT INTO users ... RETURNING id, created_at, updated_at`. -/
def CreateUser (db : DB) (fault : Option String) (newID : UUID) (now : Int) (user : User) :
    (Option User × Option Error) × DB :=
  let user := { user with ID := newID, CreatedAt := now, UpdatedAt := now, LastSeenAt := now }
  let user := if user.DisplayName = "" then { user with DisplayName := "New User" } else user
  match fault with
  | some msg => ((none, some (.Driver msg)), db)
  | none =>
    if phoneTaken db user.PhoneNumber then ((none, some duplicatePhone), db)
    else ((some user, none), { db with users := db.users ++ [user] })

/-! ## `AuthService.VerifyOTP` -/

/-- How a call ends: it returns, or the goroutine panics. -/
inductive Outcome (α : Type) where
  | returned (a : α)
  | panicked (msg : String)
  deriving DecidableEq, Repr

/-- The runtime panic of dereferencing a nil pointer. -/
def nilDereference : String :=
  "runtime error: invalid memory address or nil pointer dereference"

/-- What one call of `VerifyOTP` reads from its environment. -/
structure LoginEnv where
  /-- what `CreateVerificationCheck` returns: an error, or a response whose
  `Status` is `nil` (`none`) or points to a string -/
  otp : Except Error (Option String)
  /-- the outcome of the round trip of `FindByPhoneNumber` -/
  findFault : Option String
  /-- the rows other calls insert into `users` after the lookup and before the
  insert of this call -/
  racing : List User
  /-- the outcome of the round trip of `CreateUser` -/
  createFault : Option String
  /-- `uuid.New()` in `CreateUser` -/
  userID : UUID
  /-- `time.Now()` in `CreateUser` -/
  userTime : Int
  /-- `time.Now()` in `GenerateTokens` -/
  issueTime : Int
  /-- the two `uuid.NewString()` of `GenerateTokens` -/
  accessID : String
  refreshID : String
  /-- `time.Now()` for `LastLoginAt` -/
  loginTime : Int
  /-- `uuid.New()` in `UpsertDevice` -/
  deviceID : UUID
  /-- `time.Now()` in `UpsertDevice` -/
  createTime : Int
  /-- the outcome of the round trip of `UpsertDevice` -/
  upsertFault : Option String
  deriving Repr

/-- The `domain.User` literal of `VerifyOTP`: the phone number, every other
field at its zero value. -/
def newUser (phoneNumber : String) : User :=
  { ID := uuidNil, PhoneNumber := phoneNumber, DisplayName := "", ProfilePictureURL := ""
    AboutText := "", LastSeenAt := zeroTime, CreatedAt := zeroTime, UpdatedAt := zeroTime }

/-- The `domain.UserDevice` literal of `VerifyOTP` (step 5). -/
def loginDevice (L : Libs) (user : User) (refreshToken : String) (loginTime : Int) :
    UserDevice :=
  { ID := uuidNil
    UserID := user.ID
    RefreshTokenHash := hashRefreshToken L refreshToken
    DeviceName := "unknown"
    DeviceType := "unknown"
    PushNotificationToken := ""
    LastLoginAt := loginTime
    CreatedAt := zeroTime
    RevokedAt := none }

/-- Step 3 of `VerifyOTP`: the user found by the lookup, or else the user that
`CreateUser` returns, with the error of `CreateUser` and the database after the
step.  The step runs on the database as other calls have left it since the
lookup (`env.racing`). -/
def resolveUser (env : LoginEnv) (db : DB) (phoneNumber : String) (found : Option User) :
    (Option User × Option Error) × DB :=
  let db := { db with users := db.users ++ env.racing }
  match found with
  | none => CreateUser db env.createFault env.userID env.userTime (newUser phoneNumber)
  | some user => ((some user, none), db)

/-- Go `(*AuthService).VerifyOTP`: how the call ends (Go's `(string, string,
error)` when it returns) and the database after it.  The phone number and the
code reach the provider only; the provider's answer is `env.otp`.  The two
`ValidateToken` calls after the tokens are generated only write to the log and
are left out, as are all other log lines but the one that panics. -/
def VerifyOTP (L : Libs) (s : AuthService) (env : LoginEnv) (db : DB)
    (phoneNumber : String) : Outcome (String × String × Option Error) × DB :=
  -- 1. Verify code with Twilio
  match env.otp with
  | .error err => (.returned ("", "", some err), db)
  | .ok status =>
    match status with
    | none =>
      -- `resp.Status == nil` enters the branch; the log line evaluates `*resp.Status`
      (.panicked nilDereference, db)
    | some st =>
      if st ≠ "approved" then
        (.returned ("", "", some (.New "OTP verification failed or code is incorrect")), db)
      else
        -- 2. Check if user exists in the database
        match FindByPhoneNumber db env.findFault phoneNumber with
        | (_, some err) => (.returned ("", "", some err), db)
        | (found, none) =>
          -- 3. If user does not exist, create a new one
          match resolveUser env db phoneNumber found with
          | ((_, some err), db) => (.returned ("", "", some err), db)
          | ((none, none), db) => (.panicked nilDereference, db)
          | ((some user, none), db) =>
            -- 4. Generate tokens for the user
            match GenerateTokens L s.tokenManager env.issueTime env.accessID env.refreshID
                user.ID with
            | (_, _, some err) => (.returned ("", "", some err), db)
            | (accessToken, refreshToken, none) =>
              -- 5. Persist refresh token hash for revocation checks
              if s.hasDeviceRepo then
                let dev := loginDevice L user refreshToken env.loginTime
                let db2 := (UpsertDevice db env.upsertFault env.deviceID env.createTime dev).2
                (.returned (accessToken, refreshToken, none), db2)
              else
                (.returned (accessToken, refreshToken, none), db)

/-! ## `RefreshToken` when other calls run between its reads and its writes -/

/-- Steps 1 to 5 of `RefreshToken`, which only read: the current session, the
user and the new pair, or the error returned. -/
def RefreshTokenRead (L : Libs) (s : AuthService) (env : Env) (db : DB)
    (refreshTokenString : String) :
    Except Error (Option UserDevice × User × String × String) :=
  match ValidateToken L s.tokenManager env.now refreshTokenString with
  | .error err => .error err
  | .ok claims =>
    if claims.Typ ≠ TokenTypeRefresh then
      .error (.New "provided token is not a refresh token")
    else
      let step3 : Except Error (Option UserDevice) :=
        if s.hasDeviceRepo then
          match FindActiveByUserAndHash db env.findFault claims.Subject
              (hashRefreshToken L refreshTokenString) with
          | (_, some derr) => .error derr
          | (none, none) => .error ErrInvalidToken
          | (some dev, none) => .ok (some dev)
        else .ok none
      match step3 with
      | .error e => .error e
      | .ok currentDev =>
        match FindByID db env.userFault claims.Subject with
        | (_, some err) => .error err
        | (none, none) => .error (.New "user not found for the given token")
        | (some user, none) =>
          match GenerateTokens L s.tokenManager env.issueTime env.accessID env.refreshID
              claims.Subject with
          | (_, _, some err) => .error err
          | (newAccessToken, newRefreshToken, none) =>
            .ok (currentDev, user, newAccessToken, newRefreshToken)

/-- Step 6 of `RefreshToken`, the writes, on the database as it is when the
step runs. -/
def RefreshTokenWrite (L : Libs) (s : AuthService) (env : Env) (db : DB)
    (currentDev : Option UserDevice) (user : User) (newRefreshToken : String) : DB :=
  if s.hasDeviceRepo then
    let db1 :=
      match currentDev with
      | some cur => (RevokeByID db env.revokeFault env.revokeTime cur.ID).2
      | none => db
    let newDev := rotatedDevice L user currentDev newRefreshToken env.loginTime
    (UpsertDevice db1 env.upsertFault env.deviceID env.createTime newDev).2
  else db

/-- `RefreshToken` with its reads on `db` and its writes on `dbAtWrite`, the
database other calls have made of `db` in between. -/
def RefreshTokenInterleaved (L : Libs) (s : AuthService) (env : Env) (db dbAtWrite : DB)
    (refreshTokenString : String) : (String × String × Option Error) × DB :=
  match RefreshTokenRead L s env db refreshTokenString with
  | .error e => (("", "", some e), dbAtWrite)
  | .ok (currentDev, user, newAccessToken, newRefreshToken) =>
    ((newAccessToken, newRefreshToken, none),
      RefreshTokenWrite L s env dbAtWrite currentDev user newRefreshToken)

/-! ## `internal/auth/handler` -/

/-- Go `errors.Is(err, target)`: `err` or an error it wraps is `target`. -/
def errorsIs : Error → Error → Bool
  | .Errorf msg w, target => decide (Error.Errorf msg w = target) || errorsIs w target
  | e, target => decide (e = target)

/-- Go `err.Error()`. -/
def errorText : Error → String
  | .ErrInvalidToken => "geçersiz veya süresi dolmuş token"
  | .New msg => msg
  | .Errorf msg w => msg ++ ": " ++ errorText w
  | .Jwt _ => "token is invalid"
  | .Driver msg => msg

/-- Go `(*AuthHandler).RefreshToken`: the pair of the response or the status
error, and the database after the call. -/
def handlerRefreshToken (L : Libs) (s : AuthService) (env : Env) (db : DB)
    (refreshToken : String) : Except Status (String × String) × DB :=
  match RefreshToken L s env db refreshToken with
  | ((_, _, some err), db') =>
    if errorsIs err ErrInvalidToken then
      (.error ⟨Code.Unauthenticated, "invalid or expired token"⟩, db')
    else
      (.error ⟨Code.Internal, "failed to refresh token: " ++ errorText err⟩, db')
  | ((newAccess, newRefresh, none), db') => (.ok (newAccess, newRefresh), db')

/-! ## What is assumed of the external primitives -/

/-- Every date of the claims is a whole number of `TimePrecision` units, as
every date made by `NewNumericDate` is. -/
def DatesAligned (c : CustomClaims) : Prop :=
  (∀ t, c.ExpiresAt = some t → t % jwtlib.TimePrecision = 0) ∧
  (∀ t, c.NotBefore = some t → t % jwtlib.TimePrecision = 0) ∧
  (∀ t, c.IssuedAt = some t → t % jwtlib.TimePrecision = 0)

/-- The contract of the external primitives used below: signing claims with
HS256 under a byte-slice key succeeds, and the string obtained decodes to a
header with `alg = "HS256"`, to the same claims, and to a signature that
verifies under the same key. -/
structure Libs.Lawful (L : Libs) : Prop where
  sign_decode : ∀ (key : String) (c : CustomClaims), DatesAligned c →
    ∃ s raw, L.sign jwtlib.SigningMethod.HS256 key c = .ok s ∧ L.decode s = some raw ∧
      raw.alg = some "HS256" ∧ raw.claims = c ∧
      L.verify jwtlib.SigningMethod.HS256 raw.signingString raw.signature key = true

/-! ## A reference instance of the primitives

A small text format and a keyed tag that satisfy `Libs.Lawful`; the model is
evaluated on it at concrete inputs.  A token is a sequence of fields, each
written as its length in unary, a separator, and its characters. -/

namespace Ref

/-- One field: its length in unary, `;`, its characters. -/
def putField (f : List Char) : List Char := List.replicate f.length 'x' ++ ';' :: f

/-- A sequence of fields. -/
def putFields : List (List Char) → List Char
  | [] => []
  | f :: fs => putField f ++ putFields fs

/-- Read one field; `n` counts the length marks read so far. -/
def takeField : Nat → List Char → Option (List Char × List Char)
  | _, [] => none
  | n, c :: r =>
    if c = 'x' then takeField (n + 1) r
    else if c = ';' then (if n ≤ r.length then some (r.take n, r.drop n) else none)
    else none

/-- Read `n` fields. -/
def takeFields : Nat → List Char → Option (List (List Char) × List Char)
  | 0, l => some ([], l)
  | n + 1, l =>
    match takeField 0 l with
    | none => none
    | some (f, r) =>
      match takeFields n r with
      | none => none
      | some (fs, r') => some (f :: fs, r')

/-- A date as a field: empty when absent, else a sign and the whole seconds in unary. -/
def putDate : Option Int → List Char
  | none => []
  | some t =>
    if 0 ≤ t then '+' :: List.replicate (t / jwtlib.TimePrecision).toNat 'i'
    else '-' :: List.replicate (-(t / jwtlib.TimePrecision)).toNat 'i'

/-- Read a date field. -/
def takeDate : List Char → Option Int
  | [] => none
  | c :: r =>
    if c = '-' then some (-(r.length : Int) * jwtlib.TimePrecision)
    else some ((r.length : Int) * jwtlib.TimePrecision)

/-- The header's `alg` as a field. -/
def putAlg : Option String → List Char
  | none => []
  | some a => '!' :: a.data

/-- Read the `alg` field. -/
def takeAlg : List Char → Option String
  | [] => none
  | _ :: a => some (String.mk a)

/-- The fields of header and claims, the audience last. -/
def bodyFields (alg : Option String) (c : CustomClaims) : List (List Char) :=
  [putAlg alg, c.Typ.data, c.Issuer.data, c.Subject.data, c.ID.data,
    putDate c.ExpiresAt, putDate c.NotBefore, putDate c.IssuedAt]

/-- The signing string: header and claims, without the signature. -/
def signingString (alg : Option String) (c : CustomClaims) : String :=
  String.mk (putFields (bodyFields alg c ++ c.Audience.map String.data))

/-- The keyed tag of a signing string. -/
def tag (key signing : String) : String := "tag(" ++ key ++ "," ++ signing ++ ")"

/-- A token: the audience count, header and claims, the signature, the audience. -/
def encode (alg : Option String) (c : CustomClaims) (signature : String) : String :=
  String.mk (putField (List.replicate c.Audience.length 'a') ++
    putFields (bodyFields alg c ++ [signature.data] ++ c.Audience.map String.data))

/-- Read a token. -/
def decode (s : String) : Option RawToken :=
  match takeField 0 s.data with
  | none => none
  | some (cnt, r) =>
    match takeFields (9 + cnt.length) r with
    | some (alg :: typ :: iss :: sub :: id :: exp :: nbf :: iat :: sg :: aud, []) =>
      let c : CustomClaims :=
        { Typ := String.mk typ, Issuer := String.mk iss, Subject := String.mk sub
          Audience := aud.map String.mk, ExpiresAt := takeDate exp
          NotBefore := takeDate nbf, IssuedAt := takeDate iat, ID := String.mk id }
      some { alg := takeAlg alg, claims := c
             signingString := signingString (takeAlg alg) c, signature := String.mk sg }
    | _ => none

/-- Sign: only the HMAC methods are implemented. -/
def sign (m : jwtlib.SigningMethod) (key : String) (c : CustomClaims) : Except Error String :=
  match m with
  | .HS256 => .ok (encode (some "HS256") c (tag key (signingString (some "HS256") c)))
  | .HS384 => .ok (encode (some "HS384") c (tag key (signingString (some "HS384") c)))
  | .HS512 => .ok (encode (some "HS512") c (tag key (signingString (some "HS512") c)))
  | _ => .error (.Jwt [JwtErr.ErrInvalidKeyType])

/-- Verify: recompute the tag and compare. -/
def verify (m : jwtlib.SigningMethod) (signing signature key : String) : Bool :=
  m.isHMAC && decide (signature = tag key signing)

/-- The reference primitives. -/
def libs : Libs :=
  { decode := decode, verify := verify, sign := sign, sha256hex := fun s => "sha256:" ++ s }

end Ref

/-! ## Vocabulary for the properties of the session table -/

/-- The session of credential hash `h` of user `u` is consumed: the table has a
row for `(u, h)` and every such row is revoked. -/
def Consumed (rows : List UserDevice) (u h : String) : Prop :=
  (∃ d ∈ rows, d.UserID = u ∧ d.RefreshTokenHash = h) ∧
  ∀ d ∈ rows, d.UserID = u → d.RefreshTokenHash = h → d.RevokedAt ≠ none

/-- Session identifiers are pairwise different: `UpsertDevice` gives every row
it inserts a fresh value of `uuid.New()`. -/
def UniqueID (rows : List UserDevice) : Prop :=
  rows.Pairwise (fun a b => a.ID ≠ b.ID)

/-- One statement of a store on the database, executed or failed, or any change
of the `users` table. -/
inductive StoreStep : DB → DB → Prop where
  | upsert (db : DB) (fault : Option String) (newID : UUID) (now : Int) (dev : UserDevice) :
      StoreStep db (UpsertDevice db fault newID now dev).2
  | revokeByID (db : DB) (fault : Option String) (now : Int) (id : String) :
      StoreStep db (RevokeByID db fault now id).2
  | revokeAll (db : DB) (fault : Option String) (now : Int) (userID : String) :
      StoreStep db (RevokeAllForUser db fault now userID).2
  | users (db : DB) (us : List User) : StoreStep db { db with users := us }

/-- The database `db'` is reached from `db` by store statements. -/
def Reachable (db db' : DB) : Prop := Relation.ReflTransGen StoreStep db db'

/-! ## Concrete inputs -/

/-- A secret of 32 bytes. -/
def secret32 : String := "0123456789abcdef0123456789abcdef"

/-- The manager `NewAuthService` builds: 15 minutes and 7 days. -/
def tmProd : TokenManager := ⟨secret32, 15 * Minute, 7 * 24 * Hour⟩

/-- A manager with lifetimes of one nanosecond. -/
def tmShort : TokenManager := ⟨secret32, 1, 1⟩

/-- Access claims without expiry, for a token that declares `alg = none`. -/
def noneClaims : CustomClaims :=
  { Typ := "access", Issuer := "my-auth-service", Subject := "mallory"
    Audience := ["my-app-client"], ExpiresAt := none, NotBefore := none
    IssuedAt := none, ID := "1" }

/-- A token in the reference format that declares `alg = none` and has an
empty signature. -/
def noneToken : String := Ref.encode (some "none") noneClaims ""

/-- A manager with lifetimes of two and three seconds. -/
def tmTwo : TokenManager := ⟨secret32, 2 * Second, 3 * Second⟩

/-- A service over `tmTwo` with a device repository. -/
def svcTwo : AuthService := ⟨true, tmTwo⟩

/-- The access token `tmTwo` issues to `u1` at clock 0, in the reference format. -/
def accessTok0 : String := (GenerateTokens Ref.libs tmTwo 0 "ja" "jr" "u1").1

/-- The refresh token `tmTwo` issues to `u1` at clock 0, in the reference format. -/
def refreshTok0 : String := (GenerateTokens Ref.libs tmTwo 0 "ja" "jr" "u1").2.1

/-- An environment in which every round trip executes. -/
def env0 : Env :=
  { now := 0, issueTime := 1 * Second, accessID := "ja2", refreshID := "jr2"
    loginTime := 1 * Second, deviceID := "d2", createTime := 1 * Second
    revokeTime := 1 * Second, findFault := none, userFault := none
    revokeFault := none, upsertFault := none }

/-- The user `u1`. -/
def user1 : User :=
  { ID := "u1", PhoneNumber := "+15551234567", DisplayName := "New User"
    ProfilePictureURL := "", AboutText := "", LastSeenAt := 0, CreatedAt := 0, UpdatedAt := 0 }

/-- The session recorded for `refreshTok0` at login. -/
def dev1 : UserDevice :=
  { ID := "d1", UserID := "u1", RefreshTokenHash := hashRefreshToken Ref.libs refreshTok0
    DeviceName := "unknown", DeviceType := "unknown", PushNotificationToken := ""
    LastLoginAt := 0, CreatedAt := 0, RevokedAt := none }

/-- The database after the login of `u1`. -/
def db0 : DB := { users := [user1], user_devices := [dev1] }

/-- A call context whose `authorization` value carries `refreshTok0` as bearer token. -/
def ctxRefresh0 : Context :=
  { md := some [("authorization", ["Bearer " ++ refreshTok0])], userID := none }

/-- A handler that accepts every call. -/
def okHandler (_ : Context) : Except Status Unit := .ok ()

/-- As `env0`, but the round trip of the revocation fails. -/
def envRevokeFails : Env := { env0 with revokeFault := some "driver: bad connection" }

/-- As `env0`, but the round trip of the session lookup fails. -/
def envFindFails : Env := { env0 with findFault := some "driver: bad connection" }

/-- A service over `tmTwo` without a device repository. -/
def svcNoRepo : AuthService := ⟨false, tmTwo⟩

/-- The database after `RefreshToken` rotated `refreshTok0` in `env0`. -/
def dbRotated : DB := (RefreshToken Ref.libs svcTwo env0 db0 refreshTok0).2

/-- The database after a `RefreshToken` of `refreshTok0` whose revocation failed. -/
def dbRevokeFailed : DB := (RefreshToken Ref.libs svcTwo envRevokeFails db0 refreshTok0).2

/-- The database after `RevokeByRefreshToken` of `refreshTok0` in `env0`. -/
def dbRevoked : DB := (RevokeByRefreshToken Ref.libs svcTwo env0 db0 refreshTok0).2

/-- The database after `RevokeAllForAccessToken` with `accessTok0` in `env0`. -/
def dbRevokedAll : DB := (RevokeAllForAccessToken Ref.libs svcTwo env0 db0 accessTok0).2

/-- The phone number of `user1`. -/
def phone1 : String := "+15551234567"

/-- A login environment: the provider approves, every round trip executes, no
other call interferes. -/
def loginEnv0 : LoginEnv :=
  { otp := .ok (some "approved"), findFault := none, racing := [], createFault := none
    userID := "u2", userTime := 0, issueTime := 0, accessID := "ja", refreshID := "jr"
    loginTime := 0, deviceID := "d1", createTime := 0, upsertFault := none }

/-- As `loginEnv0`, but the provider's response has no status. -/
def loginEnvNil : LoginEnv := { loginEnv0 with otp := .ok none }

/-- As `loginEnv0`, but the provider answers `pending`. -/
def loginEnvPending : LoginEnv := { loginEnv0 with otp := .ok (some "pending") }

/-- As `loginEnv0`, but another call inserts `user1` between the lookup and the insert. -/
def loginEnvRace : LoginEnv := { loginEnv0 with racing := [user1] }

/-- As `loginEnv0`, but the round trip of the upsert fails. -/
def loginEnvUpsertFails : LoginEnv :=
  { loginEnv0 with upsertFault := some "driver: bad connection" }

/-- A database without users and sessions. -/
def dbEmpty : DB := { users := [], user_devices := [] }

/-- A database with `user1` and no session. -/
def dbUser1 : DB := { users := [user1], user_devices := [] }

/-- As `env0`, but the round trip of the upsert fails. -/
def envUpsertFails : Env := { env0 with upsertFault := some "driver: bad connection" }

/-- The environment of a second `RefreshToken` call that runs concurrently with
one in `env0`. -/
def envB : Env := { env0 with accessID := "ja3", refreshID := "jr3", deviceID := "d3" }

/-- A call context whose `authorization` value carries `accessTok0` as bearer token. -/
def ctxAccess0 : Context :=
  { md := some [("authorization", ["Bearer " ++ accessTok0])], userID := none }

/-- A call context without metadata. -/
def ctxNoMD : Context := { md := none, userID := none }

/-- A handler that returns the identity it finds in its context. -/
def whoHandler (ctx : Context) : Except Status (String × Bool) := .ok (UserIDFromContext ctx)

/-- The refresh token of a second login of `u1`: `tmTwo` issues it at clock 0. -/
def refreshTokLate : String := (GenerateTokens Ref.libs tmTwo 0 "jaL" "jrL" "u1").2.1

/-- The database `dbRevokedAll` once the upsert of the second login's session
(step 5 of `VerifyOTP`) has run on it. -/
def dbLate : DB :=
  (UpsertDevice dbRevokedAll none "dL" (1 * Second)
    (loginDevice Ref.libs user1 refreshTokLate 0)).2

/-! # Theorems -/

namespace Ref

theorem takeField_replicate (f rest : List Char) :
    ∀ (m k : Nat), k + m = f.length →
      takeField k (List.replicate m 'x' ++ ';' :: (f ++ rest)) = some (f, rest) := by
  intro m
  induction m with
  | zero =>
    intro k hk
    have hk' : k = f.length := by simpa using hk
    subst hk'
    simp [takeField]
  | succ m ih =>
    intro k hk
    have := ih (k + 1) (by omega)
    simpa [List.replicate_succ, takeField] using this

theorem takeField_putField (f rest : List Char) :
    takeField 0 (putField f ++ rest) = some (f, rest) := by
  have := takeField_replicate f rest f.length 0 (by simp)
  simpa [putField] using this

theorem takeFields_putFields (fs : List (List Char)) (rest : List Char) :
    takeFields fs.length (putFields fs ++ rest) = some (fs, rest) := by
  induction fs with
  | nil => simp [takeFields, putFields]
  | cons f fs ih =>
    simp [takeFields, putFields, List.append_assoc, takeField_putField, ih]

theorem takeDate_putDate (d : Option Int)
    (h : ∀ t, d = some t → t % jwtlib.TimePrecision = 0) : takeDate (putDate d) = d := by
  cases d with
  | none => rfl
  | some t =>
    have ht := h t rfl
    simp only [jwtlib.TimePrecision, Second] at ht
    by_cases h0 : 0 ≤ t
    · have : ((t / 1000000000).toNat : Int) = t / 1000000000 :=
        Int.toNat_of_nonneg (by omega)
      simp [putDate, takeDate, h0, jwtlib.TimePrecision, Second, this]
      omega
    · have : ((-(t / 1000000000)).toNat : Int) = -(t / 1000000000) :=
        Int.toNat_of_nonneg (by omega)
      simp [putDate, takeDate, h0, jwtlib.TimePrecision, Second, this]
      omega

theorem decode_encode (alg : Option String) (c : CustomClaims) (sg : String)
    (hc : DatesAligned c) (halg : takeAlg (putAlg alg) = alg) :
    decode (encode alg c sg) =
      some { alg := alg, claims := c, signingString := signingString alg c, signature := sg } := by
  obtain ⟨h1, h2, h3⟩ := hc
  have hlen : (bodyFields alg c ++ [sg.data] ++ c.Audience.map String.data).length
      = 9 + (List.replicate c.Audience.length 'a').length := by
    simp [bodyFields]; omega
  have hF := takeFields_putFields
    (bodyFields alg c ++ [sg.data] ++ c.Audience.map String.data) []
  rw [hlen, List.append_nil] at hF
  have hmap : List.map String.mk (List.map String.data c.Audience) = c.Audience := by
    rw [List.map_map]
    have : (String.mk ∘ String.data) = id := by funext x; rfl
    rw [this, List.map_id]
  unfold decode encode
  simp only [takeField_putField, hF]
  simp [bodyFields, halg, takeDate_putDate _ h1, takeDate_putDate _ h2,
    takeDate_putDate _ h3, hmap]

theorem libs_lawful : Libs.Lawful libs := by
  constructor
  intro key c hc
  refine ⟨encode (some "HS256") c (tag key (signingString (some "HS256") c)), _, rfl,
    decode_encode _ _ _ hc rfl, rfl, rfl, ?_⟩
  simp [libs, verify, jwtlib.SigningMethod.isHMAC]

end Ref

/-! ## `ValidateToken`: what it accepts -/

/-- `ValidateToken` returns either claims or the one error `ErrInvalidToken`. -/
theorem ValidateToken_ok_or_invalid (L : Libs) (tm : TokenManager) (now : Int) (s : String) :
    (∃ c, ValidateToken L tm now s = .ok c) ∨ ValidateToken L tm now s = .error ErrInvalidToken := by
  unfold ValidateToken
  split
  · right; split_ifs <;> rfl
  · split_ifs
    · left; exact ⟨_, rfl⟩
    · right; rfl

/-- The conditions under which `ValidateToken` accepts a token string. -/
theorem ValidateToken_ok_iff (L : Libs) (tm : TokenManager) (now : Int) (s : String)
    (c : CustomClaims) :
    ValidateToken L tm now s = .ok c ↔
      ∃ raw alg m, L.decode s = some raw ∧ raw.alg = some alg ∧
        jwtlib.GetSigningMethod alg = some m ∧ m.isHMAC = true ∧
        L.verify m raw.signingString raw.signature tm.secretKey = true ∧
        jwtlib.Validate now raw.claims = [] ∧ raw.claims = c := by
  unfold ValidateToken jwtlib.ParseWithClaims keyFunc
  constructor
  · intro h
    cases hd : L.decode s with
    | none => simp [hd] at h
    | some raw =>
      cases ha : raw.alg with
      | none => simp [hd, ha] at h
      | some alg =>
        cases hm : jwtlib.GetSigningMethod alg with
        | none => simp [hd, ha, hm] at h
        | some m =>
          cases hh : m.isHMAC with
          | false => simp [hd, ha, hm, hh] at h
          | true =>
            cases hv : L.verify m raw.signingString raw.signature tm.secretKey with
            | false => simp [hd, ha, hm, hh, hv] at h
            | true =>
              cases hV : jwtlib.Validate now raw.claims with
              | cons e es => simp [hd, ha, hm, hh, hv, hV] at h
              | nil =>
                simp [hd, ha, hm, hh, hv, hV] at h
                exact ⟨raw, alg, m, rfl, ha, hm, hh, hv, hV, h⟩
  · rintro ⟨raw, alg, m, hd, ha, hm, hh, hv, hV, rfl⟩
    simp [hd, ha, hm, hh, hv, hV]

/-- The two ways a conditional with a `some` branch can be `some m`. -/
theorem ite_some_cases {α : Type} {p : Prop} [Decidable p] {a m : α} {o : Option α}
    (h : (if p then some a else o) = some m) : (p ∧ a = m) ∨ (¬ p ∧ o = some m) := by
  by_cases hp : p
  · rw [if_pos hp] at h
    exact Or.inl ⟨hp, Option.some.inj h⟩
  · rw [if_neg hp] at h
    exact Or.inr ⟨hp, h⟩

/-- Only the three `HS` names are registered with an HMAC method. -/
theorem GetSigningMethod_isHMAC (alg : String) (m : jwtlib.SigningMethod)
    (hm : jwtlib.GetSigningMethod alg = some m) (hh : m.isHMAC = true) :
    alg = "HS256" ∨ alg = "HS384" ∨ alg = "HS512" := by
  by_cases h1 : alg = "HS256"
  · exact Or.inl h1
  by_cases h2 : alg = "HS384"
  · exact Or.inr (Or.inl h2)
  by_cases h3 : alg = "HS512"
  · exact Or.inr (Or.inr h3)
  exfalso
  unfold jwtlib.GetSigningMethod at hm
  rw [if_neg h1, if_neg h2, if_neg h3] at hm
  iterate 11
    rcases ite_some_cases hm with ⟨_, hm'⟩ | ⟨_, hm'⟩
    · subst hm'
      exact absurd hh (by decide)
    clear hm
    rename' hm' => hm
  exact Option.noConfusion hm

/-- The library validator accepts claims exactly when neither date rejects the clock. -/
theorem Validate_nil_iff (now : Int) (c : CustomClaims) :
    jwtlib.Validate now c = [] ↔
      (∀ exp, c.ExpiresAt = some exp → now < exp) ∧ (∀ nbf, c.NotBefore = some nbf → nbf ≤ now) := by
  unfold jwtlib.Validate Before
  cases c.ExpiresAt <;> cases c.NotBefore <;> simp

/-- Truncation to whole seconds rounds down by less than a second, to a whole second. -/
theorem NewNumericDate_bounds (t : Int) :
    jwtlib.NewNumericDate t ≤ t ∧ t < jwtlib.NewNumericDate t + Second ∧
      jwtlib.NewNumericDate t % jwtlib.TimePrecision = 0 := by
  unfold jwtlib.NewNumericDate Truncate jwtlib.TimePrecision Second
  omega

theorem accessClaims_aligned (tm : TokenManager) (now : Int) (jti u : String) :
    DatesAligned (accessClaims tm now jti u) := by
  refine ⟨?_, ?_, ?_⟩ <;> intro t ht <;> simp [accessClaims] at ht
  · subst ht; exact (NewNumericDate_bounds _).2.2
  · subst ht; exact (NewNumericDate_bounds _).2.2

theorem refreshClaims_aligned (tm : TokenManager) (now : Int) (jti u : String) :
    DatesAligned (refreshClaims tm now jti u) := by
  refine ⟨?_, ?_, ?_⟩ <;> intro t ht <;> simp [refreshClaims] at ht
  · subst ht; exact (NewNumericDate_bounds _).2.2
  · subst ht; exact (NewNumericDate_bounds _).2.2

/-- With lawful primitives, signing aligned claims under the manager's key succeeds. -/
theorem generateToken_ok (L : Libs) (hL : L.Lawful) (tm : TokenManager) (c : CustomClaims)
    (hc : DatesAligned c) : ∃ s, generateToken L tm c = .ok s := by
  obtain ⟨s, _, hs, _⟩ := hL.sign_decode tm.secretKey c hc
  exact ⟨s, hs⟩

/-- With lawful primitives, a token signed under the manager's key validates to
its own claims while the validator's clock satisfies their dates, and is
rejected otherwise. -/
theorem ValidateToken_generated (L : Libs) (hL : L.Lawful) (tm : TokenManager)
    (c : CustomClaims) (hc : DatesAligned c) (s : String) (hs : generateToken L tm c = .ok s)
    (now : Int) :
    ValidateToken L tm now s =
      if jwtlib.Validate now c = [] then .ok c else .error ErrInvalidToken := by
  obtain ⟨s', raw, hs', hd, ha, hcl, hv⟩ := hL.sign_decode tm.secretKey c hc
  have hss : s' = s := by
    unfold generateToken at hs
    rw [hs'] at hs
    exact Except.ok.inj hs
  subst hss
  by_cases hV : jwtlib.Validate now c = []
  · rw [if_pos hV, ValidateToken_ok_iff]
    exact ⟨raw, "HS256", .HS256, hd, ha, rfl, rfl, hv, by rw [hcl]; exact hV, hcl⟩
  · rw [if_neg hV]
    rcases ValidateToken_ok_or_invalid L tm now s' with ⟨c', hc'⟩ | h
    · obtain ⟨raw', _, _, hd', _, _, _, _, hV', _⟩ := (ValidateToken_ok_iff ..).1 hc'
      rw [hd] at hd'; cases hd'
      rw [hcl] at hV'; exact absurd hV' hV
    · exact h

/-- With lawful primitives `GenerateTokens` returns the two signed strings and no error. -/
theorem GenerateTokens_ok (L : Libs) (hL : L.Lawful) (tm : TokenManager) (now : Int)
    (ja jr u : String) :
    ∃ a r, generateToken L tm (accessClaims tm now ja u) = .ok a ∧
      generateToken L tm (refreshClaims tm now jr u) = .ok r ∧
      GenerateTokens L tm now ja jr u = (a, r, none) := by
  obtain ⟨a, ha⟩ := generateToken_ok L hL tm _ (accessClaims_aligned tm now ja u)
  obtain ⟨r, hr⟩ := generateToken_ok L hL tm _ (refreshClaims_aligned tm now jr u)
  exact ⟨a, r, ha, hr, by simp [GenerateTokens, ha, hr]⟩

/-- Access claims pass the library validator exactly before their truncated expiry. -/
theorem Validate_accessClaims (tm : TokenManager) (now t : Int) (ja u : String) :
    jwtlib.Validate t (accessClaims tm now ja u) = [] ↔
      t < jwtlib.NewNumericDate (now + tm.accessTokenDuration) := by
  rw [Validate_nil_iff]
  simp [accessClaims]

/-- Refresh claims pass the library validator exactly before their truncated expiry. -/
theorem Validate_refreshClaims (tm : TokenManager) (now t : Int) (jr u : String) :
    jwtlib.Validate t (refreshClaims tm now jr u) = [] ↔
      t < jwtlib.NewNumericDate (now + tm.refreshTokenDuration) := by
  rw [Validate_nil_iff]
  simp [refreshClaims]

/-! ## C1: construction of the token manager -/

/-- C1. `NewTokenManager secret accessDuration refreshDuration` returns a manager
(and no error) if and only if the secret has at least 32 bytes and both
durations are positive, the manager then holding exactly these three values;
in every other case it returns an error and no manager. -/
theorem C1_NewTokenManager_ok_iff (secret : String) (accessDuration refreshDuration : Int) :
    ((∃ tm, NewTokenManager secret accessDuration refreshDuration = .ok tm) ↔
        (32 ≤ secret.utf8ByteSize ∧ 0 < accessDuration ∧ 0 < refreshDuration)) ∧
    ((32 ≤ secret.utf8ByteSize ∧ 0 < accessDuration ∧ 0 < refreshDuration) →
        NewTokenManager secret accessDuration refreshDuration =
          .ok ⟨secret, accessDuration, refreshDuration⟩) ∧
    (¬ (32 ≤ secret.utf8ByteSize ∧ 0 < accessDuration ∧ 0 < refreshDuration) →
        ∃ e, NewTokenManager secret accessDuration refreshDuration = .error e) := by
  unfold NewTokenManager
  by_cases h1 : secret.utf8ByteSize < 32
  · rw [if_pos h1]
    exact ⟨⟨fun ⟨_, h⟩ => (by cases h), fun h => (by omega)⟩, fun h => (by omega), fun _ => ⟨_, rfl⟩⟩
  · rw [if_neg h1]
    by_cases h2 : accessDuration ≤ 0 ∨ refreshDuration ≤ 0
    · rw [if_pos h2]
      exact ⟨⟨fun ⟨_, h⟩ => (by cases h), fun h => (by omega)⟩, fun h => (by omega), fun _ => ⟨_, rfl⟩⟩
    · rw [if_neg h2]
      exact ⟨⟨fun _ => (by omega), fun _ => ⟨_, rfl⟩⟩, fun _ => rfl, fun h => (by omega)⟩

/-! ## The ways `ValidateToken` rejects -/

/-- A malformed string, a signature that does not verify and an expiry that is
not after the clock are each rejected with `ErrInvalidToken`. -/
theorem ValidateToken_rejects (L : Libs) (tm : TokenManager) (now : Int) (s : String) :
    (L.decode s = none → ValidateToken L tm now s = .error ErrInvalidToken) ∧
    (∀ raw, L.decode s = some raw →
      (∀ m, L.verify m raw.signingString raw.signature tm.secretKey = false) →
        ValidateToken L tm now s = .error ErrInvalidToken) ∧
    (∀ raw exp, L.decode s = some raw → raw.claims.ExpiresAt = some exp → exp ≤ now →
        ValidateToken L tm now s = .error ErrInvalidToken) := by
  have key : ∀ (P : Prop), (∀ c, ValidateToken L tm now s = .ok c → P → False) → P →
      ValidateToken L tm now s = .error ErrInvalidToken := by
    intro P hP hp
    rcases ValidateToken_ok_or_invalid L tm now s with ⟨c, hc⟩ | h
    · exact absurd hp (fun hp => hP c hc hp)
    · exact h
  refine ⟨?_, ?_, ?_⟩
  · intro hd
    refine key _ (fun c hc hd => ?_) hd
    obtain ⟨raw, _, _, hd', _⟩ := (ValidateToken_ok_iff ..).1 hc
    rw [hd] at hd'; cases hd'
  · intro raw hd hv
    refine key _ (fun c hc hv => ?_) hv
    obtain ⟨raw', alg, m, hd', _, _, _, hv', _⟩ := (ValidateToken_ok_iff ..).1 hc
    rw [hd] at hd'; cases hd'
    rw [hv m] at hv'; cases hv'
  · intro raw exp hd hexp hle
    refine key _ (fun c hc hle => ?_) hle
    obtain ⟨raw', alg, m, hd', _, _, _, _, hV, _⟩ := (ValidateToken_ok_iff ..).1 hc
    rw [hd] at hd'; cases hd'
    have := ((Validate_nil_iff ..).1 hV).1 exp hexp
    omega

/-! ## C3: one error value -/

/-- C3. For every input string `ValidateToken` returns either claims (and no
error) or no claims and the single error value `ErrInvalidToken`; a malformed
string, a header with an unknown or a non-HMAC algorithm, a signature that does
not verify, and an expiry that is not after the validator's clock all give that
same value. -/
theorem C3_ValidateToken_single_error (L : Libs) (tm : TokenManager) (now : Int) (s : String) :
    ((∃ c, ValidateToken L tm now s = .ok c) ∨
        ValidateToken L tm now s = .error ErrInvalidToken) ∧
    (∀ e, ValidateToken L tm now s = .error e → e = ErrInvalidToken) ∧
    (L.decode s = none → ValidateToken L tm now s = .error ErrInvalidToken) ∧
    (∀ raw, L.decode s = some raw →
      (∀ alg m, raw.alg = some alg → jwtlib.GetSigningMethod alg = some m → m.isHMAC = false) →
        ValidateToken L tm now s = .error ErrInvalidToken) ∧
    (∀ raw, L.decode s = some raw →
      (∀ m, L.verify m raw.signingString raw.signature tm.secretKey = false) →
        ValidateToken L tm now s = .error ErrInvalidToken) ∧
    (∀ raw exp, L.decode s = some raw → raw.claims.ExpiresAt = some exp → exp ≤ now →
        ValidateToken L tm now s = .error ErrInvalidToken) := by
  have key : ∀ (P : Prop), (∀ c, ValidateToken L tm now s = .ok c → P → False) → P →
      ValidateToken L tm now s = .error ErrInvalidToken := by
    intro P hP hp
    rcases ValidateToken_ok_or_invalid L tm now s with ⟨c, hc⟩ | h
    · exact absurd hp (fun hp => hP c hc hp)
    · exact h
  refine ⟨ValidateToken_ok_or_invalid L tm now s, ?_, ?_, ?_, ?_, ?_⟩
  · intro e he
    rcases ValidateToken_ok_or_invalid L tm now s with ⟨c, hc⟩ | h
    · rw [hc] at he; cases he
    · rw [h] at he; cases he; rfl
  · intro hd
    refine key _ (fun c hc hd => ?_) hd
    obtain ⟨raw, _, _, hd', _⟩ := (ValidateToken_ok_iff ..).1 hc
    rw [hd] at hd'; cases hd'
  · intro raw hd halg
    refine key _ (fun c hc halg => ?_) halg
    obtain ⟨raw', alg, m, hd', ha, hm, hh, _⟩ := (ValidateToken_ok_iff ..).1 hc
    rw [hd] at hd'; cases hd'
    have := halg alg m ha hm
    rw [hh] at this; cases this
  · intro raw hd hv
    refine key _ (fun c hc hv => ?_) hv
    obtain ⟨raw', alg, m, hd', _, _, _, hv', _⟩ := (ValidateToken_ok_iff ..).1 hc
    rw [hd] at hd'; cases hd'
    rw [hv m] at hv'; cases hv'
  · intro raw exp hd hexp hle
    refine key _ (fun c hc hle => ?_) hle
    obtain ⟨raw', alg, m, hd', _, _, _, _, hV, _⟩ := (ValidateToken_ok_iff ..).1 hc
    rw [hd] at hd'; cases hd'
    have := ((Validate_nil_iff ..).1 hV).1 exp hexp
    omega

/-! ## C4: algorithm confusion -/

/-- C4. A token whose header declares an algorithm outside the HMAC family
(`none` included, and also a header with no `alg` at all) is rejected with
`ErrInvalidToken` whatever its claims, signing string and signature are and
whatever the verification primitive would answer: for a method that is not
HMAC the key function returns an error and never the secret. -/
theorem C4_non_HMAC_rejected (L : Libs) (tm : TokenManager) (now : Int) (s : String)
    (raw : RawToken) (hd : L.decode s = some raw)
    (halg : raw.alg ≠ some "HS256" ∧ raw.alg ≠ some "HS384" ∧ raw.alg ≠ some "HS512") :
    ValidateToken L tm now s = .error ErrInvalidToken ∧
    (∀ token : jwtlib.Token, token.Method.isHMAC = false →
      ∃ e, keyFunc tm token = .error e) := by
  constructor
  · rcases ValidateToken_ok_or_invalid L tm now s with ⟨c, hc⟩ | h
    · exfalso
      obtain ⟨raw', alg, m, hd', ha, hm, hh, _⟩ := (ValidateToken_ok_iff ..).1 hc
      rw [hd] at hd'; cases hd'
      rw [ha] at halg
      obtain ⟨h1, h2, h3⟩ := halg
      rcases GetSigningMethod_isHMAC alg m hm hh with h | h | h
      · exact h1 (by rw [h])
      · exact h2 (by rw [h])
      · exact h3 (by rw [h])
    · exact h
  · intro token ht
    refine ⟨.New ("beklenmedik imzalama algoritması: " ++ token.Alg), ?_⟩
    simp [keyFunc, ht]

/-- C4 at a concrete token: `alg = none` under the reference primitives. -/
theorem C4_non_HMAC_rejected_witness :
    ValidateToken Ref.libs tmProd 0 noneToken = .error ErrInvalidToken :=
  (C4_non_HMAC_rejected Ref.libs tmProd 0 noneToken
    { alg := some "none", claims := noneClaims
      signingString := Ref.signingString (some "none") noneClaims, signature := "" }
    (Ref.decode_encode (some "none") noneClaims "" (by simp [DatesAligned, noneClaims]) rfl)
    (by decide)).1

/-! ## C2: issue, then validate -/

/-- `NewTokenManager` accepts the secret and lifetimes of `NewAuthService`. -/
theorem NewTokenManager_tmProd :
    NewTokenManager secret32 (15 * Minute) (7 * 24 * Hour) = .ok tmProd := by
  unfold NewTokenManager
  rw [if_neg (by decide), if_neg (by decide)]
  rfl

/-- `NewTokenManager` accepts lifetimes of one nanosecond. -/
theorem NewTokenManager_tmShort : NewTokenManager secret32 1 1 = .ok tmShort := by
  unfold NewTokenManager
  rw [if_neg (by decide), if_neg (by decide)]
  rfl

/-- C2, as amended. For every manager that `NewTokenManager` accepts and every
subject `u`, with lawful primitives, `GenerateTokens u` at clock `now` returns
two tokens and no error. Each token is judged on its own lifetime, whatever the
other lifetime is. `ValidateToken` on the access token succeeds exactly at the
clocks before `now + access lifetime` truncated to whole seconds, so whenever at
least one second of the access lifetime remains and, immediately, when the
access lifetime is at least one second; it then yields `Type = access`,
`Subject = u` and `ExpiresAt` equal to that truncated instant; at every other
clock it returns `ErrInvalidToken`. `ValidateToken` on the refresh token does
the same with the refresh lifetime and `Type = refresh`. -/
theorem C2_issue_then_validate (L : Libs) (hL : L.Lawful) (secret : String)
    (accessDuration refreshDuration : Int) (tm : TokenManager)
    (hok : NewTokenManager secret accessDuration refreshDuration = .ok tm)
    (u ja jr : String) (now : Int) :
    ∃ a r ca cr, GenerateTokens L tm now ja jr u = (a, r, none) ∧
      (ca.Typ = TokenTypeAccess ∧ ca.Subject = u ∧
        ca.ExpiresAt = some (Truncate (now + accessDuration) Second)) ∧
      (cr.Typ = TokenTypeRefresh ∧ cr.Subject = u ∧
        cr.ExpiresAt = some (Truncate (now + refreshDuration) Second)) ∧
      (∀ t, ValidateToken L tm t a =
        if t < Truncate (now + accessDuration) Second then .ok ca else .error ErrInvalidToken) ∧
      (∀ t, ValidateToken L tm t r =
        if t < Truncate (now + refreshDuration) Second then .ok cr else .error ErrInvalidToken) ∧
      (∀ t, t + Second ≤ now + accessDuration → ValidateToken L tm t a = .ok ca) ∧
      (∀ t, t + Second ≤ now + refreshDuration → ValidateToken L tm t r = .ok cr) ∧
      (Second ≤ accessDuration → ValidateToken L tm now a = .ok ca) ∧
      (Second ≤ refreshDuration → ValidateToken L tm now r = .ok cr) := by
  have htm : tm = ⟨secret, accessDuration, refreshDuration⟩ := by
    unfold NewTokenManager at hok
    split_ifs at hok
    exact (Except.ok.inj hok).symm
  subst htm
  obtain ⟨a, r, ha, hr, hg⟩ := GenerateTokens_ok L hL ⟨secret, accessDuration, refreshDuration⟩ now ja jr u
  have hA : ∀ t, ValidateToken L ⟨secret, accessDuration, refreshDuration⟩ t a =
      if t < Truncate (now + accessDuration) Second then
        .ok (accessClaims ⟨secret, accessDuration, refreshDuration⟩ now ja u)
      else .error ErrInvalidToken := by
    intro t
    rw [ValidateToken_generated L hL _ _ (accessClaims_aligned ..) a ha t]
    by_cases ht : t < Truncate (now + accessDuration) Second
    · rw [if_pos ht, if_pos]
      rw [Validate_accessClaims]
      exact ht
    · rw [if_neg ht, if_neg]
      rw [Validate_accessClaims]
      exact ht
  have hR : ∀ t, ValidateToken L ⟨secret, accessDuration, refreshDuration⟩ t r =
      if t < Truncate (now + refreshDuration) Second then
        .ok (refreshClaims ⟨secret, accessDuration, refreshDuration⟩ now jr u)
      else .error ErrInvalidToken := by
    intro t
    rw [ValidateToken_generated L hL _ _ (refreshClaims_aligned ..) r hr t]
    by_cases ht : t < Truncate (now + refreshDuration) Second
    · rw [if_pos ht, if_pos]
      rw [Validate_refreshClaims]
      exact ht
    · rw [if_neg ht, if_neg]
      rw [Validate_refreshClaims]
      exact ht
  have hbA := NewNumericDate_bounds (now + accessDuration)
  have hbR := NewNumericDate_bounds (now + refreshDuration)
  have hlA : ∀ t, t + Second ≤ now + accessDuration →
      t < Truncate (now + accessDuration) Second := by
    intro t ht
    unfold jwtlib.NewNumericDate jwtlib.TimePrecision at hbA
    omega
  have hlR : ∀ t, t + Second ≤ now + refreshDuration →
      t < Truncate (now + refreshDuration) Second := by
    intro t ht
    unfold jwtlib.NewNumericDate jwtlib.TimePrecision at hbR
    omega
  refine ⟨a, r, accessClaims ⟨secret, accessDuration, refreshDuration⟩ now ja u,
    refreshClaims ⟨secret, accessDuration, refreshDuration⟩ now jr u,
    hg, ⟨rfl, rfl, rfl⟩, ⟨rfl, rfl, rfl⟩, hA, hR, ?_, ?_, ?_, ?_⟩
  · intro t ht
    rw [hA t, if_pos (hlA t ht)]
  · intro t ht
    rw [hR t, if_pos (hlR t ht)]
  · intro hd
    rw [hA now, if_pos (hlA now (by omega))]
  · intro hd
    rw [hR now, if_pos (hlR now (by omega))]

/-- C2 at a concrete input: the manager of `NewAuthService` (15 minutes and 7
days), issuing at clock 0. -/
theorem C2_issue_then_validate_witness :
    ∃ a r ca cr, GenerateTokens Ref.libs tmProd 0 "jti-a" "jti-r" "user-1" = (a, r, none) ∧
      (ca.Typ = TokenTypeAccess ∧ ca.Subject = "user-1" ∧
        ca.ExpiresAt = some (Truncate (0 + 15 * Minute) Second)) ∧
      (cr.Typ = TokenTypeRefresh ∧ cr.Subject = "user-1" ∧
        cr.ExpiresAt = some (Truncate (0 + 7 * 24 * Hour) Second)) ∧
      (∀ t, ValidateToken Ref.libs tmProd t a =
        if t < Truncate (0 + 15 * Minute) Second then .ok ca else .error ErrInvalidToken) ∧
      (∀ t, ValidateToken Ref.libs tmProd t r =
        if t < Truncate (0 + 7 * 24 * Hour) Second then .ok cr else .error ErrInvalidToken) ∧
      (∀ t, t + Second ≤ 0 + 15 * Minute → ValidateToken Ref.libs tmProd t a = .ok ca) ∧
      (∀ t, t + Second ≤ 0 + 7 * 24 * Hour → ValidateToken Ref.libs tmProd t r = .ok cr) ∧
      (Second ≤ 15 * Minute → ValidateToken Ref.libs tmProd 0 a = .ok ca) ∧
      (Second ≤ 7 * 24 * Hour → ValidateToken Ref.libs tmProd 0 r = .ok cr) :=
  C2_issue_then_validate Ref.libs Ref.libs_lawful secret32 (15 * Minute) (7 * 24 * Hour) tmProd
    NewTokenManager_tmProd "user-1" "jti-a" "jti-r" 0

/-- C2 as stated fails. (1) A manager with lifetimes of one nanosecond is
accepted by `NewTokenManager`, `GenerateTokens` succeeds, and both tokens are
rejected by `ValidateToken` at the very instant of issue. (2) With the
15-minute lifetime, issued half a second past a whole second, the access token
validates, with `ExpiresAt` equal to 900 s and not to issue time + lifetime
(900.5 s). -/
theorem C2_counterexample :
    (NewTokenManager secret32 1 1 = .ok tmShort ∧
      (GenerateTokens Ref.libs tmShort 0 "jti-a" "jti-r" "user-1").2.2 = none ∧
      ValidateToken Ref.libs tmShort 0
        (GenerateTokens Ref.libs tmShort 0 "jti-a" "jti-r" "user-1").1 = .error ErrInvalidToken ∧
      ValidateToken Ref.libs tmShort 0
        (GenerateTokens Ref.libs tmShort 0 "jti-a" "jti-r" "user-1").2.1 = .error ErrInvalidToken) ∧
    (∃ ca, ValidateToken Ref.libs tmProd 500000000
        (GenerateTokens Ref.libs tmProd 500000000 "jti-a" "jti-r" "user-1").1 = .ok ca ∧
      ca.ExpiresAt = some (900 * Second) ∧
      ca.ExpiresAt ≠ some (500000000 + tmProd.accessTokenDuration)) := by
  refine ⟨⟨NewTokenManager_tmShort, ?_, ?_, ?_⟩, ?_⟩
  · obtain ⟨a, r, _, _, hg⟩ := GenerateTokens_ok Ref.libs Ref.libs_lawful tmShort 0 "jti-a" "jti-r" "user-1"
    rw [hg]
  · obtain ⟨a, r, ha, _, hg⟩ := GenerateTokens_ok Ref.libs Ref.libs_lawful tmShort 0 "jti-a" "jti-r" "user-1"
    rw [hg, ValidateToken_generated Ref.libs Ref.libs_lawful _ _ (accessClaims_aligned ..) a ha 0,
      if_neg]
    rw [Validate_accessClaims]
    decide
  · obtain ⟨a, r, _, hr, hg⟩ := GenerateTokens_ok Ref.libs Ref.libs_lawful tmShort 0 "jti-a" "jti-r" "user-1"
    rw [hg, ValidateToken_generated Ref.libs Ref.libs_lawful _ _ (refreshClaims_aligned ..) r hr 0,
      if_neg]
    rw [Validate_refreshClaims]
    decide
  · obtain ⟨a, r, ha, _, hg⟩ := GenerateTokens_ok Ref.libs Ref.libs_lawful tmProd 500000000 "jti-a" "jti-r" "user-1"
    refine ⟨accessClaims tmProd 500000000 "jti-a" "user-1", ?_, by decide, by decide⟩
    rw [hg, ValidateToken_generated Ref.libs Ref.libs_lawful _ _ (accessClaims_aligned ..) a ha _,
      if_pos]
    rw [Validate_accessClaims]
    decide

/-! ## C5: the type gate -/

/-- The claims `ValidateToken` returns for a token string do not depend on the clock. -/
theorem ValidateToken_claims_unique (L : Libs) (tm : TokenManager) (t t' : Int) (s : String)
    (c c' : CustomClaims) (h : ValidateToken L tm t s = .ok c)
    (h' : ValidateToken L tm t' s = .ok c') : c = c' := by
  obtain ⟨raw, _, _, hd, _, _, _, _, _, hc⟩ := (ValidateToken_ok_iff ..).1 h
  obtain ⟨raw', _, _, hd', _, _, _, _, _, hc'⟩ := (ValidateToken_ok_iff ..).1 h'
  rw [hd] at hd'; cases hd'
  rw [← hc, ← hc']

/-- What a successful `GenerateTokens` returned. -/
theorem GenerateTokens_inv (L : Libs) (tm : TokenManager) (now : Int) (ja jr u a r : String)
    (hg : GenerateTokens L tm now ja jr u = (a, r, none)) :
    generateToken L tm (accessClaims tm now ja u) = .ok a ∧
      generateToken L tm (refreshClaims tm now jr u) = .ok r := by
  unfold GenerateTokens at hg
  cases ha : generateToken L tm (accessClaims tm now ja u) with
  | error e => rw [ha] at hg; simp at hg
  | ok a' =>
    cases hr : generateToken L tm (refreshClaims tm now jr u) with
    | error e => rw [ha, hr] at hg; simp at hg
    | ok r' =>
      rw [ha, hr] at hg
      simp at hg
      rw [hg.1, hg.2]
      exact ⟨rfl, rfl⟩

/-- With lawful primitives, whatever `ValidateToken` accepts of a generated token
is the claims it was generated from. -/
theorem ValidateToken_generated_claims (L : Libs) (hL : L.Lawful) (tm : TokenManager)
    (c : CustomClaims) (hc : DatesAligned c) (s : String) (hs : generateToken L tm c = .ok s)
    (t : Int) (c' : CustomClaims) (h : ValidateToken L tm t s = .ok c') : c' = c := by
  rw [ValidateToken_generated L hL tm c hc s hs t] at h
  split_ifs at h
  exact (Except.ok.inj h).symm

/-- `ValidateAccessToken` decides on the validation result and the `Type` claim alone. -/
theorem ValidateAccessToken_eq (L : Libs) (s : AuthService) (t : Int) (tok : String) :
    ValidateAccessToken L s t tok =
      match ValidateToken L s.tokenManager t tok with
      | .error _ => (false, "")
      | .ok c => if c.Typ = TokenTypeAccess then (true, c.Subject) else (false, "") := by
  unfold ValidateAccessToken
  cases ValidateToken L s.tokenManager t tok with
  | error e => rfl
  | ok c => by_cases h : c.Typ = TokenTypeAccess <;> simp [h]

/-- A token that does not validate to refresh claims is refused by `RefreshToken`
before any store access. -/
theorem RefreshToken_not_refresh (L : Libs) (s : AuthService) (env : Env) (db : DB)
    (tok : String)
    (h : ∀ c, ValidateToken L s.tokenManager env.now tok = .ok c → c.Typ ≠ TokenTypeRefresh) :
    ∃ e, RefreshToken L s env db tok = (("", "", some e), db) := by
  unfold RefreshToken
  cases hv : ValidateToken L s.tokenManager env.now tok with
  | error e => exact ⟨e, rfl⟩
  | ok c =>
    have := h c hv
    exact ⟨.New "provided token is not a refresh token", by simp [this]⟩

/-- With a device repository, a token that does not validate to refresh claims is
refused by `RevokeByRefreshToken` with `ErrInvalidToken` before any store access. -/
theorem RevokeByRefreshToken_not_refresh (L : Libs) (s : AuthService) (env : Env) (db : DB)
    (tok : String)
    (h : ∀ c, ValidateToken L s.tokenManager env.now tok = .ok c → c.Typ ≠ TokenTypeRefresh) :
    ∃ e, RevokeByRefreshToken L s env db tok = (some e, db) ∧
      (s.hasDeviceRepo = true → e = ErrInvalidToken) := by
  unfold RevokeByRefreshToken
  cases hrepo : s.hasDeviceRepo with
  | false => exact ⟨_, rfl, fun h => by cases h⟩
  | true =>
    cases hv : ValidateToken L s.tokenManager env.now tok with
    | error e => exact ⟨_, rfl, fun _ => rfl⟩
    | ok c =>
      have := h c hv
      exact ⟨ErrInvalidToken, by simp [this], fun _ => rfl⟩

/-- A token that does not validate to access claims is refused by
`RevokeAllForAccessToken` before any store access. -/
theorem RevokeAllForAccessToken_not_access (L : Libs) (s : AuthService) (env : Env) (db : DB)
    (tok : String)
    (h : ∀ c, ValidateToken L s.tokenManager env.now tok = .ok c → c.Typ ≠ TokenTypeAccess) :
    ∃ e, RevokeAllForAccessToken L s env db tok = (some e, db) ∧
      (s.hasDeviceRepo = true → e = ErrInvalidToken) := by
  unfold RevokeAllForAccessToken
  cases hrepo : s.hasDeviceRepo with
  | false => exact ⟨_, rfl, fun h => by cases h⟩
  | true =>
    cases hv : ValidateToken L s.tokenManager env.now tok with
    | error e => exact ⟨_, rfl, fun _ => rfl⟩
    | ok c =>
      have := h c hv
      exact ⟨ErrInvalidToken, by simp [this], fun _ => rfl⟩

/-- On a method outside the exempt service, a bearer token that does not validate
to access claims makes the interceptor return `Unauthenticated` whatever the
handler is. -/
theorem UnaryAuthInterceptor_not_access {ρ : Type} (L : Libs) (tm : TokenManager) (t : Int)
    (ctx : Context) (fullMethod : String) (handler : Context → Except Status ρ)
    (md : MD) (auth : String) (rest : List String)
    (hm : strings.HasPrefix fullMethod "/auth.AuthService/" = false)
    (hmd : ctx.md = some md) (hget : MD.Get md "authorization" = auth :: rest)
    (h : ∀ c, ValidateToken L tm t
        (strings.TrimSpace (String.mk (auth.data.drop "bearer ".length))) = .ok c →
      c.Typ ≠ TokenTypeAccess) :
    ∃ msg, UnaryAuthInterceptor L tm t ctx fullMethod handler =
      .error ⟨Code.Unauthenticated, msg⟩ := by
  unfold UnaryAuthInterceptor
  rw [hm, hmd]
  simp only [hget]
  cases hp : strings.HasPrefix (strings.ToLower auth) "bearer " with
  | false => exact ⟨_, rfl⟩
  | true =>
    cases hv : ValidateToken L tm t
        (strings.TrimSpace (String.mk (auth.data.drop "bearer ".length))) with
    | error e => exact ⟨"invalid or expired token", by simp⟩
    | ok c =>
      have := h c hv
      exact ⟨"token must be an access token", by simp [this]⟩

/-- C5. No operation accepts a credential of the wrong type. For the pair
`(a, r)` returned by `GenerateTokens`, with lawful primitives, at every clock,
in every environment and on every database: the refresh credential `r` makes
`ValidateAccessToken` return `(false, "")`, makes `RevokeAllForAccessToken` fail
leaving the database as it was, and, presented as bearer token on a method the
interceptor guards (one outside the `/auth.AuthService/` prefix, the only
methods on which it reads a credential), makes the interceptor return
`Unauthenticated` whatever the handler is; the access credential `a` makes
`RefreshToken` fail with two empty strings and `RevokeByRefreshToken` fail, both
leaving the database as it was. The decision reads the `Type` claim only: for
every token that validates, to claims `c` with whatever audience,
`ValidateAccessToken` answers `(true, c.Subject)` exactly when `c.Type =
access`, and `RefreshToken` and `RevokeByRefreshToken` fail without touching
the database whenever `c.Type` is not `refresh`. -/
theorem C5_wrong_type_rejected (L : Libs) (hL : L.Lawful) (s : AuthService) (now : Int)
    (ja jr u a r : String)
    (hg : GenerateTokens L s.tokenManager now ja jr u = (a, r, none)) :
    (∀ t, ValidateAccessToken L s t r = (false, "")) ∧
    (∀ env db, ∃ e, RevokeAllForAccessToken L s env db r = (some e, db)) ∧
    (∀ (ρ : Type) (t : Int) (ctx : Context) (fullMethod : String)
        (handler : Context → Except Status ρ) (md : MD) (auth : String) (rest : List String),
      strings.HasPrefix fullMethod "/auth.AuthService/" = false → ctx.md = some md →
      MD.Get md "authorization" = auth :: rest →
      strings.TrimSpace (String.mk (auth.data.drop "bearer ".length)) = r →
      ∃ msg, UnaryAuthInterceptor L s.tokenManager t ctx fullMethod handler =
        .error ⟨Code.Unauthenticated, msg⟩) ∧
    (∀ (ρ : Type) (t : Int) (ctx : Context) (fullMethod : String)
        (handler : Context → Except Status ρ),
      strings.HasPrefix fullMethod "/auth.AuthService/" = true →
      UnaryAuthInterceptor L s.tokenManager t ctx fullMethod handler = handler ctx) ∧
    (∀ env db, ∃ e, RefreshToken L s env db a = (("", "", some e), db)) ∧
    (∀ env db, ∃ e, RevokeByRefreshToken L s env db a = (some e, db)) ∧
    (∀ t tok c, ValidateToken L s.tokenManager t tok = .ok c →
      ValidateAccessToken L s t tok =
        if c.Typ = TokenTypeAccess then (true, c.Subject) else (false, "")) ∧
    (∀ env db tok c, ValidateToken L s.tokenManager env.now tok = .ok c →
      c.Typ ≠ TokenTypeRefresh →
        (∃ e, RefreshToken L s env db tok = (("", "", some e), db)) ∧
        (∃ e, RevokeByRefreshToken L s env db tok = (some e, db))) := by
  obtain ⟨ha, hr⟩ := GenerateTokens_inv L s.tokenManager now ja jr u a r hg
  have hrT : ∀ t c, ValidateToken L s.tokenManager t r = .ok c → c.Typ ≠ TokenTypeAccess := by
    intro t c hc
    rw [ValidateToken_generated_claims L hL _ _ (refreshClaims_aligned ..) r hr t c hc]
    show TokenTypeRefresh ≠ TokenTypeAccess
    decide
  have haT : ∀ t c, ValidateToken L s.tokenManager t a = .ok c → c.Typ ≠ TokenTypeRefresh := by
    intro t c hc
    rw [ValidateToken_generated_claims L hL _ _ (accessClaims_aligned ..) a ha t c hc]
    show TokenTypeAccess ≠ TokenTypeRefresh
    decide
  refine ⟨?_, ?_, ?_, ?_, ?_, ?_, ?_, ?_⟩
  · intro t
    rw [ValidateAccessToken_eq]
    cases hv : ValidateToken L s.tokenManager t r with
    | error e => rfl
    | ok c => simp [hrT t c hv]
  · intro env db
    obtain ⟨e, he, _⟩ := RevokeAllForAccessToken_not_access L s env db r (hrT env.now)
    exact ⟨e, he⟩
  · intro ρ t ctx fullMethod handler md auth rest hm hmd hget htok
    exact UnaryAuthInterceptor_not_access L s.tokenManager t ctx fullMethod handler md auth rest
      hm hmd hget (by rw [htok]; exact hrT t)
  · intro ρ t ctx fullMethod handler hm
    unfold UnaryAuthInterceptor
    rw [if_pos hm]
  · intro env db
    exact RefreshToken_not_refresh L s env db a (haT env.now)
  · intro env db
    obtain ⟨e, he, _⟩ := RevokeByRefreshToken_not_refresh L s env db a (haT env.now)
    exact ⟨e, he⟩
  · intro t tok c hc
    rw [ValidateAccessToken_eq, hc]
  · intro env db tok c hc hT
    have h' : ∀ c', ValidateToken L s.tokenManager env.now tok = .ok c' →
        c'.Typ ≠ TokenTypeRefresh := by
      intro c' hc'
      rw [← ValidateToken_claims_unique L _ _ _ tok c c' hc hc']
      exact hT
    obtain ⟨e, he, _⟩ := RevokeByRefreshToken_not_refresh L s env db tok h'
    exact ⟨RefreshToken_not_refresh L s env db tok h', e, he⟩

set_option maxRecDepth 100000 in
/-- C5 at concrete inputs: the pair `tmTwo` issues to `u1`, under the reference
primitives. -/
theorem C5_wrong_type_rejected_witness :
    ValidateAccessToken Ref.libs svcTwo 0 refreshTok0 = (false, "") ∧
    (∃ msg, UnaryAuthInterceptor Ref.libs svcTwo.tokenManager 0 ctxRefresh0
        "/chat.ChatService/SendMessage" okHandler = .error ⟨Code.Unauthenticated, msg⟩) ∧
    (∃ e, RefreshToken Ref.libs svcTwo env0 db0 accessTok0 = (("", "", some e), db0)) :=
  have h := C5_wrong_type_rejected Ref.libs Ref.libs_lawful svcTwo 0 "ja" "jr" "u1"
    accessTok0 refreshTok0 rfl
  ⟨h.1 0,
    h.2.2.1 Unit 0 ctxRefresh0 "/chat.ChatService/SendMessage" okHandler
      [("authorization", ["Bearer " ++ refreshTok0])] ("Bearer " ++ refreshTok0) []
      (by decide) rfl (by decide) (by decide),
    h.2.2.2.2.1 env0 db0⟩

/-! ## The session table -/

/-- The lookup finds nothing exactly when no row is active for `(u, h)`. -/
theorem FindActive_none_iff (db : DB) (u h : String) :
    FindActiveByUserAndHash db none u h = (none, none) ↔
      ∀ d ∈ db.user_devices, d.UserID = u → d.RefreshTokenHash = h → d.RevokedAt ≠ none := by
  unfold FindActiveByUserAndHash
  simp only [Prod.mk.injEq, and_true, List.find?_eq_none, decide_eq_true_eq, not_and]

/-- What the lookup finds is an active row of the table for `(u, h)`. -/
theorem FindActive_some (db : DB) (fault : Option String) (u h : String) (dev : UserDevice)
    (hf : FindActiveByUserAndHash db fault u h = (some dev, none)) :
    fault = none ∧ dev ∈ db.user_devices ∧ dev.UserID = u ∧ dev.RefreshTokenHash = h ∧
      dev.RevokedAt = none := by
  unfold FindActiveByUserAndHash at hf
  cases fault with
  | some msg => simp at hf
  | none =>
    simp only [Prod.mk.injEq, and_true] at hf
    have hp := List.find?_some hf
    simp only [decide_eq_true_eq] at hp
    exact ⟨rfl, List.mem_of_find?_eq_some hf, hp⟩

/-- A consumed session is not found by the lookup. -/
theorem FindActive_of_Consumed (db : DB) (u h : String) (hc : Consumed db.user_devices u h) :
    FindActiveByUserAndHash db none u h = (none, none) :=
  (FindActive_none_iff db u h).2 hc.2

/-- Under the unique index, revoking the row the lookup found consumes the session. -/
theorem Consumed_after_RevokeByID (db : DB) (now : Int) (u h : String) (dev : UserDevice)
    (hU : UniqueUserHash db.user_devices)
    (hf : FindActiveByUserAndHash db none u h = (some dev, none)) :
    Consumed (RevokeByID db none now dev.ID).2.user_devices u h := by
  obtain ⟨_, hmem, hu, hh, hact⟩ := FindActive_some db none u h dev hf
  have hsym : Symmetric (fun a b : UserDevice =>
      ¬ (a.UserID = b.UserID ∧ a.RefreshTokenHash = b.RefreshTokenHash)) := by
    intro a b hab hba; exact hab ⟨hba.1.symm, hba.2.symm⟩
  simp only [RevokeByID, Consumed, List.mem_map]
  constructor
  · refine ⟨_, ⟨dev, hmem, rfl⟩, ?_⟩
    simp [hact, hu, hh]
  · rintro d' ⟨d, hd, rfl⟩ hu' hh'
    by_cases hcond : d.ID = dev.ID ∧ d.RevokedAt = none
    · simp [hcond]
    · simp only [hcond, if_false] at hu' hh' ⊢
      by_cases hdd : d = dev
      · subst hdd
        intro hnone
        exact hcond ⟨rfl, hnone⟩
      · exfalso
        exact List.Pairwise.forall hsym hU hd hmem hdd ⟨hu'.trans hu.symm, hh'.trans hh.symm⟩

/-- Filling the defaults leaves user, hash, last login and revocation as they are. -/
theorem fillDefaults_fields (newID : UUID) (now : Int) (dev : UserDevice) :
    (fillDefaults newID now dev).UserID = dev.UserID ∧
    (fillDefaults newID now dev).RefreshTokenHash = dev.RefreshTokenHash ∧
    (fillDefaults newID now dev).LastLoginAt = dev.LastLoginAt ∧
    (fillDefaults newID now dev).RevokedAt = dev.RevokedAt ∧
    (fillDefaults newID now dev).DeviceName = dev.DeviceName ∧
    (fillDefaults newID now dev).DeviceType = dev.DeviceType ∧
    (fillDefaults newID now dev).PushNotificationToken = dev.PushNotificationToken := by
  unfold fillDefaults
  by_cases h1 : dev.ID = uuidNil <;> simp only [h1, if_true, if_false] <;>
    split_ifs <;> exact ⟨rfl, rfl, rfl, rfl, rfl, rfl, rfl⟩

/-- An upsert, executed or failed, keeps a consumed session consumed. -/
theorem Consumed_UpsertDevice (db : DB) (fault : Option String) (newID : UUID) (now : Int)
    (dev : UserDevice) (u h : String) (hc : Consumed db.user_devices u h) :
    Consumed (UpsertDevice db fault newID now dev).2.user_devices u h := by
  obtain ⟨⟨d0, hd0, hu0, hh0⟩, hall⟩ := hc
  unfold UpsertDevice
  generalize fillDefaults newID now dev = dev'
  cases fault with
  | some msg => exact ⟨⟨d0, hd0, hu0, hh0⟩, hall⟩
  | none =>
    simp only []
    split_ifs with hany
    · constructor
      · refine ⟨_, List.mem_map.2 ⟨d0, hd0, rfl⟩, ?_⟩
        split_ifs <;> exact ⟨hu0, hh0⟩
      · intro d' hd' hu' hh'
        obtain ⟨d, hd, rfl⟩ := List.mem_map.1 hd'
        split_ifs at hu' hh' ⊢ <;> exact hall d hd hu' hh'
    · constructor
      · exact ⟨d0, List.mem_append_left _ hd0, hu0, hh0⟩
      · intro d' hd' hu' hh'
        rcases List.mem_append.1 hd' with hd | hd
        · exact hall d' hd hu' hh'
        · exfalso
          have hd'' := List.mem_singleton.1 hd
          subst hd''
          apply hany
          simp only [List.any_eq_true, decide_eq_true_eq]
          exact ⟨d0, hd0, hu0.trans hu'.symm, hh0.trans hh'.symm⟩

/-- A revocation by identifier keeps a consumed session consumed. -/
theorem Consumed_RevokeByID (db : DB) (fault : Option String) (now : Int) (id u h : String)
    (hc : Consumed db.user_devices u h) :
    Consumed (RevokeByID db fault now id).2.user_devices u h := by
  obtain ⟨⟨d0, hd0, hu0, hh0⟩, hall⟩ := hc
  unfold RevokeByID
  cases fault with
  | some msg => exact ⟨⟨d0, hd0, hu0, hh0⟩, hall⟩
  | none =>
    constructor
    · refine ⟨_, List.mem_map.2 ⟨d0, hd0, rfl⟩, ?_⟩
      split_ifs <;> exact ⟨hu0, hh0⟩
    · intro d' hd' hu' hh'
      obtain ⟨d, hd, rfl⟩ := List.mem_map.1 hd'
      split_ifs at hu' hh' ⊢
      · simp
      · exact hall d hd hu' hh'

/-- A revocation of all sessions of a user keeps a consumed session consumed. -/
theorem Consumed_RevokeAllForUser (db : DB) (fault : Option String) (now : Int)
    (userID u h : String) (hc : Consumed db.user_devices u h) :
    Consumed (RevokeAllForUser db fault now userID).2.user_devices u h := by
  obtain ⟨⟨d0, hd0, hu0, hh0⟩, hall⟩ := hc
  unfold RevokeAllForUser
  cases fault with
  | some msg => exact ⟨⟨d0, hd0, hu0, hh0⟩, hall⟩
  | none =>
    constructor
    · refine ⟨_, List.mem_map.2 ⟨d0, hd0, rfl⟩, ?_⟩
      split_ifs <;> exact ⟨hu0, hh0⟩
    · intro d' hd' hu' hh'
      obtain ⟨d, hd, rfl⟩ := List.mem_map.1 hd'
      split_ifs at hu' hh' ⊢
      · simp
      · exact hall d hd hu' hh'

/-- Consumption is permanent: no sequence of store statements undoes it. -/
theorem Consumed_Reachable (db db' : DB) (u h : String) (hr : Reachable db db')
    (hc : Consumed db.user_devices u h) : Consumed db'.user_devices u h := by
  induction hr with
  | refl => exact hc
  | tail _ hstep ih =>
    cases hstep with
    | upsert fault newID now dev => exact Consumed_UpsertDevice _ fault newID now dev u h ih
    | revokeByID fault now id => exact Consumed_RevokeByID _ fault now id u h ih
    | revokeAll fault now userID => exact Consumed_RevokeAllForUser _ fault now userID u h ih
    | users us => exact ih

/-- Every store statement keeps the unique `(user, hash)` index. -/
theorem UniqueUserHash_StoreStep (db db' : DB) (hs : StoreStep db db')
    (hU : UniqueUserHash db.user_devices) : UniqueUserHash db'.user_devices := by
  cases hs with
  | upsert fault newID now dev =>
    unfold UpsertDevice
    generalize fillDefaults newID now dev = dev'
    cases fault with
    | some msg => exact hU
    | none =>
      simp only []
      split_ifs with hany
      · refine List.Pairwise.map _ ?_ hU
        intro a b hab
        split_ifs <;> exact hab
      · unfold UniqueUserHash
        rw [List.pairwise_append]
        refine ⟨hU, List.pairwise_singleton _ _, ?_⟩
        intro a ha b hb hab
        have hb' := List.mem_singleton.1 hb
        subst hb'
        apply hany
        simp only [List.any_eq_true, decide_eq_true_eq]
        exact ⟨a, ha, hab.1, hab.2⟩
  | revokeByID fault now id =>
    unfold RevokeByID
    cases fault with
    | some msg => exact hU
    | none =>
      refine List.Pairwise.map _ ?_ hU
      intro a b hab
      split_ifs <;> exact hab
  | revokeAll fault now userID =>
    unfold RevokeAllForUser
    cases fault with
    | some msg => exact hU
    | none =>
      refine List.Pairwise.map _ ?_ hU
      intro a b hab
      split_ifs <;> exact hab
  | users us => exact hU

/-- The unique index holds on every database reached from one on which it holds,
in particular from the empty table. -/
theorem UniqueUserHash_Reachable (db db' : DB) (hr : Reachable db db')
    (hU : UniqueUserHash db.user_devices) : UniqueUserHash db'.user_devices := by
  induction hr with
  | refl => exact hU
  | tail _ hstep ih => exact UniqueUserHash_StoreStep _ _ hstep ih

/-- After all sessions of a user are revoked, no session of that user is found. -/
theorem FindActive_after_RevokeAllForUser (db : DB) (now : Int) (u h : String) :
    FindActiveByUserAndHash (RevokeAllForUser db none now u).2 none u h = (none, none) := by
  rw [FindActive_none_iff]
  simp only [RevokeAllForUser, List.mem_map]
  rintro d' ⟨d, hd, rfl⟩ hu' hh'
  by_cases hcond : d.UserID = u ∧ d.RevokedAt = none
  · simp [hcond]
  · simp only [hcond, if_false] at hu' ⊢
    intro hnone
    exact hcond ⟨hu', hnone⟩

/-! ## `RefreshToken`: what a success did -/

/-- With a device repository, a `RefreshToken` that returned no error validated
the token as a refresh token, found its active session, found the user, issued
the pair it returned, and left the database as the revocation of that session
followed by the upsert of the rotated record left it (each executed or failed as
the environment says). -/
theorem RefreshToken_ok_inv (L : Libs) (s : AuthService) (env : Env) (db db1 : DB)
    (r a' r' : String) (hrepo : s.hasDeviceRepo = true)
    (h : RefreshToken L s env db r = ((a', r', none), db1)) :
    ∃ c cur user, ValidateToken L s.tokenManager env.now r = .ok c ∧
      c.Typ = TokenTypeRefresh ∧
      FindActiveByUserAndHash db env.findFault c.Subject (hashRefreshToken L r) =
        (some cur, none) ∧
      FindByID db env.userFault c.Subject = (some user, none) ∧
      GenerateTokens L s.tokenManager env.issueTime env.accessID env.refreshID c.Subject =
        (a', r', none) ∧
      db1 = (UpsertDevice (RevokeByID db env.revokeFault env.revokeTime cur.ID).2
        env.upsertFault env.deviceID env.createTime
        (rotatedDevice L user (some cur) r' env.loginTime)).2 := by
  unfold RefreshToken at h
  cases hv : ValidateToken L s.tokenManager env.now r with
  | error e => rw [hv] at h; simp at h
  | ok c =>
    rw [hv] at h
    simp only [] at h
    by_cases hT : c.Typ = TokenTypeRefresh
    · simp only [hT, ne_eq, not_true_eq_false, if_false, hrepo, if_true] at h
      rcases hf : FindActiveByUserAndHash db env.findFault c.Subject (hashRefreshToken L r)
        with ⟨dev, derr⟩
      rw [hf] at h
      cases derr with
      | some e => simp at h
      | none =>
        cases dev with
        | none => simp [ErrInvalidToken] at h
        | some cur =>
          simp only [] at h
          rcases hu : FindByID db env.userFault c.Subject with ⟨usr, uerr⟩
          rw [hu] at h
          cases uerr with
          | some e => simp at h
          | none =>
            cases usr with
            | none => simp at h
            | some user =>
              simp only [] at h
              rcases hg : GenerateTokens L s.tokenManager env.issueTime env.accessID
                env.refreshID c.Subject with ⟨na, nr, gerr⟩
              rw [hg] at h
              cases gerr with
              | some e => simp at h
              | none =>
                simp only [Prod.mk.injEq, and_true] at h
                obtain ⟨⟨h1, h2⟩, h3⟩ := h
                subst h1 h2
                exact ⟨c, cur, user, rfl, hT, hf, hu, hg, h3.symm⟩
    · simp [hT] at h

/-- A lookup whose round trip fails reports the driver error and no row. -/
theorem FindActive_fault (db : DB) (msg u h : String) :
    FindActiveByUserAndHash db (some msg) u h = (none, some (.Driver msg)) := rfl

/-- With a device repository, when the credential is of type refresh and no
active session exists for it, `RefreshToken` returns two empty strings and an
error and leaves the database as it was; the error is `ErrInvalidToken` when the
lookup's round trip executes, and `ErrInvalidToken` or the driver error when it
fails. -/
theorem RefreshToken_no_session (L : Libs) (s : AuthService) (env : Env) (db : DB)
    (r : String) (hrepo : s.hasDeviceRepo = true)
    (hT : ∀ c, ValidateToken L s.tokenManager env.now r = .ok c → c.Typ = TokenTypeRefresh)
    (hnone : ∀ c, ValidateToken L s.tokenManager env.now r = .ok c →
      FindActiveByUserAndHash db none c.Subject (hashRefreshToken L r) = (none, none)) :
    ∃ e, RefreshToken L s env db r = (("", "", some e), db) ∧
      (env.findFault = none → e = ErrInvalidToken) ∧
      (∀ msg, env.findFault = some msg → e = ErrInvalidToken ∨ e = .Driver msg) := by
  unfold RefreshToken
  cases hv : ValidateToken L s.tokenManager env.now r with
  | error e =>
    have he : e = ErrInvalidToken := by
      rcases ValidateToken_ok_or_invalid L s.tokenManager env.now r with ⟨c, hc⟩ | h
      · rw [hc] at hv; cases hv
      · rw [h] at hv; cases hv; rfl
    exact ⟨e, rfl, fun _ => he, fun _ _ => Or.inl he⟩
  | ok c =>
    simp only []
    have hT' := hT c hv
    simp only [hT', ne_eq, not_true_eq_false, if_false, hrepo, if_true]
    cases hfault : env.findFault with
    | some msg =>
      rw [FindActive_fault]
      refine ⟨.Driver msg, rfl, fun h => (by cases h), fun m hm => ?_⟩
      cases hm
      exact Or.inr rfl
    | none =>
      rw [hnone c hv]
      exact ⟨ErrInvalidToken, rfl, fun _ => rfl, fun _ h => (by cases h)⟩

/-- The one-row session table of `db0` satisfies the unique index. -/
theorem db0_unique : UniqueUserHash db0.user_devices := by
  unfold UniqueUserHash db0
  exact List.pairwise_singleton _ _

/-! ## C6: single use -/

/-- C6, as amended. With a device repository and the unique `(user, hash)` index
in place, if `RefreshToken r` returns a pair and no error and the store executed
its revocation of the prior session, then on every database reached afterwards
by store statements a second `RefreshToken r`, in any environment, returns two
empty strings and an error and changes nothing: the error is `ErrInvalidToken`
when the lookup's round trip executes, and `ErrInvalidToken` or the driver's
error when it fails. -/
theorem C6_refresh_single_use (L : Libs) (s : AuthService) (env1 : Env) (db db1 : DB)
    (r a' r' : String) (hrepo : s.hasDeviceRepo = true)
    (hU : UniqueUserHash db.user_devices)
    (h1 : RefreshToken L s env1 db r = ((a', r', none), db1))
    (hrev : env1.revokeFault = none)
    (db2 : DB) (hreach : Reachable db1 db2) (env2 : Env) :
    ∃ e, RefreshToken L s env2 db2 r = (("", "", some e), db2) ∧
      (env2.findFault = none → e = ErrInvalidToken) ∧
      (∀ msg, env2.findFault = some msg → e = ErrInvalidToken ∨ e = .Driver msg) := by
  obtain ⟨c, cur, user, hv, hT, hf, _, _, hdb⟩ := RefreshToken_ok_inv L s env1 db db1 r a' r' hrepo h1
  have hfn : env1.findFault = none := (FindActive_some _ _ _ _ _ hf).1
  rw [hfn] at hf
  rw [hrev] at hdb
  have hcons : Consumed db2.user_devices c.Subject (hashRefreshToken L r) := by
    apply Consumed_Reachable db1 db2 _ _ hreach
    rw [hdb]
    exact Consumed_UpsertDevice _ _ _ _ _ _ _ (Consumed_after_RevokeByID db _ _ _ cur hU hf)
  apply RefreshToken_no_session L s env2 db2 r hrepo
  · intro c' hc'
    rw [← ValidateToken_claims_unique L _ _ _ r c c' hv hc']
    exact hT
  · intro c' hc'
    rw [← ValidateToken_claims_unique L _ _ _ r c c' hv hc']
    exact FindActive_of_Consumed db2 _ _ hcons

set_option maxRecDepth 100000 in
/-- C6 at concrete inputs: `refreshTok0` rotated in `env0`, then presented again. -/
theorem C6_refresh_single_use_witness :
    ∃ e, RefreshToken Ref.libs svcTwo env0 dbRotated refreshTok0 = (("", "", some e), dbRotated) ∧
      (env0.findFault = none → e = ErrInvalidToken) ∧
      (∀ msg, env0.findFault = some msg → e = ErrInvalidToken ∨ e = .Driver msg) :=
  C6_refresh_single_use Ref.libs svcTwo env0 db0 dbRotated refreshTok0
    (RefreshToken Ref.libs svcTwo env0 db0 refreshTok0).1.1
    (RefreshToken Ref.libs svcTwo env0 db0 refreshTok0).1.2.1
    rfl db0_unique (by decide) rfl dbRotated Relation.ReflTransGen.refl env0

set_option maxRecDepth 100000 in
/-- C6 as stated fails. On the well-formed database `db0`, with a device
repository: (1) a `RefreshToken` whose revocation round trip fails still returns
a pair and no error, and a second `RefreshToken` of the same credential then
also returns a pair and no error; (2) after a clean rotation, a second call whose
lookup round trip fails returns the driver's error, not `ErrInvalidToken`; (3)
without a device repository both calls return a pair and no error. -/
theorem C6_counterexample :
    (svcTwo.hasDeviceRepo = true ∧
      (RefreshToken Ref.libs svcTwo envRevokeFails db0 refreshTok0).1.2.2 = none ∧
      (RefreshToken Ref.libs svcTwo envRevokeFails db0 refreshTok0).1.2.1 ≠ "" ∧
      (RefreshToken Ref.libs svcTwo env0 dbRevokeFailed refreshTok0).1.2.2 = none ∧
      (RefreshToken Ref.libs svcTwo env0 dbRevokeFailed refreshTok0).1.2.1 ≠ "") ∧
    ((RefreshToken Ref.libs svcTwo env0 db0 refreshTok0).1.2.2 = none ∧
      (RefreshToken Ref.libs svcTwo envFindFails dbRotated refreshTok0).1 =
        ("", "", some (.Driver "driver: bad connection")) ∧
      Error.Driver "driver: bad connection" ≠ ErrInvalidToken) ∧
    (svcNoRepo.hasDeviceRepo = false ∧
      (RefreshToken Ref.libs svcNoRepo env0 db0 refreshTok0).1.2.2 = none ∧
      (RefreshToken Ref.libs svcNoRepo env0
        (RefreshToken Ref.libs svcNoRepo env0 db0 refreshTok0).2 refreshTok0).1.2.2 = none) := by
  refine ⟨⟨rfl, ?_, ?_, ?_, ?_⟩, ⟨?_, ?_, ?_⟩, rfl, ?_, ?_⟩ <;> decide

/-! ## C7 and C8: revocation, then refresh -/

/-- A `RevokeByRefreshToken` that returned `nil` had a device repository,
validated the token as a refresh token, found its active session and had the
store execute the revocation of that session. -/
theorem RevokeByRefreshToken_ok_inv (L : Libs) (s : AuthService) (env : Env) (db db1 : DB)
    (r : String) (h : RevokeByRefreshToken L s env db r = (none, db1)) :
    s.hasDeviceRepo = true ∧
    ∃ c dev, ValidateToken L s.tokenManager env.now r = .ok c ∧ c.Typ = TokenTypeRefresh ∧
      FindActiveByUserAndHash db none c.Subject (hashRefreshToken L r) = (some dev, none) ∧
      db1 = (RevokeByID db none env.revokeTime dev.ID).2 := by
  unfold RevokeByRefreshToken at h
  cases hrepo : s.hasDeviceRepo with
  | false => rw [hrepo] at h; simp at h
  | true =>
    rw [hrepo] at h
    simp only [Bool.not_true, Bool.false_eq_true, if_false] at h
    cases hv : ValidateToken L s.tokenManager env.now r with
    | error e => rw [hv] at h; simp at h
    | ok c =>
      rw [hv] at h
      simp only [] at h
      by_cases hT : c.Typ = TokenTypeRefresh
      · simp only [hT, ne_eq, not_true_eq_false, if_false] at h
        rcases hf : FindActiveByUserAndHash db env.findFault c.Subject (hashRefreshToken L r)
          with ⟨dev, derr⟩
        rw [hf] at h
        cases derr with
        | some e => simp at h
        | none =>
          cases dev with
          | none => simp at h
          | some cur =>
            simp only [] at h
            have hfn : env.findFault = none := (FindActive_some _ _ _ _ _ hf).1
            rw [hfn] at hf
            cases hrf : env.revokeFault with
            | some msg => rw [hrf] at h; simp [RevokeByID] at h
            | none =>
              rw [hrf] at h
              refine ⟨rfl, c, cur, rfl, hT, hf, ?_⟩
              rw [h]
      · simp [hT] at h

/-- A `RevokeAllForAccessToken` that returned `nil` had a device repository,
validated the token as an access token and had the store execute the revocation
of every session of the token's subject. -/
theorem RevokeAllForAccessToken_ok_inv (L : Libs) (s : AuthService) (env : Env) (db db1 : DB)
    (a : String) (h : RevokeAllForAccessToken L s env db a = (none, db1)) :
    s.hasDeviceRepo = true ∧
    ∃ c, ValidateToken L s.tokenManager env.now a = .ok c ∧ c.Typ = TokenTypeAccess ∧
      db1 = (RevokeAllForUser db none env.revokeTime c.Subject).2 := by
  unfold RevokeAllForAccessToken at h
  cases hrepo : s.hasDeviceRepo with
  | false => rw [hrepo] at h; simp at h
  | true =>
    rw [hrepo] at h
    simp only [Bool.not_true, Bool.false_eq_true, if_false] at h
    cases hv : ValidateToken L s.tokenManager env.now a with
    | error e => rw [hv] at h; simp at h
    | ok c =>
      rw [hv] at h
      simp only [] at h
      by_cases hT : c.Typ = TokenTypeAccess
      · simp only [hT, ne_eq, not_true_eq_false, if_false] at h
        cases hrf : env.revokeFault with
        | some msg => rw [hrf] at h; simp [RevokeAllForUser] at h
        | none =>
          rw [hrf] at h
          refine ⟨rfl, c, rfl, hT, ?_⟩
          rw [h]
      · simp [hT] at h

/-- The revocation of all sessions of a user consumes every session of that
user that the table holds. -/
theorem Consumed_after_RevokeAllForUser (db : DB) (now : Int) (u h : String)
    (hrow : ∃ d ∈ db.user_devices, d.UserID = u ∧ d.RefreshTokenHash = h) :
    Consumed (RevokeAllForUser db none now u).2.user_devices u h := by
  obtain ⟨d0, hd0, hu0, hh0⟩ := hrow
  constructor
  · simp only [RevokeAllForUser, List.mem_map]
    refine ⟨_, ⟨d0, hd0, rfl⟩, ?_⟩
    split_ifs <;> exact ⟨hu0, hh0⟩
  · exact (FindActive_none_iff _ u h).1 (FindActive_after_RevokeAllForUser db now u h)

/-- C7, as amended. After `RevokeAllForAccessToken` returns `nil` for an access
credential (which then is a valid access credential, of a user `u`), with lawful
primitives, for every refresh credential `r` that `GenerateTokens` issued to
`u`: (1) on the database the revocation left, `RefreshToken r` fails; (2) when
the session of `r` was recorded in the table when the revocation ran,
`RefreshToken r` fails on every database reached afterwards by store
statements; (3) whether or not it was recorded, `RefreshToken r` fails on every
database that holds no active session for it. Each failure, in any environment,
returns two empty strings and an error and changes nothing: the error is
`ErrInvalidToken` when the lookup's round trip executes, and `ErrInvalidToken`
or the driver's error when it fails. -/
theorem C7_revoke_all_then_refresh (L : Libs) (hL : L.Lawful) (s : AuthService) (env1 : Env)
    (db db1 : DB) (a : String)
    (h1 : RevokeAllForAccessToken L s env1 db a = (none, db1)) :
    ∃ c, ValidateToken L s.tokenManager env1.now a = .ok c ∧ c.Typ = TokenTypeAccess ∧
      ∀ (t : Int) (ja jr a0 r : String),
        GenerateTokens L s.tokenManager t ja jr c.Subject = (a0, r, none) →
        (∀ env2 : Env, ∃ e, RefreshToken L s env2 db1 r = (("", "", some e), db1) ∧
          (env2.findFault = none → e = ErrInvalidToken) ∧
          (∀ msg, env2.findFault = some msg → e = ErrInvalidToken ∨ e = .Driver msg)) ∧
        ((∃ d ∈ db.user_devices, d.UserID = c.Subject ∧
            d.RefreshTokenHash = hashRefreshToken L r) →
          ∀ db2, Reachable db1 db2 →
          ∀ env2 : Env, ∃ e, RefreshToken L s env2 db2 r = (("", "", some e), db2) ∧
            (env2.findFault = none → e = ErrInvalidToken) ∧
            (∀ msg, env2.findFault = some msg → e = ErrInvalidToken ∨ e = .Driver msg)) ∧
        (∀ db2 : DB,
          (∀ d ∈ db2.user_devices, d.UserID = c.Subject →
            d.RefreshTokenHash = hashRefreshToken L r → d.RevokedAt ≠ none) →
          ∀ env2 : Env, ∃ e, RefreshToken L s env2 db2 r = (("", "", some e), db2) ∧
            (env2.findFault = none → e = ErrInvalidToken) ∧
            (∀ msg, env2.findFault = some msg → e = ErrInvalidToken ∨ e = .Driver msg)) := by
  obtain ⟨hrepo, c, hv, hT, hdb⟩ := RevokeAllForAccessToken_ok_inv L s env1 db db1 a h1
  refine ⟨c, hv, hT, ?_⟩
  intro t ja jr a0 r hg
  obtain ⟨_, hr⟩ := GenerateTokens_inv L s.tokenManager t ja jr c.Subject a0 r hg
  have hcl : ∀ (now : Int) c', ValidateToken L s.tokenManager now r = .ok c' →
      c' = refreshClaims s.tokenManager t jr c.Subject :=
    fun now c' hc' =>
      ValidateToken_generated_claims L hL _ _ (refreshClaims_aligned ..) r hr now c' hc'
  have hfail : ∀ db2 : DB,
      FindActiveByUserAndHash db2 none c.Subject (hashRefreshToken L r) = (none, none) →
      ∀ env2 : Env, ∃ e, RefreshToken L s env2 db2 r = (("", "", some e), db2) ∧
        (env2.findFault = none → e = ErrInvalidToken) ∧
        (∀ msg, env2.findFault = some msg → e = ErrInvalidToken ∨ e = .Driver msg) := by
    intro db2 hnone env2
    apply RefreshToken_no_session L s env2 db2 r hrepo
    · intro c' hc'
      rw [hcl _ c' hc']
      rfl
    · intro c' hc'
      rw [hcl _ c' hc']
      exact hnone
  refine ⟨?_, ?_, ?_⟩
  · apply hfail
    rw [hdb]
    exact FindActive_after_RevokeAllForUser db _ _ _
  · intro hrow db2 hreach
    apply hfail
    apply FindActive_of_Consumed
    apply Consumed_Reachable db1 db2 _ _ hreach
    rw [hdb]
    exact Consumed_after_RevokeAllForUser db _ _ _ hrow
  · intro db2 hnone
    exact hfail db2 ((FindActive_none_iff db2 _ _).2 hnone)

set_option maxRecDepth 100000 in
/-- C7 at concrete inputs: all sessions of `u1` revoked with `accessTok0`, then
`refreshTok0`, whose session `d1` was recorded, presented on the database that
a later upsert has made of the one the revocation left. -/
theorem C7_revoke_all_then_refresh_witness :
    RevokeAllForAccessToken Ref.libs svcTwo env0 db0 accessTok0 = (none, dbRevokedAll) ∧
    GenerateTokens Ref.libs svcTwo.tokenManager 0 "ja" "jr" "u1" =
      (accessTok0, refreshTok0, none) ∧
    Reachable dbRevokedAll dbLate ∧
    ∃ e, RefreshToken Ref.libs svcTwo env0 dbLate refreshTok0 = (("", "", some e), dbLate) ∧
      (env0.findFault = none → e = ErrInvalidToken) ∧
      (∀ msg, env0.findFault = some msg → e = ErrInvalidToken ∨ e = .Driver msg) := by
  have hreach : Reachable dbRevokedAll dbLate :=
    Relation.ReflTransGen.single (StoreStep.upsert dbRevokedAll none "dL" (1 * Second)
      (loginDevice Ref.libs user1 refreshTokLate 0))
  obtain ⟨c, hv, _, h⟩ :=
    C7_revoke_all_then_refresh Ref.libs Ref.libs_lawful svcTwo env0 db0 dbRevokedAll accessTok0
      (by decide)
  have hc : c = accessClaims tmTwo 0 "ja" "u1" := by
    have hv0 : ValidateToken Ref.libs svcTwo.tokenManager env0.now accessTok0 =
        .ok (accessClaims tmTwo 0 "ja" "u1") := by rfl
    rw [hv0] at hv
    exact (Except.ok.inj hv).symm
  subst hc
  exact ⟨by decide, rfl, hreach,
    (h 0 "ja" "jr" accessTok0 refreshTok0 rfl).2.1 ⟨dev1, by decide, rfl, rfl⟩ dbLate hreach env0⟩

set_option maxRecDepth 100000 in
/-- C7 as stated fails. (1) After `RevokeAllForAccessToken` returned `nil` for the
access credential of `u1`, a `RefreshToken` of the refresh credential issued to
`u1` whose lookup round trip fails returns the driver's error, which is not
`ErrInvalidToken`. (2) A second login of `u1` has its pair issued at clock 0
(step 4 of `VerifyOTP`); `RevokeAllForAccessToken` then returns `nil`; the
upsert of the login's session (step 5) runs afterwards; `RefreshToken` with the
login's refresh credential then returns a new pair and no error. -/
theorem C7_counterexample :
    ((RevokeAllForAccessToken Ref.libs svcTwo env0 db0 accessTok0).1 = none ∧
      GenerateTokens Ref.libs tmTwo 0 "ja" "jr" "u1" = (accessTok0, refreshTok0, none) ∧
      (RefreshToken Ref.libs svcTwo envFindFails dbRevokedAll refreshTok0).1 =
        ("", "", some (.Driver "driver: bad connection")) ∧
      Error.Driver "driver: bad connection" ≠ ErrInvalidToken) ∧
    ((GenerateTokens Ref.libs tmTwo 0 "jaL" "jrL" "u1").2 = (refreshTokLate, none) ∧
      RevokeAllForAccessToken Ref.libs svcTwo env0 db0 accessTok0 = (none, dbRevokedAll) ∧
      UpsertDevice dbRevokedAll none "dL" (1 * Second)
        (loginDevice Ref.libs user1 refreshTokLate 0) = (none, dbLate) ∧
      (RefreshToken Ref.libs svcTwo env0 dbLate refreshTokLate).1.2.2 = none ∧
      (RefreshToken Ref.libs svcTwo env0 dbLate refreshTokLate).1.1 ≠ "" ∧
      (RefreshToken Ref.libs svcTwo env0 dbLate refreshTokLate).1.2.1 ≠ "") := by
  refine ⟨⟨?_, rfl, ?_, ?_⟩, rfl, ?_, ?_, ?_, ?_, ?_⟩ <;> decide

/-- C8, as amended. Under the unique `(user, hash)` index, after
`RevokeByRefreshToken r` returns `nil` (so `r` had an active session and the
store executed its revocation), on every database reached afterwards by store
statements `RefreshToken r`, in any environment, returns two empty strings and
an error and changes nothing: the error is `ErrInvalidToken` when the lookup's
round trip executes, and `ErrInvalidToken` or the driver's error when it fails. -/
theorem C8_revoke_then_refresh (L : Libs) (s : AuthService) (env1 : Env) (db db1 : DB)
    (r : String) (hU : UniqueUserHash db.user_devices)
    (h1 : RevokeByRefreshToken L s env1 db r = (none, db1))
    (db2 : DB) (hreach : Reachable db1 db2) (env2 : Env) :
    ∃ e, RefreshToken L s env2 db2 r = (("", "", some e), db2) ∧
      (env2.findFault = none → e = ErrInvalidToken) ∧
      (∀ msg, env2.findFault = some msg → e = ErrInvalidToken ∨ e = .Driver msg) := by
  obtain ⟨hrepo, c, dev, hv, hT, hf, hdb⟩ := RevokeByRefreshToken_ok_inv L s env1 db db1 r h1
  have hcons : Consumed db2.user_devices c.Subject (hashRefreshToken L r) := by
    apply Consumed_Reachable db1 db2 _ _ hreach
    rw [hdb]
    exact Consumed_after_RevokeByID db _ _ _ dev hU hf
  apply RefreshToken_no_session L s env2 db2 r hrepo
  · intro c' hc'
    rw [← ValidateToken_claims_unique L _ _ _ r c c' hv hc']
    exact hT
  · intro c' hc'
    rw [← ValidateToken_claims_unique L _ _ _ r c c' hv hc']
    exact FindActive_of_Consumed db2 _ _ hcons

set_option maxRecDepth 100000 in
/-- C8 at concrete inputs: the session of `refreshTok0` revoked in `env0`, then
`refreshTok0` presented. -/
theorem C8_revoke_then_refresh_witness :
    ∃ e, RefreshToken Ref.libs svcTwo env0 dbRevoked refreshTok0 = (("", "", some e), dbRevoked) ∧
      (env0.findFault = none → e = ErrInvalidToken) ∧
      (∀ msg, env0.findFault = some msg → e = ErrInvalidToken ∨ e = .Driver msg) :=
  C8_revoke_then_refresh Ref.libs svcTwo env0 db0 dbRevoked refreshTok0 db0_unique (by decide)
    dbRevoked Relation.ReflTransGen.refl env0

set_option maxRecDepth 100000 in
/-- C8 as stated fails: after `RevokeByRefreshToken` returned `nil` for a refresh
credential with an active session, a `RefreshToken` of that credential whose
lookup round trip fails returns the driver's error, which is not
`ErrInvalidToken`. -/
theorem C8_counterexample :
    (RevokeByRefreshToken Ref.libs svcTwo env0 db0 refreshTok0).1 = none ∧
    (RefreshToken Ref.libs svcTwo envFindFails dbRevoked refreshTok0).1 =
      ("", "", some (.Driver "driver: bad connection")) ∧
    Error.Driver "driver: bad connection" ≠ ErrInvalidToken := by
  refine ⟨?_, ?_, ?_⟩ <;> decide

/-! ## C9: `ValidateAccessToken` -/

/-- C9. `ValidateAccessToken t` returns `(true, u)` exactly when `ValidateToken t`
succeeds with `Type = access` and `Subject = u`, and `(false, "")` on every other
input: a malformed string, an expiry not after the clock, a signature that does
not verify under the manager's key, claims of another type. Its result is a
pair of a boolean and a string (no error) computed from the token and the clock
alone, so the access credential issued to `u` is reported `(true, u)` until its
expiry also on the database that `RevokeAllForAccessToken` leaves. -/
theorem C9_ValidateAccessToken (L : Libs) (s : AuthService) :
    (∀ t tok u, ValidateAccessToken L s t tok = (true, u) ↔
      ∃ c, ValidateToken L s.tokenManager t tok = .ok c ∧ c.Typ = TokenTypeAccess ∧
        c.Subject = u) ∧
    (∀ t tok, (¬ ∃ c, ValidateToken L s.tokenManager t tok = .ok c ∧ c.Typ = TokenTypeAccess) →
      ValidateAccessToken L s t tok = (false, "")) ∧
    (∀ t tok, L.decode tok = none → ValidateAccessToken L s t tok = (false, "")) ∧
    (∀ t tok raw exp, L.decode tok = some raw → raw.claims.ExpiresAt = some exp → exp ≤ t →
      ValidateAccessToken L s t tok = (false, "")) ∧
    (∀ t tok raw, L.decode tok = some raw →
      (∀ m, L.verify m raw.signingString raw.signature s.tokenManager.secretKey = false) →
      ValidateAccessToken L s t tok = (false, "")) ∧
    (∀ t tok c, ValidateToken L s.tokenManager t tok = .ok c → c.Typ ≠ TokenTypeAccess →
      ValidateAccessToken L s t tok = (false, "")) ∧
    (L.Lawful → ∀ (now t : Int) (ja jr u a r : String) (env : Env) (db db' : DB),
      GenerateTokens L s.tokenManager now ja jr u = (a, r, none) →
      t < jwtlib.NewNumericDate (now + s.tokenManager.accessTokenDuration) →
      RevokeAllForAccessToken L s env db a = (none, db') →
      ValidateAccessToken L s t a = (true, u)) := by
  have hfail : ∀ t tok, ValidateToken L s.tokenManager t tok = .error ErrInvalidToken →
      ValidateAccessToken L s t tok = (false, "") := by
    intro t tok h
    rw [ValidateAccessToken_eq, h]
  have h3 := fun t tok => ValidateToken_rejects L s.tokenManager t tok
  refine ⟨?_, ?_, ?_, ?_, ?_, ?_, ?_⟩
  · intro t tok u
    rw [ValidateAccessToken_eq]
    constructor
    · intro h
      cases hv : ValidateToken L s.tokenManager t tok with
      | error e => rw [hv] at h; simp at h
      | ok c =>
        rw [hv] at h
        by_cases hT : c.Typ = TokenTypeAccess
        · simp only [hT, if_true, Prod.mk.injEq, true_and] at h
          exact ⟨c, rfl, hT, h⟩
        · simp [hT] at h
    · rintro ⟨c, hv, hT, rfl⟩
      rw [hv]
      simp [hT]
  · intro t tok h
    rw [ValidateAccessToken_eq]
    cases hv : ValidateToken L s.tokenManager t tok with
    | error e => rfl
    | ok c =>
      by_cases hT : c.Typ = TokenTypeAccess
      · exact absurd ⟨c, hv, hT⟩ h
      · simp [hT]
  · intro t tok hd
    exact hfail t tok ((h3 t tok).1 hd)
  · intro t tok raw exp hd hexp hle
    exact hfail t tok ((h3 t tok).2.2 raw exp hd hexp hle)
  · intro t tok raw hd hv
    exact hfail t tok ((h3 t tok).2.1 raw hd hv)
  · intro t tok c hv hT
    rw [ValidateAccessToken_eq, hv]
    simp [hT]
  · intro hL now t ja jr u a r env db db' hg ht _
    obtain ⟨ha, _⟩ := GenerateTokens_inv L s.tokenManager now ja jr u a r hg
    rw [ValidateAccessToken_eq,
      ValidateToken_generated L hL _ _ (accessClaims_aligned ..) a ha t,
      if_pos ((Validate_accessClaims ..).2 ht)]
    rfl

set_option maxRecDepth 100000 in
/-- C9 at concrete inputs: `accessTok0` is reported valid for `u1` at clock 1 s
after all sessions of `u1` were revoked. -/
theorem C9_ValidateAccessToken_witness :
    (RevokeAllForAccessToken Ref.libs svcTwo env0 db0 accessTok0).1 = none ∧
    ValidateAccessToken Ref.libs svcTwo Second accessTok0 = (true, "u1") :=
  ⟨by decide,
    (C9_ValidateAccessToken Ref.libs svcTwo).2.2.2.2.2.2 Ref.libs_lawful 0 Second "ja" "jr" "u1"
      accessTok0 refreshTok0 env0 db0 dbRevokedAll rfl (by decide) (by decide)⟩

/-! ## C10: uniform denial of `RevokeByRefreshToken` -/

/-- C10, as amended. With a device repository, `RevokeByRefreshToken` returns the
one value `ErrInvalidToken` and leaves the database as it was in each denial
case: the token does not validate (malformed, expired, or for any other
reason), it validates to claims whose type is not `refresh`, or it is a valid
refresh credential for which the lookup executes and reports no active session;
so any two denied calls return the same error and revoke no session. -/
theorem C10_revoke_uniform_denial (L : Libs) (s : AuthService)
    (hrepo : s.hasDeviceRepo = true) (env : Env) (db : DB) (tok : String) :
    ((∀ c, ValidateToken L s.tokenManager env.now tok ≠ .ok c) →
      RevokeByRefreshToken L s env db tok = (some ErrInvalidToken, db)) ∧
    (L.decode tok = none → RevokeByRefreshToken L s env db tok = (some ErrInvalidToken, db)) ∧
    (∀ raw exp, L.decode tok = some raw → raw.claims.ExpiresAt = some exp → exp ≤ env.now →
      RevokeByRefreshToken L s env db tok = (some ErrInvalidToken, db)) ∧
    (∀ c, ValidateToken L s.tokenManager env.now tok = .ok c → c.Typ ≠ TokenTypeRefresh →
      RevokeByRefreshToken L s env db tok = (some ErrInvalidToken, db)) ∧
    (∀ c, ValidateToken L s.tokenManager env.now tok = .ok c → c.Typ = TokenTypeRefresh →
      FindActiveByUserAndHash db env.findFault c.Subject (hashRefreshToken L tok) = (none, none) →
      RevokeByRefreshToken L s env db tok = (some ErrInvalidToken, db)) := by
  have hfail : ∀ e, ValidateToken L s.tokenManager env.now tok = .error e →
      RevokeByRefreshToken L s env db tok = (some ErrInvalidToken, db) := by
    intro e h
    simp [RevokeByRefreshToken, hrepo, h]
  have h3 := ValidateToken_rejects L s.tokenManager env.now tok
  refine ⟨?_, ?_, ?_, ?_, ?_⟩
  · intro h
    cases hv : ValidateToken L s.tokenManager env.now tok with
    | error e => exact hfail e hv
    | ok c => exact absurd hv (h c)
  · intro hd
    exact hfail _ (h3.1 hd)
  · intro raw exp hd hexp hle
    exact hfail _ (h3.2.2 raw exp hd hexp hle)
  · intro c hv hT
    simp [RevokeByRefreshToken, hrepo, hv, hT]
  · intro c hv hT hf
    simp [RevokeByRefreshToken, hrepo, hv, hT, hf]

set_option maxRecDepth 100000 in
/-- C10 at concrete inputs: a malformed string, the access credential, and the
refresh credential after its session was revoked give the same result. -/
theorem C10_revoke_uniform_denial_witness :
    RevokeByRefreshToken Ref.libs svcTwo env0 dbRevoked "garbage" = (some ErrInvalidToken, dbRevoked) ∧
    RevokeByRefreshToken Ref.libs svcTwo env0 dbRevoked accessTok0 =
      (some ErrInvalidToken, dbRevoked) ∧
    RevokeByRefreshToken Ref.libs svcTwo env0 dbRevoked refreshTok0 =
      (some ErrInvalidToken, dbRevoked) :=
  ⟨(C10_revoke_uniform_denial Ref.libs svcTwo rfl env0 dbRevoked "garbage").2.1 (by decide),
    by decide, by decide⟩

set_option maxRecDepth 100000 in
/-- C10 as stated fails. (1) Without a device repository a malformed credential
gets the error `device repository not configured`, not `ErrInvalidToken` (which
the docstring of `RevokeByRefreshToken` announces for an invalid token). (2)
With a device repository, a valid refresh credential that has no active session
gets the driver's error when the lookup's round trip fails. In both cases the
database is left as it was. -/
theorem C10_counterexample :
    (RevokeByRefreshToken Ref.libs svcNoRepo env0 db0 "garbage" =
        (some (.New "device repository not configured"), db0) ∧
      Error.New "device repository not configured" ≠ ErrInvalidToken) ∧
    (FindActiveByUserAndHash dbRevoked none "u1" (hashRefreshToken Ref.libs refreshTok0) =
        (none, none) ∧
      (∃ c, ValidateToken Ref.libs tmTwo 0 refreshTok0 = .ok c ∧ c.Typ = TokenTypeRefresh ∧
        c.Subject = "u1") ∧
      RevokeByRefreshToken Ref.libs svcTwo envFindFails dbRevoked refreshTok0 =
        (some (.Driver "driver: bad connection"), dbRevoked) ∧
      Error.Driver "driver: bad connection" ≠ ErrInvalidToken) := by
  refine ⟨⟨by decide, by decide⟩, by decide, ?_, by decide, by decide⟩
  exact ⟨refreshClaims tmTwo 0 "jr" "u1", by rfl, rfl, rfl⟩

/-! ## `RefreshToken` as reads followed by writes -/

/-- `RefreshToken` is its steps 1 to 5 followed, when they succeed, by its step 6
on the same database. -/
theorem RefreshToken_eq_phases (L : Libs) (s : AuthService) (env : Env) (db : DB)
    (r : String) :
    RefreshToken L s env db r = RefreshTokenInterleaved L s env db db r := by
  unfold RefreshToken RefreshTokenInterleaved RefreshTokenRead RefreshTokenWrite
  cases hv : ValidateToken L s.tokenManager env.now r with
  | error e => rfl
  | ok c =>
    simp only []
    by_cases hT : c.Typ = TokenTypeRefresh
    · simp only [hT, ne_eq, not_true_eq_false, if_false]
      have tail : ∀ cur : Option UserDevice,
          (match FindByID db env.userFault c.Subject with
            | (_, some err) => ((("", "", some err) : String × String × Option Error), db)
            | (none, none) => (("", "", some (.New "user not found for the given token")), db)
            | (some user, none) =>
              match GenerateTokens L s.tokenManager env.issueTime env.accessID env.refreshID
                  c.Subject with
              | (_, _, some err) => (("", "", some err), db)
              | (newAccessToken, newRefreshToken, none) =>
                if s.hasDeviceRepo then
                  ((newAccessToken, newRefreshToken, none),
                    (UpsertDevice
                      (match cur with
                        | some cur => (RevokeByID db env.revokeFault env.revokeTime cur.ID).2
                        | none => db)
                      env.upsertFault env.deviceID env.createTime
                      (rotatedDevice L user cur newRefreshToken env.loginTime)).2)
                else ((newAccessToken, newRefreshToken, none), db)) =
          (match
            (match FindByID db env.userFault c.Subject with
              | (_, some err) => (Except.error err :
                  Except Error (Option UserDevice × User × String × String))
              | (none, none) => .error (.New "user not found for the given token")
              | (some user, none) =>
                match GenerateTokens L s.tokenManager env.issueTime env.accessID env.refreshID
                    c.Subject with
                | (_, _, some err) => .error err
                | (newAccessToken, newRefreshToken, none) =>
                  .ok (cur, user, newAccessToken, newRefreshToken)) with
            | .error e => (("", "", some e), db)
            | .ok (currentDev, user, newAccessToken, newRefreshToken) =>
              ((newAccessToken, newRefreshToken, none),
                if s.hasDeviceRepo then
                  (UpsertDevice
                    (match currentDev with
                      | some cur => (RevokeByID db env.revokeFault env.revokeTime cur.ID).2
                      | none => db)
                    env.upsertFault env.deviceID env.createTime
                    (rotatedDevice L user currentDev newRefreshToken env.loginTime)).2
                else db)) := by
        intro cur
        rcases FindByID db env.userFault c.Subject with ⟨_ | user, _ | uerr⟩
        · rfl
        · rfl
        · simp only []
          rcases GenerateTokens L s.tokenManager env.issueTime env.accessID env.refreshID
            c.Subject with ⟨na, nr, _ | gerr⟩
          · cases s.hasDeviceRepo <;> rfl
          · rfl
        · rfl
      cases hrepo : s.hasDeviceRepo with
      | false =>
        have := tail none
        rw [hrepo] at this
        simpa using this
      | true =>
        simp only [if_true]
        rcases FindActiveByUserAndHash db env.findFault c.Subject (hashRefreshToken L r)
          with ⟨_ | cur, _ | derr⟩
        · rfl
        · rfl
        · have := tail (some cur)
          rw [hrepo] at this
          simpa using this
        · rfl
    · simp [hT]

/-- The errors `GenerateTokens` can return wrap a signing error. -/
theorem GenerateTokens_error (L : Libs) (tm : TokenManager) (now : Int) (ja jr u a b : String)
    (e : Error) (h : GenerateTokens L tm now ja jr u = (a, b, some e)) :
    ∃ w, e = .Errorf "access token imzalanamadı" w ∨ e = .Errorf "refresh token imzalanamadı" w := by
  unfold GenerateTokens at h
  cases ha : generateToken L tm (accessClaims tm now ja u) with
  | error w =>
    rw [ha] at h
    simp only [Prod.mk.injEq, Option.some.injEq] at h
    exact ⟨w, Or.inl h.2.2.symm⟩
  | ok a' =>
    cases hr : generateToken L tm (refreshClaims tm now jr u) with
    | error w =>
      rw [ha, hr] at h
      simp only [Prod.mk.injEq, Option.some.injEq] at h
      exact ⟨w, Or.inr h.2.2.symm⟩
    | ok r' =>
      rw [ha, hr] at h
      simp at h

/-- The seven ways steps 1 to 5 of `RefreshToken` end in an error. -/
theorem RefreshTokenRead_error (L : Libs) (s : AuthService) (env : Env) (db : DB) (r : String)
    (e : Error) (h : RefreshTokenRead L s env db r = .error e) :
    e = ErrInvalidToken ∨
    e = .New "provided token is not a refresh token" ∨
    (∃ msg, env.findFault = some msg ∧ e = .Driver msg) ∨
    (∃ msg, env.userFault = some msg ∧ e = .Driver msg) ∨
    e = .New "user not found for the given token" ∨
    ∃ w, e = .Errorf "access token imzalanamadı" w ∨ e = .Errorf "refresh token imzalanamadı" w := by
  unfold RefreshTokenRead at h
  cases hv : ValidateToken L s.tokenManager env.now r with
  | error e' =>
    rw [hv] at h
    have he : e' = ErrInvalidToken := by
      rcases ValidateToken_ok_or_invalid L s.tokenManager env.now r with ⟨c, hc⟩ | h'
      · rw [hc] at hv; cases hv
      · rw [h'] at hv; cases hv; rfl
    left
    simp only [Except.error.injEq] at h
    rw [← h, he]
  | ok c =>
    rw [hv] at h
    simp only [] at h
    by_cases hT : c.Typ = TokenTypeRefresh
    · simp only [hT, ne_eq, not_true_eq_false, if_false] at h
      have tail : ∀ cur : Option UserDevice,
          (match FindByID db env.userFault c.Subject with
            | (_, some err) => (Except.error err :
                Except Error (Option UserDevice × User × String × String))
            | (none, none) => .error (.New "user not found for the given token")
            | (some user, none) =>
              match GenerateTokens L s.tokenManager env.issueTime env.accessID env.refreshID
                  c.Subject with
              | (_, _, some err) => .error err
              | (newAccessToken, newRefreshToken, none) =>
                .ok (cur, user, newAccessToken, newRefreshToken)) = .error e →
          (∃ msg, env.userFault = some msg ∧ e = .Driver msg) ∨
          e = .New "user not found for the given token" ∨
          ∃ w, e = .Errorf "access token imzalanamadı" w ∨
            e = .Errorf "refresh token imzalanamadı" w := by
        intro cur h
        rcases hu : FindByID db env.userFault c.Subject with ⟨_ | user, _ | uerr⟩
        · rw [hu] at h
          simp only [Except.error.injEq] at h
          exact Or.inr (Or.inl h.symm)
        · rw [hu] at h
          simp only [Except.error.injEq] at h
          left
          unfold FindByID at hu
          cases hf : env.userFault with
          | none => rw [hf] at hu; simp at hu
          | some msg =>
            rw [hf] at hu
            simp only [Prod.mk.injEq, Option.some.injEq, true_and] at hu
            exact ⟨msg, rfl, by rw [← h, ← hu]⟩
        · rw [hu] at h
          simp only [] at h
          rcases hg : GenerateTokens L s.tokenManager env.issueTime env.accessID env.refreshID
            c.Subject with ⟨na, nr, _ | gerr⟩
          · rw [hg] at h; simp at h
          · rw [hg] at h
            simp only [Except.error.injEq] at h
            subst h
            exact Or.inr (Or.inr (GenerateTokens_error _ _ _ _ _ _ _ _ _ hg))
        · rw [hu] at h
          simp only [Except.error.injEq] at h
          left
          unfold FindByID at hu
          cases hf : env.userFault with
          | none => rw [hf] at hu; simp at hu
          | some msg =>
            rw [hf] at hu
            simp only [Prod.mk.injEq, Option.some.injEq, true_and] at hu
            exact ⟨msg, rfl, by rw [← h, ← hu.2]⟩
      cases hrepo : s.hasDeviceRepo with
      | false =>
        rw [hrepo] at h
        simp only [Bool.false_eq_true, if_false] at h
        exact Or.inr (Or.inr (Or.inr (tail none h)))
      | true =>
        rw [hrepo] at h
        simp only [if_true] at h
        rcases hf : FindActiveByUserAndHash db env.findFault c.Subject (hashRefreshToken L r)
          with ⟨_ | cur, _ | derr⟩
        · rw [hf] at h
          simp only [Except.error.injEq] at h
          exact Or.inl h.symm
        · rw [hf] at h
          simp only [Except.error.injEq] at h
          right; right; left
          unfold FindActiveByUserAndHash at hf
          cases hff : env.findFault with
          | none => rw [hff] at hf; simp at hf
          | some msg =>
            rw [hff] at hf
            simp only [Prod.mk.injEq, Option.some.injEq, true_and] at hf
            exact ⟨msg, rfl, by rw [← h, ← hf]⟩
        · rw [hf] at h
          exact Or.inr (Or.inr (Or.inr (tail (some cur) h)))
        · rw [hf] at h
          simp only [Except.error.injEq] at h
          right; right; left
          unfold FindActiveByUserAndHash at hf
          cases hff : env.findFault with
          | none => rw [hff] at hf; simp at hf
          | some msg =>
            rw [hff] at hf
            simp only [Prod.mk.injEq, Option.some.injEq, true_and] at hf
            exact ⟨msg, rfl, by rw [← h, ← hf.2]⟩
    · simp only [hT, ne_eq, not_false_eq_true, if_true, Except.error.injEq] at h
      exact Or.inr (Or.inl h.symm)

/-! ## C20: a failed `RefreshToken` writes nothing -/

/-- C20. Whenever `RefreshToken` returns an error, for every input, environment
and database: the error was produced by steps 1 to 5, which only read (it is
one of: invalid token, wrong type, lookup error, no active session, user lookup
error, user not found, token signing error); the two strings returned are
empty; step 6, the only place where `RevokeByID` and `UpsertDevice` are called,
was not run, so the database is exactly as it was and the result is the same
whatever the outcome of those two round trips would have been. -/
theorem C20_refresh_failure_writes_nothing (L : Libs) (s : AuthService) (env : Env) (db db' : DB)
    (r a b : String) (e : Error)
    (h : RefreshToken L s env db r = ((a, b, some e), db')) :
    db' = db ∧ a = "" ∧ b = "" ∧
    RefreshTokenRead L s env db r = .error e ∧
    (e = ErrInvalidToken ∨
      e = .New "provided token is not a refresh token" ∨
      (∃ msg, env.findFault = some msg ∧ e = .Driver msg) ∨
      (∃ msg, env.userFault = some msg ∧ e = .Driver msg) ∨
      e = .New "user not found for the given token" ∨
      ∃ w, e = .Errorf "access token imzalanamadı" w ∨
        e = .Errorf "refresh token imzalanamadı" w) ∧
    (∀ f g, RefreshToken L s { env with revokeFault := f, upsertFault := g } db r =
      (("", "", some e), db)) := by
  rw [RefreshToken_eq_phases] at h
  unfold RefreshTokenInterleaved at h
  cases hr : RefreshTokenRead L s env db r with
  | ok v =>
    rw [hr] at h
    simp at h
  | error e' =>
    rw [hr] at h
    simp only [Prod.mk.injEq, Option.some.injEq] at h
    obtain ⟨⟨ha, hb, he⟩, hdb⟩ := h
    subst he
    refine ⟨hdb.symm, ha.symm, hb.symm, rfl, RefreshTokenRead_error L s env db r e' hr, ?_⟩
    intro f g
    rw [RefreshToken_eq_phases]
    unfold RefreshTokenInterleaved
    have : RefreshTokenRead L s { env with revokeFault := f, upsertFault := g } db r =
        RefreshTokenRead L s env db r := rfl
    rw [this, hr]

set_option maxRecDepth 100000 in
/-- C20 at a concrete input: the access credential presented to `RefreshToken`. -/
theorem C20_refresh_failure_writes_nothing_witness :
    RefreshTokenRead Ref.libs svcTwo env0 db0 accessTok0 =
      .error (.New "provided token is not a refresh token") ∧
    (∀ f g, RefreshToken Ref.libs svcTwo { env0 with revokeFault := f, upsertFault := g } db0
      accessTok0 = (("", "", some (.New "provided token is not a refresh token")), db0)) :=
  have h := C20_refresh_failure_writes_nothing Ref.libs svcTwo env0 db0 db0 accessTok0 "" ""
    (.New "provided token is not a refresh token") (by decide)
  ⟨h.2.2.2.1, h.2.2.2.2.2⟩

/-! ## C11: the error of a wrong-type credential -/

/-- A token that validates to claims whose type is not `refresh` makes
`RefreshToken` return the error `provided token is not a refresh token`, which
is not `ErrInvalidToken`, and the handler answer with code `Internal`. -/
theorem RefreshToken_wrong_type (L : Libs) (s : AuthService) (env : Env) (db : DB)
    (tok : String) (c : CustomClaims)
    (hv : ValidateToken L s.tokenManager env.now tok = .ok c) (hT : c.Typ ≠ TokenTypeRefresh) :
    RefreshToken L s env db tok =
      (("", "", some (.New "provided token is not a refresh token")), db) ∧
    handlerRefreshToken L s env db tok =
      (.error ⟨Code.Internal, "failed to refresh token: provided token is not a refresh token"⟩,
        db) := by
  have h1 : RefreshToken L s env db tok =
      (("", "", some (.New "provided token is not a refresh token")), db) := by
    unfold RefreshToken
    rw [hv]
    simp [hT]
  refine ⟨h1, ?_⟩
  unfold handlerRefreshToken
  rw [h1]
  rfl

/-- A token that does not validate makes `RefreshToken` return `ErrInvalidToken`
and the handler answer with code `Unauthenticated`. -/
theorem RefreshToken_invalid (L : Libs) (s : AuthService) (env : Env) (db : DB)
    (tok : String) (hv : ∀ c, ValidateToken L s.tokenManager env.now tok ≠ .ok c) :
    RefreshToken L s env db tok = (("", "", some ErrInvalidToken), db) ∧
    handlerRefreshToken L s env db tok =
      (.error ⟨Code.Unauthenticated, "invalid or expired token"⟩, db) := by
  have h1 : RefreshToken L s env db tok = (("", "", some ErrInvalidToken), db) := by
    unfold RefreshToken
    rcases ValidateToken_ok_or_invalid L s.tokenManager env.now tok with ⟨c, hc⟩ | h
    · exact absurd hc (hv c)
    · rw [h]
  refine ⟨h1, ?_⟩
  unfold handlerRefreshToken
  rw [h1]
  rfl

set_option maxRecDepth 100000 in
/-- C11 at the failing input: the access credential `accessTok0`, validly signed
and unexpired, presented to `RefreshToken`. The service returns the error
`provided token is not a refresh token`, which `errors.Is` does not match with
`ErrInvalidToken`, and the handler answers `Internal` with that text; a
malformed string gets `ErrInvalidToken` and `Unauthenticated`; the sibling
`RevokeByRefreshToken` returns `ErrInvalidToken` for the same credential. -/
theorem C11_wrong_type_error :
    ValidateToken Ref.libs tmTwo 0 accessTok0 = .ok (accessClaims tmTwo 0 "ja" "u1") ∧
    RefreshToken Ref.libs svcTwo env0 db0 accessTok0 =
      (("", "", some (.New "provided token is not a refresh token")), db0) ∧
    errorsIs (.New "provided token is not a refresh token") ErrInvalidToken = false ∧
    handlerRefreshToken Ref.libs svcTwo env0 db0 accessTok0 =
      (.error ⟨Code.Internal, "failed to refresh token: provided token is not a refresh token"⟩,
        db0) ∧
    RefreshToken Ref.libs svcTwo env0 db0 "garbage" = (("", "", some ErrInvalidToken), db0) ∧
    handlerRefreshToken Ref.libs svcTwo env0 db0 "garbage" =
      (.error ⟨Code.Unauthenticated, "invalid or expired token"⟩, db0) ∧
    RevokeByRefreshToken Ref.libs svcTwo env0 db0 accessTok0 = (some ErrInvalidToken, db0) := by
  exact ⟨by rfl, by decide, by decide, by rfl, by decide, by rfl, by decide⟩

/-! ## C12: a response that is not an approval -/

/-- A provider error, and a response whose status is present and not `approved`,
make `VerifyOTP` return an error and two empty strings and leave the database
as it was. -/
theorem VerifyOTP_not_approved (L : Libs) (s : AuthService) (env : LoginEnv) (db : DB)
    (phoneNumber : String) :
    (∀ err, env.otp = .error err →
      VerifyOTP L s env db phoneNumber = (.returned ("", "", some err), db)) ∧
    (∀ st, env.otp = .ok (some st) → st ≠ "approved" →
      VerifyOTP L s env db phoneNumber =
        (.returned ("", "", some (.New "OTP verification failed or code is incorrect")), db)) ∧
    (env.otp = .ok none → VerifyOTP L s env db phoneNumber = (.panicked nilDereference, db)) := by
  refine ⟨?_, ?_, ?_⟩
  · intro err h
    unfold VerifyOTP
    rw [h]
  · intro st h hst
    unfold VerifyOTP
    rw [h]
    simp [hst]
  · intro h
    unfold VerifyOTP
    rw [h]

/-- C12 at the failing input: a provider response whose status is absent. The
call ends in a nil-pointer panic instead of returning an error, while the
response `pending` gets the error and two empty strings. -/
theorem C12_nil_status_panics :
    VerifyOTP Ref.libs svcTwo loginEnvNil db0 phone1 = (.panicked nilDereference, db0) ∧
    VerifyOTP Ref.libs svcTwo loginEnvPending db0 phone1 =
      (.returned ("", "", some (.New "OTP verification failed or code is incorrect")), db0) :=
  ⟨by rfl, by rfl⟩

/-! ## `VerifyOTP` after an approval -/

/-- After an approval and an executed lookup, an error of step 3 is what
`VerifyOTP` returns, with two empty strings. -/
theorem VerifyOTP_resolve_error (L : Libs) (s : AuthService) (env : LoginEnv) (db db' : DB)
    (phoneNumber : String) (found x : Option User) (e : Error)
    (happ : env.otp = .ok (some "approved"))
    (hfind : FindByPhoneNumber db env.findFault phoneNumber = (found, none))
    (hres : resolveUser env db phoneNumber found = ((x, some e), db')) :
    VerifyOTP L s env db phoneNumber = (.returned ("", "", some e), db') := by
  unfold VerifyOTP
  rw [happ]
  simp only [ne_eq, not_true_eq_false, if_false]
  rw [hfind]
  simp only []
  rw [hres]
  cases x <;> rfl

/-- After an approval, an executed lookup, a resolved user and issued tokens,
`VerifyOTP` returns the pair and no error; the database is the one step 3 left,
after the upsert of the login session when there is a device repository. -/
theorem VerifyOTP_resolved (L : Libs) (s : AuthService) (env : LoginEnv) (db dbu : DB)
    (phoneNumber : String) (found : Option User) (user : User) (a r : String)
    (happ : env.otp = .ok (some "approved"))
    (hfind : FindByPhoneNumber db env.findFault phoneNumber = (found, none))
    (hres : resolveUser env db phoneNumber found = ((some user, none), dbu))
    (hg : GenerateTokens L s.tokenManager env.issueTime env.accessID env.refreshID user.ID =
      (a, r, none)) :
    VerifyOTP L s env db phoneNumber =
      (.returned (a, r, none),
        if s.hasDeviceRepo then
          (UpsertDevice dbu env.upsertFault env.deviceID env.createTime
            (loginDevice L user r env.loginTime)).2
        else dbu) := by
  unfold VerifyOTP
  rw [happ]
  simp only [ne_eq, not_true_eq_false, if_false]
  rw [hfind]
  simp only []
  rw [hres]
  simp only []
  rw [hg]
  cases s.hasDeviceRepo <;> rfl

/-- Step 3 of `VerifyOTP` leaves the session table as it was. -/
theorem resolveUser_user_devices (env : LoginEnv) (db : DB) (phoneNumber : String)
    (found : Option User) :
    (resolveUser env db phoneNumber found).2.user_devices = db.user_devices := by
  unfold resolveUser
  cases found with
  | some u => rfl
  | none =>
    unfold CreateUser
    cases env.createFault with
    | some msg => rfl
    | none =>
      simp only []
      split_ifs <;> rfl

/-! ## C13: a duplicate creation -/

/-- C13, as amended. In `VerifyOTP`, after an approval, when the lookup by phone
number reports no user and the following `CreateUser` fails, `VerifyOTP` returns
the error of `CreateUser` with two empty strings: it does not fetch the user
again, issues no tokens and records no session. In particular, when the
creation fails because another call has inserted a user with that phone number
in between, the error returned is the driver's duplicate-key error and the
database holds only what the other calls inserted. -/
theorem C13_creation_error_returned (L : Libs) (s : AuthService) (env : LoginEnv) (db : DB)
    (phoneNumber : String)
    (happ : env.otp = .ok (some "approved"))
    (hfind : FindByPhoneNumber db env.findFault phoneNumber = (none, none)) :
    (∀ x e db', CreateUser { db with users := db.users ++ env.racing } env.createFault
        env.userID env.userTime (newUser phoneNumber) = ((x, some e), db') →
      VerifyOTP L s env db phoneNumber = (.returned ("", "", some e), db')) ∧
    ((∃ u ∈ env.racing, u.PhoneNumber = phoneNumber) → env.createFault = none →
      VerifyOTP L s env db phoneNumber =
        (.returned ("", "", some duplicatePhone), { db with users := db.users ++ env.racing })) := by
  have h1 : ∀ x e db', CreateUser { db with users := db.users ++ env.racing } env.createFault
        env.userID env.userTime (newUser phoneNumber) = ((x, some e), db') →
      VerifyOTP L s env db phoneNumber = (.returned ("", "", some e), db') := by
    intro x e db' hc
    exact VerifyOTP_resolve_error L s env db db' phoneNumber none x e happ hfind hc
  refine ⟨h1, ?_⟩
  rintro ⟨u, hu, hp⟩ hcf
  apply h1 none
  unfold CreateUser
  rw [hcf]
  have htaken : phoneTaken { db with users := db.users ++ env.racing } phoneNumber = true := by
    unfold phoneTaken
    simp only [List.any_eq_true, decide_eq_true_eq]
    exact ⟨u, List.mem_append_right _ hu, hp⟩
  simp [newUser, htaken]

/-- C13 at a concrete input: `user1` is inserted by another call between the
lookup and the insert. -/
theorem C13_creation_error_returned_witness :
    VerifyOTP Ref.libs svcTwo loginEnvRace dbEmpty phone1 =
      (.returned ("", "", some duplicatePhone),
        { dbEmpty with users := dbEmpty.users ++ loginEnvRace.racing }) :=
  (C13_creation_error_returned Ref.libs svcTwo loginEnvRace dbEmpty phone1 rfl rfl).2
    ⟨user1, by decide, rfl⟩ rfl

/-- C13 as stated fails: the provider approves, the lookup on the empty `users`
table reports no user, another call inserts `user1` with the same phone number,
and `VerifyOTP` returns the duplicate-key error and no tokens instead of
completing the login with the identifier of `user1`. -/
theorem C13_counterexample :
    FindByPhoneNumber dbEmpty loginEnvRace.findFault phone1 = (none, none) ∧
    user1.PhoneNumber = phone1 ∧
    VerifyOTP Ref.libs svcTwo loginEnvRace dbEmpty phone1 =
      (.returned ("", "", some duplicatePhone), dbUser1) := by
  exact ⟨by rfl, by rfl, by decide⟩

/-! ## C14: a login whose session is not recorded -/

/-- C14, as amended. With a device repository and lawful primitives, when the
provider approves, the user is resolved and the round trip of `UpsertDevice`
fails, `VerifyOTP` still returns the pair `GenerateTokens` issued and no error,
and records no session. The access credential passes `ValidateAccessToken` for
the resolved user until its expiry. The refresh credential is not accepted by a
later `RefreshToken` on any database without an active session for it (such as
the one this login left, when it had none before): the call returns two empty
strings and an error, which is `ErrInvalidToken` when its lookup executes. -/
theorem C14_login_survives_upsert_failure (L : Libs) (hL : L.Lawful) (s : AuthService)
    (env : LoginEnv) (db dbu : DB) (phoneNumber : String) (found : Option User) (user : User)
    (msg : String) (hrepo : s.hasDeviceRepo = true)
    (happ : env.otp = .ok (some "approved"))
    (hfind : FindByPhoneNumber db env.findFault phoneNumber = (found, none))
    (hres : resolveUser env db phoneNumber found = ((some user, none), dbu))
    (hup : env.upsertFault = some msg) :
    ∃ a r, VerifyOTP L s env db phoneNumber = (.returned (a, r, none), dbu) ∧
      GenerateTokens L s.tokenManager env.issueTime env.accessID env.refreshID user.ID =
        (a, r, none) ∧
      dbu.user_devices = db.user_devices ∧
      (∀ t, t < jwtlib.NewNumericDate (env.issueTime + s.tokenManager.accessTokenDuration) →
        ValidateAccessToken L s t a = (true, user.ID)) ∧
      (∀ (env2 : Env) (db2 : DB),
        (∀ d ∈ db2.user_devices, d.UserID = user.ID →
          d.RefreshTokenHash = hashRefreshToken L r → d.RevokedAt ≠ none) →
        ∃ e, RefreshToken L s env2 db2 r = (("", "", some e), db2) ∧
          (env2.findFault = none → e = ErrInvalidToken) ∧
          (∀ m, env2.findFault = some m → e = ErrInvalidToken ∨ e = .Driver m)) := by
  obtain ⟨a, r, ha, hr, hg⟩ := GenerateTokens_ok L hL s.tokenManager env.issueTime env.accessID
    env.refreshID user.ID
  refine ⟨a, r, ?_, hg, ?_, ?_, ?_⟩
  · rw [VerifyOTP_resolved L s env db dbu phoneNumber found user a r happ hfind hres hg, hrepo,
      hup]
    rfl
  · have := resolveUser_user_devices env db phoneNumber found
    rw [hres] at this
    exact this
  · intro t ht
    rw [ValidateAccessToken_eq,
      ValidateToken_generated L hL _ _ (accessClaims_aligned ..) a ha t,
      if_pos ((Validate_accessClaims ..).2 ht)]
    rfl
  · intro env2 db2 hnone
    have hcl : ∀ c', ValidateToken L s.tokenManager env2.now r = .ok c' →
        c' = refreshClaims s.tokenManager env.issueTime env.refreshID user.ID :=
      fun c' hc' => ValidateToken_generated_claims L hL _ _ (refreshClaims_aligned ..) r hr _ c' hc'
    apply RefreshToken_no_session L s env2 db2 r hrepo
    · intro c' hc'
      rw [hcl c' hc']
      rfl
    · intro c' hc'
      rw [hcl c' hc']
      exact (FindActive_none_iff db2 _ _).2 hnone

set_option maxRecDepth 100000 in
/-- C14 at a concrete input: the login of `user1` with a failing upsert. -/
theorem C14_login_survives_upsert_failure_witness :
    ∃ a r, VerifyOTP Ref.libs svcTwo loginEnvUpsertFails dbUser1 phone1 =
        (.returned (a, r, none), dbUser1) ∧
      ValidateAccessToken Ref.libs svcTwo Second a = (true, "u1") ∧
      ∃ e, RefreshToken Ref.libs svcTwo env0 dbUser1 r = (("", "", some e), dbUser1) ∧
        (env0.findFault = none → e = ErrInvalidToken) :=
  have ⟨a, r, h1, _, _, h4, h5⟩ := C14_login_survives_upsert_failure Ref.libs Ref.libs_lawful
    svcTwo loginEnvUpsertFails dbUser1 dbUser1 phone1 (some user1) user1 "driver: bad connection"
    rfl rfl (by decide) (by decide) rfl
  have ⟨e, h6, h7, _⟩ := h5 env0 dbUser1 (by intro d hd; cases hd)
  ⟨a, r, h1, h4 Second (by decide), e, h6, h7⟩

set_option maxRecDepth 100000 in
/-- C14 as stated fails in its last part: the provider approves, `user1` is
found, the upsert fails, `VerifyOTP` returns the pair and no error, the access
credential is valid, and a later `RefreshToken` with the refresh credential is
refused with `ErrInvalidToken`. -/
theorem C14_counterexample :
    svcTwo.hasDeviceRepo = true ∧
    VerifyOTP Ref.libs svcTwo loginEnvUpsertFails dbUser1 phone1 =
      (.returned (accessTok0, refreshTok0, none), dbUser1) ∧
    ValidateAccessToken Ref.libs svcTwo 0 accessTok0 = (true, "u1") ∧
    RefreshToken Ref.libs svcTwo env0 dbUser1 refreshTok0 =
      (("", "", some ErrInvalidToken), dbUser1) := by
  exact ⟨rfl, by decide, by decide, by decide⟩

/-! ## C15: which persistence failures reach the caller -/

/-- What `RefreshToken` returns is decided by its steps 1 to 5. -/
theorem RefreshToken_returned (L : Libs) (s : AuthService) (env : Env) (db : DB) (r : String) :
    (RefreshToken L s env db r).1 =
      match RefreshTokenRead L s env db r with
      | .error e => ("", "", some e)
      | .ok (_, _, a, r') => (a, r', none) := by
  rw [RefreshToken_eq_phases]
  unfold RefreshTokenInterleaved
  cases RefreshTokenRead L s env db r with
  | error e => rfl
  | ok v => rfl

/-- C15, as amended. The failures of the lookups and of the revocations of the
two revoke operations reach the caller as the returned error: a failed session
lookup or user lookup in `RefreshToken`, a failed `RevokeByID` in
`RevokeByRefreshToken`, a failed `RevokeAllForUser` in `RevokeAllForAccessToken`,
a failed phone lookup or user creation in `VerifyOTP`. The failures of
`RevokeByID` and `UpsertDevice` during `RefreshToken` do not: what `RefreshToken`
returns is the same whether or not these two round trips fail, so when its
reads succeed it returns the new pair and no error also when both writes
fail. -/
theorem C15_persistence_failures (L : Libs) (s : AuthService) (env : Env) (db : DB)
    (r : String) :
    (∀ f g, (RefreshToken L s { env with revokeFault := f, upsertFault := g } db r).1 =
      (RefreshToken L s env db r).1) ∧
    (∀ c msg, ValidateToken L s.tokenManager env.now r = .ok c → c.Typ = TokenTypeRefresh →
      s.hasDeviceRepo = true → env.findFault = some msg →
      RefreshToken L s env db r = (("", "", some (.Driver msg)), db)) ∧
    (∀ c cur msg, ValidateToken L s.tokenManager env.now r = .ok c → c.Typ = TokenTypeRefresh →
      s.hasDeviceRepo = true →
      FindActiveByUserAndHash db env.findFault c.Subject (hashRefreshToken L r) =
        (some cur, none) →
      env.userFault = some msg →
      RefreshToken L s env db r = (("", "", some (.Driver msg)), db)) ∧
    (∀ c cur msg, ValidateToken L s.tokenManager env.now r = .ok c → c.Typ = TokenTypeRefresh →
      s.hasDeviceRepo = true →
      FindActiveByUserAndHash db env.findFault c.Subject (hashRefreshToken L r) =
        (some cur, none) →
      env.revokeFault = some msg →
      RevokeByRefreshToken L s env db r = (some (.Driver msg), db)) ∧
    (∀ a c msg, ValidateToken L s.tokenManager env.now a = .ok c → c.Typ = TokenTypeAccess →
      s.hasDeviceRepo = true → env.revokeFault = some msg →
      RevokeAllForAccessToken L s env db a = (some (.Driver msg), db)) ∧
    (∀ (lenv : LoginEnv) phoneNumber msg, lenv.otp = .ok (some "approved") →
      lenv.findFault = some msg →
      VerifyOTP L s lenv db phoneNumber = (.returned ("", "", some (.Driver msg)), db)) ∧
    (∀ (lenv : LoginEnv) phoneNumber msg, lenv.otp = .ok (some "approved") →
      FindByPhoneNumber db lenv.findFault phoneNumber = (none, none) →
      lenv.createFault = some msg →
      VerifyOTP L s lenv db phoneNumber =
        (.returned ("", "", some (.Driver msg)), { db with users := db.users ++ lenv.racing })) := by
  refine ⟨?_, ?_, ?_, ?_, ?_, ?_, ?_⟩
  · intro f g
    rw [RefreshToken_returned, RefreshToken_returned]
    rfl
  · intro c msg hv hT hrepo hf
    unfold RefreshToken
    rw [hv]
    simp only [hT, ne_eq, not_true_eq_false, if_false, hrepo, if_true, hf, FindActive_fault]
  · intro c cur msg hv hT hrepo hf hu
    unfold RefreshToken
    rw [hv]
    simp only [hT, ne_eq, not_true_eq_false, if_false, hrepo, if_true, hf, hu, FindByID]
  · intro c cur msg hv hT hrepo hf hrf
    unfold RevokeByRefreshToken
    rw [hv]
    simp only [hT, ne_eq, not_true_eq_false, if_false, hrepo, Bool.not_true, Bool.false_eq_true,
      hf, hrf, RevokeByID]
  · intro a c msg hv hT hrepo hrf
    unfold RevokeAllForAccessToken
    rw [hv]
    simp only [hT, ne_eq, not_true_eq_false, if_false, hrepo, Bool.not_true, Bool.false_eq_true,
      hrf, RevokeAllForUser]
  · intro lenv phoneNumber msg happ hf
    unfold VerifyOTP
    rw [happ]
    simp only [ne_eq, not_true_eq_false, if_false, hf, FindByPhoneNumber]
  · intro lenv phoneNumber msg happ hfind hcf
    apply VerifyOTP_resolve_error L s lenv db _ phoneNumber none none _ happ hfind
    unfold resolveUser CreateUser
    rw [hcf]

set_option maxRecDepth 100000 in
/-- C15 as stated fails: in `RefreshToken` of `refreshTok0` on `db0`, when the
round trip of `RevokeByID` fails, and when the round trip of `UpsertDevice`
fails, the call returns a new pair and no error. -/
theorem C15_counterexample :
    (RevokeByID db0 envRevokeFails.revokeFault envRevokeFails.revokeTime "d1" =
        (some (.Driver "driver: bad connection"), db0) ∧
      (RefreshToken Ref.libs svcTwo envRevokeFails db0 refreshTok0).1.2.2 = none ∧
      (RefreshToken Ref.libs svcTwo envRevokeFails db0 refreshTok0).1.1 ≠ "" ∧
      (RefreshToken Ref.libs svcTwo envRevokeFails db0 refreshTok0).1.2.1 ≠ "") ∧
    (envUpsertFails.upsertFault = some "driver: bad connection" ∧
      (RefreshToken Ref.libs svcTwo envUpsertFails db0 refreshTok0).1.2.2 = none ∧
      (RefreshToken Ref.libs svcTwo envUpsertFails db0 refreshTok0).1.1 ≠ "" ∧
      (RefreshToken Ref.libs svcTwo envUpsertFails db0 refreshTok0).1.2.1 ≠ "") := by
  exact ⟨⟨by decide, by decide, by decide, by decide⟩, rfl, by decide, by decide, by decide⟩

/-! ## C16 and C17: the interceptor -/

/-- The five outcomes of the interceptor on a method outside the exempt prefix. -/
theorem UnaryAuthInterceptor_cases {ρ : Type} (L : Libs) (tm : TokenManager) (t : Int)
    (ctx : Context) (fullMethod : String) (handler : Context → Except Status ρ)
    (hm : strings.HasPrefix fullMethod "/auth.AuthService/" = false) :
    (ctx.md = none →
      UnaryAuthInterceptor L tm t ctx fullMethod handler =
        .error ⟨Code.Unauthenticated, "missing metadata"⟩) ∧
    (∀ md, ctx.md = some md → MD.Get md "authorization" = [] →
      UnaryAuthInterceptor L tm t ctx fullMethod handler =
        .error ⟨Code.Unauthenticated, "missing authorization header"⟩) ∧
    (∀ md auth rest, ctx.md = some md → MD.Get md "authorization" = auth :: rest →
      strings.HasPrefix (strings.ToLower auth) "bearer " = false →
      UnaryAuthInterceptor L tm t ctx fullMethod handler =
        .error ⟨Code.Unauthenticated, "invalid authorization header"⟩) ∧
    (∀ md auth rest, ctx.md = some md → MD.Get md "authorization" = auth :: rest →
      strings.HasPrefix (strings.ToLower auth) "bearer " = true →
      (∀ c, ValidateToken L tm t
        (strings.TrimSpace (String.mk (auth.data.drop "bearer ".length))) ≠ .ok c) →
      UnaryAuthInterceptor L tm t ctx fullMethod handler =
        .error ⟨Code.Unauthenticated, "invalid or expired token"⟩) ∧
    (∀ md auth rest c, ctx.md = some md → MD.Get md "authorization" = auth :: rest →
      strings.HasPrefix (strings.ToLower auth) "bearer " = true →
      ValidateToken L tm t
        (strings.TrimSpace (String.mk (auth.data.drop "bearer ".length))) = .ok c →
      c.Typ ≠ TokenTypeAccess →
      UnaryAuthInterceptor L tm t ctx fullMethod handler =
        .error ⟨Code.Unauthenticated, "token must be an access token"⟩) ∧
    (∀ md auth rest c, ctx.md = some md → MD.Get md "authorization" = auth :: rest →
      strings.HasPrefix (strings.ToLower auth) "bearer " = true →
      ValidateToken L tm t
        (strings.TrimSpace (String.mk (auth.data.drop "bearer ".length))) = .ok c →
      c.Typ = TokenTypeAccess →
      UnaryAuthInterceptor L tm t ctx fullMethod handler =
        handler { ctx with userID := some c.Subject }) := by
  unfold UnaryAuthInterceptor
  rw [hm]
  simp only [Bool.false_eq_true, if_false]
  refine ⟨?_, ?_, ?_, ?_, ?_, ?_⟩
  · intro h
    rw [h]
  · intro md hmd hget
    rw [hmd]
    simp only [hget]
  · intro md auth rest hmd hget hp
    rw [hmd]
    simp only [hget, hp, Bool.not_false, if_true]
  · intro md auth rest hmd hget hp hv
    rw [hmd]
    simp only [hget, hp, Bool.not_true, Bool.false_eq_true, if_false]
    cases hvv : ValidateToken L tm t
        (strings.TrimSpace (String.mk (auth.data.drop "bearer ".length))) with
    | error e => rfl
    | ok c => exact absurd hvv (hv c)
  · intro md auth rest c hmd hget hp hv hT
    rw [hmd]
    simp only [hget, hp, Bool.not_true, Bool.false_eq_true, if_false, hv, hT, ne_eq,
      not_false_eq_true, if_true]
  · intro md auth rest c hmd hget hp hv hT
    rw [hmd]
    simp only [hget, hp, Bool.not_true, Bool.false_eq_true, if_false, hv, hT, ne_eq,
      not_true_eq_false]

/-- C16. The interceptor is fail-closed. For every call to a method outside the
exempt prefix `/auth.AuthService/`, either the first `authorization` value of
the call has the bearer scheme and its token passes `ValidateToken` with
`Type = access`, and then the handler is invoked, on the context that yields
exactly that token's `Subject` through `UserIDFromContext`; or that is not so,
and then the result is one `Unauthenticated` error whatever the handler is (the
handler is not invoked). -/
theorem C16_interceptor_fail_closed (L : Libs) (tm : TokenManager) (t : Int) (ctx : Context)
    (fullMethod : String)
    (hm : strings.HasPrefix fullMethod "/auth.AuthService/" = false) :
    (∃ md auth rest c, ctx.md = some md ∧ MD.Get md "authorization" = auth :: rest ∧
      strings.HasPrefix (strings.ToLower auth) "bearer " = true ∧
      ValidateToken L tm t
        (strings.TrimSpace (String.mk (auth.data.drop "bearer ".length))) = .ok c ∧
      c.Typ = TokenTypeAccess ∧
      UserIDFromContext { ctx with userID := some c.Subject } = (c.Subject, true) ∧
      ∀ (ρ : Type) (handler : Context → Except Status ρ),
        UnaryAuthInterceptor L tm t ctx fullMethod handler =
          handler { ctx with userID := some c.Subject }) ∨
    ((¬ ∃ md auth rest c, ctx.md = some md ∧ MD.Get md "authorization" = auth :: rest ∧
        strings.HasPrefix (strings.ToLower auth) "bearer " = true ∧
        ValidateToken L tm t
          (strings.TrimSpace (String.mk (auth.data.drop "bearer ".length))) = .ok c ∧
        c.Typ = TokenTypeAccess) ∧
      ∃ msg, ∀ (ρ : Type) (handler : Context → Except Status ρ),
        UnaryAuthInterceptor L tm t ctx fullMethod handler =
          .error ⟨Code.Unauthenticated, msg⟩) := by
  have H := fun (ρ : Type) (handler : Context → Except Status ρ) =>
    UnaryAuthInterceptor_cases L tm t ctx fullMethod handler hm
  cases hmd : ctx.md with
  | none =>
    right
    refine ⟨?_, "missing metadata", fun ρ handler => (H ρ handler).1 hmd⟩
    rintro ⟨md, _, _, _, h, _⟩
    cases h
  | some md =>
    cases hget : MD.Get md "authorization" with
    | nil =>
      right
      refine ⟨?_, "missing authorization header", fun ρ handler => (H ρ handler).2.1 md hmd hget⟩
      rintro ⟨md', auth, rest, _, h, hg, _⟩
      cases h
      rw [hget] at hg
      cases hg
    | cons auth rest =>
      cases hp : strings.HasPrefix (strings.ToLower auth) "bearer " with
      | false =>
        right
        refine ⟨?_, "invalid authorization header",
          fun ρ handler => (H ρ handler).2.2.1 md auth rest hmd hget hp⟩
        rintro ⟨md', auth', rest', _, h, hg, hp', _⟩
        cases h
        rw [hget] at hg
        cases hg
        rw [hp] at hp'
        cases hp'
      | true =>
        cases hv : ValidateToken L tm t
            (strings.TrimSpace (String.mk (auth.data.drop "bearer ".length))) with
        | error e =>
          right
          refine ⟨?_, "invalid or expired token", fun ρ handler =>
            (H ρ handler).2.2.2.1 md auth rest hmd hget hp (by rw [hv]; intro c hc; cases hc)⟩
          rintro ⟨md', auth', rest', c', h, hg, _, hv', _⟩
          cases h
          rw [hget] at hg
          cases hg
          rw [hv] at hv'
          cases hv'
        | ok c =>
          by_cases hT : c.Typ = TokenTypeAccess
          · left
            refine ⟨md, auth, rest, c, rfl, hget, hp, hv, hT, rfl, fun ρ handler => ?_⟩
            have := (H ρ handler).2.2.2.2.2 md auth rest c hmd hget hp hv hT
            rw [hmd] at this
            exact this
          · right
            refine ⟨?_, "token must be an access token", fun ρ handler =>
              (H ρ handler).2.2.2.2.1 md auth rest c hmd hget hp hv hT⟩
            rintro ⟨md', auth', rest', c', h, hg, _, hv', hT'⟩
            cases h
            rw [hget] at hg
            cases hg
            rw [hv] at hv'
            cases hv'
            exact hT hT'

set_option maxRecDepth 100000 in
/-- C16 at a concrete input: a call to a guarded method that carries `accessTok0`
as bearer token, at clock 0. -/
theorem C16_interceptor_fail_closed_witness :
    (∃ md auth rest c, ctxAccess0.md = some md ∧ MD.Get md "authorization" = auth :: rest ∧
      strings.HasPrefix (strings.ToLower auth) "bearer " = true ∧
      ValidateToken Ref.libs tmTwo 0
        (strings.TrimSpace (String.mk (auth.data.drop "bearer ".length))) = .ok c ∧
      c.Typ = TokenTypeAccess ∧
      UserIDFromContext { ctxAccess0 with userID := some c.Subject } = (c.Subject, true) ∧
      ∀ (ρ : Type) (handler : Context → Except Status ρ),
        UnaryAuthInterceptor Ref.libs tmTwo 0 ctxAccess0 "/chat.ChatService/Send" handler =
          handler { ctxAccess0 with userID := some c.Subject }) ∨
    ((¬ ∃ md auth rest c, ctxAccess0.md = some md ∧ MD.Get md "authorization" = auth :: rest ∧
        strings.HasPrefix (strings.ToLower auth) "bearer " = true ∧
        ValidateToken Ref.libs tmTwo 0
          (strings.TrimSpace (String.mk (auth.data.drop "bearer ".length))) = .ok c ∧
        c.Typ = TokenTypeAccess) ∧
      ∃ msg, ∀ (ρ : Type) (handler : Context → Except Status ρ),
        UnaryAuthInterceptor Ref.libs tmTwo 0 ctxAccess0 "/chat.ChatService/Send" handler =
          .error ⟨Code.Unauthenticated, msg⟩) :=
  C16_interceptor_fail_closed Ref.libs tmTwo 0 ctxAccess0 "/chat.ChatService/Send" (by decide)

/-- C17, as amended. On a method outside the exempt prefix every rejection of the
interceptor carries the code `Unauthenticated`, and a message that names the
check that failed: `missing metadata` without metadata, `missing authorization
header` without an `authorization` value, `invalid authorization header` for
another scheme, `invalid or expired token` for a token that does not validate
(malformed, bad signature, wrong algorithm or expired alike), `token must be an
access token` for a valid credential of another type. The five messages are
different from one another, and the interceptor rejects with no other status. -/
theorem C17_rejection_code_and_message {ρ : Type} (L : Libs) (tm : TokenManager) (t : Int)
    (ctx : Context) (fullMethod : String) (handler : Context → Except Status ρ)
    (hm : strings.HasPrefix fullMethod "/auth.AuthService/" = false) :
    (ctx.md = none →
      UnaryAuthInterceptor L tm t ctx fullMethod handler =
        .error ⟨Code.Unauthenticated, "missing metadata"⟩) ∧
    (∀ md, ctx.md = some md → MD.Get md "authorization" = [] →
      UnaryAuthInterceptor L tm t ctx fullMethod handler =
        .error ⟨Code.Unauthenticated, "missing authorization header"⟩) ∧
    (∀ md auth rest, ctx.md = some md → MD.Get md "authorization" = auth :: rest →
      strings.HasPrefix (strings.ToLower auth) "bearer " = false →
      UnaryAuthInterceptor L tm t ctx fullMethod handler =
        .error ⟨Code.Unauthenticated, "invalid authorization header"⟩) ∧
    (∀ md auth rest, ctx.md = some md → MD.Get md "authorization" = auth :: rest →
      strings.HasPrefix (strings.ToLower auth) "bearer " = true →
      (∀ c, ValidateToken L tm t
        (strings.TrimSpace (String.mk (auth.data.drop "bearer ".length))) ≠ .ok c) →
      UnaryAuthInterceptor L tm t ctx fullMethod handler =
        .error ⟨Code.Unauthenticated, "invalid or expired token"⟩) ∧
    (∀ md auth rest c, ctx.md = some md → MD.Get md "authorization" = auth :: rest →
      strings.HasPrefix (strings.ToLower auth) "bearer " = true →
      ValidateToken L tm t
        (strings.TrimSpace (String.mk (auth.data.drop "bearer ".length))) = .ok c →
      c.Typ ≠ TokenTypeAccess →
      UnaryAuthInterceptor L tm t ctx fullMethod handler =
        .error ⟨Code.Unauthenticated, "token must be an access token"⟩) ∧
    ["missing metadata", "missing authorization header", "invalid authorization header",
      "invalid or expired token", "token must be an access token"].Nodup ∧
    (∀ st, UnaryAuthInterceptor L tm t ctx fullMethod okHandler = .error st →
      st.code = Code.Unauthenticated ∧
      st.message ∈ ["missing metadata", "missing authorization header",
        "invalid authorization header", "invalid or expired token",
        "token must be an access token"]) := by
  obtain ⟨h1, h2, h3, h4, h5, _⟩ := UnaryAuthInterceptor_cases L tm t ctx fullMethod handler hm
  refine ⟨h1, h2, h3, h4, h5, by decide, ?_⟩
  obtain ⟨k1, k2, k3, k4, k5, k6⟩ := UnaryAuthInterceptor_cases L tm t ctx fullMethod okHandler hm
  intro st hst
  cases hmd : ctx.md with
  | none =>
    rw [k1 hmd] at hst
    cases hst
    exact ⟨rfl, by decide⟩
  | some md =>
    cases hget : MD.Get md "authorization" with
    | nil =>
      rw [k2 md hmd hget] at hst
      cases hst
      exact ⟨rfl, by decide⟩
    | cons auth rest =>
      cases hp : strings.HasPrefix (strings.ToLower auth) "bearer " with
      | false =>
        rw [k3 md auth rest hmd hget hp] at hst
        cases hst
        exact ⟨rfl, by decide⟩
      | true =>
        cases hv : ValidateToken L tm t
            (strings.TrimSpace (String.mk (auth.data.drop "bearer ".length))) with
        | error e =>
          rw [k4 md auth rest hmd hget hp (by rw [hv]; intro c hc; cases hc)] at hst
          cases hst
          exact ⟨rfl, by decide⟩
        | ok c =>
          by_cases hT : c.Typ = TokenTypeAccess
          · rw [k6 md auth rest c hmd hget hp hv hT] at hst
            cases hst
          · rw [k5 md auth rest c hmd hget hp hv hT] at hst
            cases hst
            exact ⟨rfl, by decide⟩

/-- C17 at a concrete input: a call without metadata. -/
theorem C17_rejection_code_and_message_witness :
    UnaryAuthInterceptor Ref.libs tmTwo 0 ctxNoMD "/chat.ChatService/Send" okHandler =
      .error ⟨Code.Unauthenticated, "missing metadata"⟩ :=
  (C17_rejection_code_and_message Ref.libs tmTwo 0 ctxNoMD "/chat.ChatService/Send" okHandler
    (by decide)).1 rfl

set_option maxRecDepth 100000 in
/-- C17 as stated fails: a call without metadata and a call that carries a valid
refresh credential are both rejected with code `Unauthenticated`, but with
different messages, so the error returned tells the two checks apart. -/
theorem C17_counterexample :
    UnaryAuthInterceptor Ref.libs tmTwo 0 ctxNoMD "/chat.ChatService/Send" okHandler =
      .error ⟨Code.Unauthenticated, "missing metadata"⟩ ∧
    UnaryAuthInterceptor Ref.libs tmTwo 0 ctxRefresh0 "/chat.ChatService/Send" okHandler =
      .error ⟨Code.Unauthenticated, "token must be an access token"⟩ ∧
    (⟨Code.Unauthenticated, "missing metadata"⟩ : Status) ≠
      ⟨Code.Unauthenticated, "token must be an access token"⟩ := by
  exact ⟨by rfl, by rfl, by decide⟩

/-! ## C18: a session consumed between the lookup and the revoke step -/

/-- An executed `RevokeByID` of an identifier without active row changes nothing
and returns `nil`. -/
theorem RevokeByID_no_active (db : DB) (now : Int) (id : String)
    (h : ∀ d ∈ db.user_devices, d.ID = id → d.RevokedAt ≠ none) :
    RevokeByID db none now id = (none, db) := by
  unfold RevokeByID
  have hmap : db.user_devices.map (fun d =>
      if d.ID = id ∧ d.RevokedAt = none then { d with RevokedAt := some now } else d) =
      db.user_devices := by
    conv_rhs => rw [← List.map_id db.user_devices]
    apply List.map_congr_left
    intro d hd
    by_cases hc : d.ID = id ∧ d.RevokedAt = none
    · exact absurd hc.2 (h d hd hc.1)
    · simp [hc]
  simp only [hmap]

/-- C18, as amended. `RefreshToken` does not learn whether its revoke step
transitioned a row. With a device repository, once its reads have found the
session active and issued the new pair, it returns that pair and no error
whatever the database has become when its writes run; in particular, when the
session it found is already revoked by then, its `RevokeByID` changes no row and
returns `nil`, and the call still returns the new pair and upserts the rotated
session. So two calls that present the same credential and both pass the
lookup both succeed. -/
theorem C18_refresh_after_lost_revoke (L : Libs) (s : AuthService) (env : Env) (db : DB)
    (r a' r' : String) (cur : UserDevice) (user : User)
    (hrepo : s.hasDeviceRepo = true)
    (hread : RefreshTokenRead L s env db r = .ok (some cur, user, a', r')) :
    (∀ dbAtWrite, (RefreshTokenInterleaved L s env db dbAtWrite r).1 = (a', r', none)) ∧
    (∀ dbAtWrite, (∀ d ∈ dbAtWrite.user_devices, d.ID = cur.ID → d.RevokedAt ≠ none) →
      env.revokeFault = none →
      RevokeByID dbAtWrite env.revokeFault env.revokeTime cur.ID = (none, dbAtWrite) ∧
      RefreshTokenInterleaved L s env db dbAtWrite r =
        ((a', r', none),
          (UpsertDevice dbAtWrite env.upsertFault env.deviceID env.createTime
            (rotatedDevice L user (some cur) r' env.loginTime)).2)) := by
  constructor
  · intro dbAtWrite
    unfold RefreshTokenInterleaved
    rw [hread]
  · intro dbAtWrite hgone hrf
    have hrev := RevokeByID_no_active dbAtWrite env.revokeTime cur.ID hgone
    rw [hrf]
    refine ⟨hrev, ?_⟩
    unfold RefreshTokenInterleaved RefreshTokenWrite
    rw [hread]
    simp only [hrepo, if_true, hrf, hrev]

set_option maxRecDepth 100000 in
/-- C18 at concrete inputs: a second call reads `db0` and writes after the first
call has rotated `refreshTok0`. -/
theorem C18_refresh_after_lost_revoke_witness :
    (RefreshTokenInterleaved Ref.libs svcTwo envB db0 dbRotated refreshTok0).1 =
      ((GenerateTokens Ref.libs tmTwo envB.issueTime "ja3" "jr3" "u1").1,
        (GenerateTokens Ref.libs tmTwo envB.issueTime "ja3" "jr3" "u1").2.1, none) :=
  (C18_refresh_after_lost_revoke Ref.libs svcTwo envB db0 refreshTok0
    (GenerateTokens Ref.libs tmTwo envB.issueTime "ja3" "jr3" "u1").1
    (GenerateTokens Ref.libs tmTwo envB.issueTime "ja3" "jr3" "u1").2.1
    dev1 user1 rfl (by rfl)).1 dbRotated

set_option maxRecDepth 100000 in
/-- C18 as stated fails. Two calls present `refreshTok0` and both find its
session active in `db0`. The first rotates it, leaving `dbRotated`, in which the
session is revoked. The revoke step of the second then changes no row and
returns `nil`, and the second call returns a new pair and no error as well. -/
theorem C18_counterexample :
    (RefreshToken Ref.libs svcTwo env0 db0 refreshTok0).1.2.2 = none ∧
    FindActiveByUserAndHash db0 none "u1" (hashRefreshToken Ref.libs refreshTok0) =
      (some dev1, none) ∧
    FindActiveByUserAndHash dbRotated none "u1" (hashRefreshToken Ref.libs refreshTok0) =
      (none, none) ∧
    RevokeByID dbRotated envB.revokeFault envB.revokeTime dev1.ID = (none, dbRotated) ∧
    (RefreshTokenInterleaved Ref.libs svcTwo envB db0 dbRotated refreshTok0).1.2.2 = none ∧
    (RefreshTokenInterleaved Ref.libs svcTwo envB db0 dbRotated refreshTok0).1.2.1 ≠ "" := by
  exact ⟨by decide, by decide, by decide, by decide, by decide, by decide⟩

/-! ## C19: the writes of a rotation -/

/-- The user found by identifier has that identifier. -/
theorem FindByID_some (db : DB) (fault : Option String) (userID : String) (user : User)
    (h : FindByID db fault userID = (some user, none)) : user.ID = userID := by
  unfold FindByID at h
  cases fault with
  | some msg => simp at h
  | none =>
    simp only [Prod.mk.injEq, and_true] at h
    have := List.find?_some h
    simpa using this

/-- Under unique identifiers, an executed `RevokeByID` of an active row of the
table changes that row and no other. -/
theorem RevokeByID_unique (db : DB) (now : Int) (cur : UserDevice)
    (hact : cur.RevokedAt = none) (hmem : cur ∈ db.user_devices)
    (hID : UniqueID db.user_devices) :
    (RevokeByID db none now cur.ID).2.user_devices =
      db.user_devices.map (fun d => if d = cur then { cur with RevokedAt := some now } else d) := by
  have hsym : Symmetric (fun a b : UserDevice => a.ID ≠ b.ID) := fun a b hab hba => hab hba.symm
  unfold RevokeByID
  simp only []
  apply List.map_congr_left
  intro d hd
  by_cases hc : d = cur
  · subst hc
    simp [hact]
  · have : ¬ (d.ID = cur.ID ∧ d.RevokedAt = none) :=
      fun h => List.Pairwise.forall hsym hID hd hmem hc h.1
    simp [hc, this]

/-- An executed `UpsertDevice` of a record with zero `ID` and `CreatedAt`, for a
`(user, hash)` without row, appends one active row. -/
theorem UpsertDevice_insert (db : DB) (newID : UUID) (now : Int) (dev : UserDevice)
    (hid : dev.ID = uuidNil) (hct : dev.CreatedAt = zeroTime)
    (hnew : ∀ d ∈ db.user_devices,
      ¬ (d.UserID = dev.UserID ∧ d.RefreshTokenHash = dev.RefreshTokenHash)) :
    (UpsertDevice db none newID now dev).2.user_devices =
      db.user_devices ++ [{ dev with ID := newID, CreatedAt := now, RevokedAt := none }] := by
  have hfill : fillDefaults newID now dev = { dev with ID := newID, CreatedAt := now } := by
    unfold fillDefaults
    simp [hid, hct, IsZero]
  unfold UpsertDevice
  rw [hfill]
  have hany : (db.user_devices.any (fun d =>
      decide (d.UserID = dev.UserID ∧ d.RefreshTokenHash = dev.RefreshTokenHash))) = false := by
    rw [List.any_eq_false]
    intro d hd
    simpa using hnew d hd
  simp only [hany, Bool.false_eq_true, if_false]

/-- An `UpsertDevice` for a `(user, hash)` that has a row adds no row. -/
theorem UpsertDevice_conflict (db : DB) (fault : Option String) (newID : UUID) (now : Int)
    (dev : UserDevice)
    (hrow : ∃ d ∈ db.user_devices,
      d.UserID = dev.UserID ∧ d.RefreshTokenHash = dev.RefreshTokenHash) :
    (UpsertDevice db fault newID now dev).2.user_devices.length = db.user_devices.length := by
  obtain ⟨d0, hd0, hu0, hh0⟩ := hrow
  obtain ⟨hfu, hfh, _⟩ := fillDefaults_fields newID now dev
  unfold UpsertDevice
  cases fault with
  | some msg => rfl
  | none =>
    have hany : (db.user_devices.any (fun d =>
        decide (d.UserID = (fillDefaults newID now dev).UserID ∧
          d.RefreshTokenHash = (fillDefaults newID now dev).RefreshTokenHash))) = true := by
      rw [List.any_eq_true]
      exact ⟨d0, hd0, by simp [hfu, hfh, hu0, hh0]⟩
    simp only [hany, if_true, List.length_map]

/-- A `RevokeByID`, executed or failed, keeps the number of rows. -/
theorem RevokeByID_length (db : DB) (fault : Option String) (now : Int) (id : String) :
    (RevokeByID db fault now id).2.user_devices.length = db.user_devices.length := by
  unfold RevokeByID
  cases fault with
  | some msg => rfl
  | none => simp only [List.length_map]

/-- With a device repository, steps 1 to 5 of `RefreshToken` succeed only with
claims of type `refresh`, the active session found for them, the user found and
the pair issued. -/
theorem RefreshTokenRead_ok_inv (L : Libs) (s : AuthService) (env : Env) (db : DB) (r : String)
    (co : Option UserDevice) (user : User) (a' r' : String) (hrepo : s.hasDeviceRepo = true)
    (h : RefreshTokenRead L s env db r = .ok (co, user, a', r')) :
    ∃ c cur, co = some cur ∧ ValidateToken L s.tokenManager env.now r = .ok c ∧
      c.Typ = TokenTypeRefresh ∧
      FindActiveByUserAndHash db env.findFault c.Subject (hashRefreshToken L r) =
        (some cur, none) ∧
      FindByID db env.userFault c.Subject = (some user, none) ∧
      GenerateTokens L s.tokenManager env.issueTime env.accessID env.refreshID c.Subject =
        (a', r', none) := by
  unfold RefreshTokenRead at h
  cases hv : ValidateToken L s.tokenManager env.now r with
  | error e => rw [hv] at h; simp at h
  | ok c =>
    rw [hv] at h
    simp only [] at h
    by_cases hT : c.Typ = TokenTypeRefresh
    · simp only [hT, ne_eq, not_true_eq_false, if_false, hrepo, if_true] at h
      rcases hf : FindActiveByUserAndHash db env.findFault c.Subject (hashRefreshToken L r)
        with ⟨_ | cur, _ | derr⟩
      · rw [hf] at h; simp at h
      · rw [hf] at h; simp at h
      · rw [hf] at h
        simp only [] at h
        rcases hu : FindByID db env.userFault c.Subject with ⟨_ | usr, _ | uerr⟩
        · rw [hu] at h; simp at h
        · rw [hu] at h; simp at h
        · rw [hu] at h
          simp only [] at h
          rcases hg : GenerateTokens L s.tokenManager env.issueTime env.accessID env.refreshID
            c.Subject with ⟨na, nr, _ | gerr⟩
          · rw [hg] at h
            simp only [Except.ok.injEq, Prod.mk.injEq] at h
            obtain ⟨h1, h2, h3, h4⟩ := h
            subst h1 h2 h3 h4
            exact ⟨c, cur, rfl, rfl, hT, hf, hu, hg⟩
          · rw [hg] at h; simp at h
        · rw [hu] at h; simp at h
      · rw [hf] at h; simp at h
    · simp [hT] at h

/-- C19, as amended. Every successful `RefreshToken r` with a device repository,
its writes running on the database `dbAtWrite` that the store holds by then (the
database `db` of its reads when no other call intervened), issues exactly one
`RevokeByID`, for the session it found active for (subject of `r`, hex SHA-256
of `r`), followed by exactly one `UpsertDevice`, of a record whose user is that
subject, whose `RefreshTokenHash` is the hex SHA-256 of the newly returned
refresh credential (the credential enters the record through the hash only),
and whose `DeviceName`, `DeviceType` and `PushNotificationToken` are those of
that session; the database returned is the result of these two statements, each
executed or failed. Exactly that session becomes revoked and exactly one new
active row is appended when the store executes both statements, the session
found is still in the table as it was found when the revocation runs, session
identifiers are unique and no row exists yet for (subject, new hash). Otherwise
the call is successful all the same and a write is missing: a failed
revocation, and one that runs when the session is already revoked, change no
row; a failed upsert leaves the table as the revocation left it, and an upsert
for which a row of (subject, new hash) exists adds no row. -/
theorem C19_rotation_writes (L : Libs) (s : AuthService) (env : Env) (db dbAtWrite db1 : DB)
    (r a' r' : String) (hrepo : s.hasDeviceRepo = true)
    (h1 : RefreshTokenInterleaved L s env db dbAtWrite r = ((a', r', none), db1)) :
    ∃ (c : CustomClaims) (cur : UserDevice) (user : User) (newDev : UserDevice),
      ValidateToken L s.tokenManager env.now r = .ok c ∧
      FindActiveByUserAndHash db env.findFault c.Subject (L.sha256hex r) = (some cur, none) ∧
      cur ∈ db.user_devices ∧ cur.UserID = c.Subject ∧ cur.RefreshTokenHash = L.sha256hex r ∧
      cur.RevokedAt = none ∧
      user.ID = c.Subject ∧
      newDev =
        { ID := uuidNil, UserID := c.Subject, RefreshTokenHash := L.sha256hex r'
          DeviceName := cur.DeviceName, DeviceType := cur.DeviceType
          PushNotificationToken := cur.PushNotificationToken, LastLoginAt := env.loginTime
          CreatedAt := zeroTime, RevokedAt := none } ∧
      db1 = (UpsertDevice (RevokeByID dbAtWrite env.revokeFault env.revokeTime cur.ID).2
        env.upsertFault env.deviceID env.createTime newDev).2 ∧
      (dbAtWrite = db → RefreshToken L s env db r = ((a', r', none), db1)) ∧
      (env.revokeFault = none → env.upsertFault = none →
        cur ∈ dbAtWrite.user_devices → UniqueID dbAtWrite.user_devices →
        (∀ d ∈ dbAtWrite.user_devices,
          ¬ (d.UserID = c.Subject ∧ d.RefreshTokenHash = L.sha256hex r')) →
        db1.user_devices =
          dbAtWrite.user_devices.map
            (fun d => if d = cur then { cur with RevokedAt := some env.revokeTime } else d) ++
          [{ newDev with ID := env.deviceID, CreatedAt := env.createTime }]) ∧
      ((env.revokeFault ≠ none ∨
          ∀ d ∈ dbAtWrite.user_devices, d.ID = cur.ID → d.RevokedAt ≠ none) →
        (RevokeByID dbAtWrite env.revokeFault env.revokeTime cur.ID).2 = dbAtWrite) ∧
      (env.upsertFault ≠ none →
        db1 = (RevokeByID dbAtWrite env.revokeFault env.revokeTime cur.ID).2) ∧
      ((∃ d ∈ dbAtWrite.user_devices,
          d.UserID = c.Subject ∧ d.RefreshTokenHash = L.sha256hex r') →
        db1.user_devices.length = dbAtWrite.user_devices.length) := by
  unfold RefreshTokenInterleaved at h1
  rcases hread : RefreshTokenRead L s env db r with e | ⟨co, user, a2, r2⟩
  · rw [hread] at h1
    simp at h1
  rw [hread] at h1
  simp only [Prod.mk.injEq, and_true] at h1
  obtain ⟨⟨ha, hr⟩, hw⟩ := h1
  subst ha hr
  obtain ⟨c, cur, hco, hv, hT, hf, hu, hg⟩ :=
    RefreshTokenRead_ok_inv L s env db r co user a2 r2 hrepo hread
  subst hco
  obtain ⟨_, hmem, hcu, hch, hact⟩ := FindActive_some _ _ _ _ _ hf
  have huid := FindByID_some _ _ _ _ hu
  have hnd : rotatedDevice L user (some cur) r2 env.loginTime =
      { ID := uuidNil, UserID := c.Subject, RefreshTokenHash := L.sha256hex r2
        DeviceName := cur.DeviceName, DeviceType := cur.DeviceType
        PushNotificationToken := cur.PushNotificationToken, LastLoginAt := env.loginTime
        CreatedAt := zeroTime, RevokedAt := none } := by
    unfold rotatedDevice hashRefreshToken
    rw [huid]
  have hdb : db1 = (UpsertDevice (RevokeByID dbAtWrite env.revokeFault env.revokeTime cur.ID).2
      env.upsertFault env.deviceID env.createTime
      { ID := uuidNil, UserID := c.Subject, RefreshTokenHash := L.sha256hex r2
        DeviceName := cur.DeviceName, DeviceType := cur.DeviceType
        PushNotificationToken := cur.PushNotificationToken, LastLoginAt := env.loginTime
        CreatedAt := zeroTime, RevokedAt := none }).2 := by
    rw [← hw, ← hnd]
    unfold RefreshTokenWrite
    simp only [hrepo, if_true]
  refine ⟨c, cur, user, _, hv, hf, hmem, hcu, hch, hact, huid, rfl, hdb, ?_, ?_, ?_, ?_, ?_⟩
  · intro hsame
    subst hsame
    rw [RefreshToken_eq_phases]
    unfold RefreshTokenInterleaved
    rw [hread]
    simp only [hw]
  · intro hrf hup hin hID hnew
    rw [hdb, hrf, hup]
    have hrev := RevokeByID_unique dbAtWrite env.revokeTime cur hact hin hID
    rw [UpsertDevice_insert _ _ _ _ rfl rfl, hrev]
    intro d hd
    rw [hrev] at hd
    obtain ⟨d0, hd0, rfl⟩ := List.mem_map.1 hd
    have := hnew d0 hd0
    by_cases hc : d0 = cur
    · subst hc
      simpa using this
    · simpa [hc] using this
  · rintro (hrf | hgone)
    · cases hfault : env.revokeFault with
      | none => exact absurd hfault hrf
      | some msg => rfl
    · cases hfault : env.revokeFault with
      | none => rw [RevokeByID_no_active dbAtWrite env.revokeTime cur.ID hgone]
      | some msg => rfl
  · intro hup
    rw [hdb]
    cases hfault : env.upsertFault with
    | none => exact absurd hfault hup
    | some msg => rfl
  · rintro ⟨d0, hd0, hu0, hh0⟩
    rw [hdb, UpsertDevice_conflict, RevokeByID_length]
    cases hfault : env.revokeFault with
    | some msg => exact ⟨d0, hd0, hu0, hh0⟩
    | none =>
      refine ⟨_, List.mem_map.2 ⟨d0, hd0, rfl⟩, ?_⟩
      split_ifs <;> exact ⟨hu0, hh0⟩

set_option maxRecDepth 100000 in
/-- C19 at concrete inputs: the rotation of `refreshTok0` in `env0` over `db0`,
no other call intervening. It returns the pair issued with identifiers `ja2` and
`jr2` and leaves `dbRotated`, whose table is the revoked session `d1` followed
by the new session `d2`. -/
theorem C19_rotation_writes_witness :
    svcTwo.hasDeviceRepo = true ∧
    RefreshToken Ref.libs svcTwo env0 db0 refreshTok0 =
      (((GenerateTokens Ref.libs tmTwo env0.issueTime "ja2" "jr2" "u1").1,
        (GenerateTokens Ref.libs tmTwo env0.issueTime "ja2" "jr2" "u1").2.1, none), dbRotated) ∧
    UniqueID db0.user_devices ∧
    dbRotated.user_devices =
      [{ dev1 with RevokedAt := some env0.revokeTime },
        { ID := "d2", UserID := "u1"
          RefreshTokenHash := Ref.libs.sha256hex
            (GenerateTokens Ref.libs tmTwo env0.issueTime "ja2" "jr2" "u1").2.1
          DeviceName := dev1.DeviceName, DeviceType := dev1.DeviceType
          PushNotificationToken := dev1.PushNotificationToken
          LastLoginAt := env0.loginTime, CreatedAt := env0.createTime, RevokedAt := none }] ∧
    ∃ (c : CustomClaims) (cur : UserDevice) (user : User) (newDev : UserDevice),
      ValidateToken Ref.libs svcTwo.tokenManager env0.now refreshTok0 = .ok c ∧
      FindActiveByUserAndHash db0 env0.findFault c.Subject (Ref.libs.sha256hex refreshTok0) =
        (some cur, none) ∧
      cur ∈ db0.user_devices ∧ cur.UserID = c.Subject ∧
      cur.RefreshTokenHash = Ref.libs.sha256hex refreshTok0 ∧
      cur.RevokedAt = none ∧
      user.ID = c.Subject ∧
      newDev =
        { ID := uuidNil, UserID := c.Subject
          RefreshTokenHash := Ref.libs.sha256hex
            (GenerateTokens Ref.libs tmTwo env0.issueTime "ja2" "jr2" "u1").2.1
          DeviceName := cur.DeviceName, DeviceType := cur.DeviceType
          PushNotificationToken := cur.PushNotificationToken, LastLoginAt := env0.loginTime
          CreatedAt := zeroTime, RevokedAt := none } ∧
      dbRotated = (UpsertDevice (RevokeByID db0 env0.revokeFault env0.revokeTime cur.ID).2
        env0.upsertFault env0.deviceID env0.createTime newDev).2 ∧
      (db0 = db0 → RefreshToken Ref.libs svcTwo env0 db0 refreshTok0 =
        (((GenerateTokens Ref.libs tmTwo env0.issueTime "ja2" "jr2" "u1").1,
          (GenerateTokens Ref.libs tmTwo env0.issueTime "ja2" "jr2" "u1").2.1, none),
          dbRotated)) ∧
      (env0.revokeFault = none → env0.upsertFault = none →
        cur ∈ db0.user_devices → UniqueID db0.user_devices →
        (∀ d ∈ db0.user_devices,
          ¬ (d.UserID = c.Subject ∧ d.RefreshTokenHash = Ref.libs.sha256hex
            (GenerateTokens Ref.libs tmTwo env0.issueTime "ja2" "jr2" "u1").2.1)) →
        dbRotated.user_devices =
          db0.user_devices.map
            (fun d => if d = cur then { cur with RevokedAt := some env0.revokeTime } else d) ++
          [{ newDev with ID := env0.deviceID, CreatedAt := env0.createTime }]) ∧
      ((env0.revokeFault ≠ none ∨
          ∀ d ∈ db0.user_devices, d.ID = cur.ID → d.RevokedAt ≠ none) →
        (RevokeByID db0 env0.revokeFault env0.revokeTime cur.ID).2 = db0) ∧
      (env0.upsertFault ≠ none →
        dbRotated = (RevokeByID db0 env0.revokeFault env0.revokeTime cur.ID).2) ∧
      ((∃ d ∈ db0.user_devices,
          d.UserID = c.Subject ∧ d.RefreshTokenHash = Ref.libs.sha256hex
            (GenerateTokens Ref.libs tmTwo env0.issueTime "ja2" "jr2" "u1").2.1) →
        dbRotated.user_devices.length = db0.user_devices.length) :=
  ⟨rfl, by decide, List.pairwise_singleton _ _, by decide,
    C19_rotation_writes Ref.libs svcTwo env0 db0 db0 dbRotated refreshTok0
      (GenerateTokens Ref.libs tmTwo env0.issueTime "ja2" "jr2" "u1").1
      (GenerateTokens Ref.libs tmTwo env0.issueTime "ja2" "jr2" "u1").2.1 rfl (by decide)⟩

set_option maxRecDepth 100000 in
/-- C19 as stated fails. (1) A `RefreshToken` whose revocation round trip fails
is successful and leaves no session revoked. (2) One whose upsert round trip
fails is successful and adds no session. (3) A call that found the session `d1`
active in `db0` and whose writes run after another call has rotated the same
credential is successful, the store executes both its statements, and its
`RevokeByID` changes no row: it revokes no session. -/
theorem C19_counterexample :
    ((RefreshToken Ref.libs svcTwo envRevokeFails db0 refreshTok0).1.2.2 = none ∧
      dbRevokeFailed.user_devices.all (fun d => decide (d.RevokedAt = none)) = true) ∧
    ((RefreshToken Ref.libs svcTwo envUpsertFails db0 refreshTok0).1.2.2 = none ∧
      (RefreshToken Ref.libs svcTwo envUpsertFails db0 refreshTok0).2.user_devices.length = 1) ∧
    (FindActiveByUserAndHash db0 envB.findFault "u1" (hashRefreshToken Ref.libs refreshTok0) =
        (some dev1, none) ∧
      (RefreshTokenInterleaved Ref.libs svcTwo envB db0 dbRotated refreshTok0).1.2.2 = none ∧
      envB.revokeFault = none ∧ envB.upsertFault = none ∧
      RevokeByID dbRotated envB.revokeFault envB.revokeTime dev1.ID = (none, dbRotated)) := by
  exact ⟨⟨by decide, by decide⟩, ⟨by decide, by decide⟩,
    by decide, by decide, rfl, rfl, by decide⟩

end GoApp
